import Mathlib

/-!
# TARS flight software: Kalman-filter flight-phase state machine and estimator

A shallow embedding of `KalmanFSM::tickFSM` (KalmanFSM.cpp) and of the linear
Kalman filter (kalmanFilter.cpp), with the properties of the natural-language
specification stated and proved (or refuted) over it.

Conventions of the embedding
* `float`/`double` values are exact rationals (`ℚ`): the claims are about exact
  arithmetic, and `ℚ` keeps every definition executable.
* `systime_t` values are naturals below `2^32`; subtraction of two tick counts
  wraps modulo `2^32` (`systimeSub`).
* Global objects read by a function (the abort flag, the system clock, the
  latest published estimate, the estimate fifo, the sensors) are explicit inputs.
* Mutex lock/unlock pairs have no effect on the sequential behaviour and are
  not represented.
-/

namespace TARS

/-! ## Flight phases -/

/-- Modelled from the spec: the enumeration `FSM_State` is declared in
`rocketFSM.h`, which is not among the sources. The variants and their order are
those of the "Flight phase" paragraph of the data model; the names are the ones
used by `tickFSM`. -/
inductive FSM_State
  | STATE_INIT
  | STATE_IDLE
  | STATE_LAUNCH_DETECT
  | STATE_BOOST
  | STATE_BURNOUT_DETECT
  | STATE_COAST_PREGNC
  | STATE_COAST_GNC
  | STATE_APOGEE_DETECT
  | STATE_APOGEE
  | STATE_DROGUE_DETECT
  | STATE_DROGUE
  | STATE_MAIN_DETECT
  | STATE_MAIN
  | STATE_LANDED_DETECT
  | STATE_LANDED
  | STATE_ABORT
  deriving DecidableEq, Repr

/-- The underlying integer of an enumerator (declaration order), used by the
comparisons `>` and `>=` on `FSM_State` in kalmanFilter.cpp. -/
def FSM_State.toNat : FSM_State → Nat
  | .STATE_INIT => 0
  | .STATE_IDLE => 1
  | .STATE_LAUNCH_DETECT => 2
  | .STATE_BOOST => 3
  | .STATE_BURNOUT_DETECT => 4
  | .STATE_COAST_PREGNC => 5
  | .STATE_COAST_GNC => 6
  | .STATE_APOGEE_DETECT => 7
  | .STATE_APOGEE => 8
  | .STATE_DROGUE_DETECT => 9
  | .STATE_DROGUE => 10
  | .STATE_MAIN_DETECT => 11
  | .STATE_MAIN => 12
  | .STATE_LANDED_DETECT => 13
  | .STATE_LANDED => 14
  | .STATE_ABORT => 15

/-- The hysteresis antechambers: the variants whose name ends in `_DETECT`. -/
def FSM_State.isDetect : FSM_State → Bool
  | .STATE_LAUNCH_DETECT => true
  | .STATE_BURNOUT_DETECT => true
  | .STATE_APOGEE_DETECT => true
  | .STATE_DROGUE_DETECT => true
  | .STATE_MAIN_DETECT => true
  | .STATE_LANDED_DETECT => true
  | _ => false

/-! ## Data read by the state machine -/

/-- The value returned by `KalmanFilter::getState()`: the latest published
estimate `{kalman_x, kalman_vx, kalman_ax}`. -/
structure KalmanState where
  state_est_pos_x : ℚ
  state_est_vel_x : ℚ
  state_est_accel_x : ℚ
  deriving DecidableEq

/-- One sample of the estimate fifo, as pushed by `KalmanFilter::update`:
`(KalmanData){kalman_x, kalman_vx, kalman_ax, kalman_apo, timestamp}`. -/
structure KalmanData where
  kalman_pos_x : ℚ
  kalman_vel_x : ℚ
  kalman_acc_x : ℚ
  kalman_apo : ℚ
  timeStamp_state : Nat
  deriving DecidableEq

/-- The constants of `thresholds.h` used by `tickFSM`. The header is not among
the sources, so the table is a parameter. Accelerations and altitude
differences are rationals, durations are whole milliseconds. -/
structure Thresholds where
  launch_linear_acceleration_thresh : ℚ
  launch_time_thresh : Nat
  coast_thresh : ℚ
  coast_time_thresh : Nat
  burn_time_thresh_ms : Nat
  coast_ac_delay_thresh : Nat
  coast_to_apogee_time_thresh : Nat
  apogee_altimeter_threshold : ℚ
  apogee_time_thresh : Nat
  drogue_acceleration_change_threshold_imu : ℚ
  drogue_acceleration_change_threshold_altimeter : ℚ
  drogue_deploy_time_since_apogee_threshold : Nat
  main_acceleration_change_threshold_imu : ℚ
  main_acceleration_change_threshold_altimeter : ℚ
  main_deploy_time_since_drogue_threshold : Nat
  landing_altimeter_threshold : ℚ
  landing_time_thresh : Nat
  refresh_timer : Nat

/-- Helpers that `tickFSM` calls and whose bodies are outside KalmanFSM.cpp:
the ChibiOS macro `TIME_I2MS` (ticks to milliseconds) and the two windowed
statistics of the FSM base class. They are parameters of the embedding. -/
structure Helpers where
  TIME_I2MS : Nat → Nat
  getAverage : List KalmanData → (KalmanData → ℚ) → Nat → Nat → ℚ
  getSecondDerivativeAverage :
    List KalmanData → (KalmanData → ℚ) → (KalmanData → Nat) → Nat → Nat → ℚ

/-- What one call of `tickFSM` reads from the rest of the program:
`isAborted()`, `chVTGetSystemTime()`, `kalmanFilter.getState()` and
`dataLogger.kalmanFifo` (newest sample first). The clock is read once per
tick. -/
structure TickInput where
  aborted : Bool
  now : Nat
  est : KalmanState
  kalmanFifo : List KalmanData

/-- The member variables of `KalmanFSM` that `tickFSM` reads or writes. -/
structure KalmanFSM where
  rocket_state_ : FSM_State
  launch_time_ : Nat
  burn_timer_ : Nat
  burnout_time_ : Nat
  coast_timer_ : Nat
  apogee_time_ : Nat
  apogee_timer_ : Nat
  drogue_time_ : Nat
  drogue_timer_ : Nat
  main_time_ : Nat
  main_timer_ : Nat
  landing_time_ : Nat
  landing_timer : Nat
  deriving DecidableEq

/-- Difference `a - b` of two `systime_t` tick counts: unsigned 32-bit
subtraction, wrapping modulo `2^32`. -/
def systimeSub (a b : Nat) : Nat :=
  (a % 4294967296 + (4294967296 - b % 4294967296)) % 4294967296

/-- `KalmanFSM::getAltitudeAverage(start, len)`. -/
def getAltitudeAverage (hp : Helpers) (fifo : List KalmanData) (start len : Nat) : ℚ :=
  hp.getAverage fifo (fun k => k.kalman_pos_x) start len

/-- `KalmanFSM::getSecondDerivativeAltitudeAverage(start, len)`. -/
def getSecondDerivativeAltitudeAverage (hp : Helpers) (fifo : List KalmanData)
    (start len : Nat) : ℚ :=
  hp.getSecondDerivativeAverage fifo (fun k => k.kalman_pos_x)
    (fun k => k.timeStamp_state) start len

/-- `KalmanFSM::getAccelerationAverage(start, len)`. -/
def getAccelerationAverage (hp : Helpers) (fifo : List KalmanData) (start len : Nat) : ℚ :=
  hp.getAverage fifo (fun k => k.kalman_acc_x) start len

/-! ## The tick function -/

/-- The `switch (rocket_state_)` of `KalmanFSM::tickFSM`, one arm per `case`,
in source order. An early `break` is the end of the arm. -/
def tickSwitch (th : Thresholds) (hp : Helpers) (fsm : KalmanFSM) (inp : TickInput) :
    KalmanFSM :=
  match fsm.rocket_state_ with
  | .STATE_ABORT => fsm
  | .STATE_INIT => { fsm with rocket_state_ := .STATE_IDLE }
  | .STATE_IDLE =>
    if inp.est.state_est_accel_x > th.launch_linear_acceleration_thresh then
      { fsm with launch_time_ := inp.now, rocket_state_ := .STATE_LAUNCH_DETECT }
    else fsm
  | .STATE_LAUNCH_DETECT =>
    if inp.est.state_est_accel_x < th.launch_linear_acceleration_thresh then
      { fsm with rocket_state_ := .STATE_IDLE }
    else
      let fsm := { fsm with burn_timer_ := systimeSub inp.now fsm.launch_time_ }
      if hp.TIME_I2MS fsm.burn_timer_ > th.launch_time_thresh then
        { fsm with rocket_state_ := .STATE_BOOST }
      else fsm
  | .STATE_BOOST =>
    let fsm := { fsm with burn_timer_ := systimeSub inp.now fsm.launch_time_ }
    if inp.est.state_est_accel_x < th.coast_thresh then
      { fsm with burnout_time_ := inp.now, rocket_state_ := .STATE_BURNOUT_DETECT }
    else if hp.TIME_I2MS fsm.burn_timer_ < th.burn_time_thresh_ms then
      { fsm with rocket_state_ := .STATE_BOOST }
    else
      { fsm with rocket_state_ := .STATE_COAST_PREGNC, burnout_time_ := inp.now }
  | .STATE_BURNOUT_DETECT =>
    if inp.est.state_est_accel_x > th.coast_thresh then
      { fsm with rocket_state_ := .STATE_BOOST }
    else
      let fsm := { fsm with coast_timer_ := systimeSub inp.now fsm.burnout_time_ }
      if hp.TIME_I2MS fsm.coast_timer_ > th.coast_time_thresh then
        { fsm with rocket_state_ := .STATE_COAST_PREGNC }
      else fsm
  | .STATE_COAST_PREGNC =>
    let fsm := { fsm with coast_timer_ := systimeSub inp.now fsm.burnout_time_ }
    if hp.TIME_I2MS fsm.coast_timer_ > th.coast_ac_delay_thresh then
      { fsm with rocket_state_ := .STATE_COAST_GNC }
    else fsm
  | .STATE_COAST_GNC =>
    let fsm := { fsm with coast_timer_ := systimeSub inp.now fsm.burnout_time_ }
    if |inp.est.state_est_vel_x| * (2 / 100) < th.apogee_altimeter_threshold then
      { fsm with rocket_state_ := .STATE_APOGEE_DETECT, apogee_time_ := inp.now }
    else if hp.TIME_I2MS fsm.coast_timer_ < th.coast_to_apogee_time_thresh then
      { fsm with rocket_state_ := .STATE_COAST_GNC }
    else
      { fsm with rocket_state_ := .STATE_APOGEE, apogee_time_ := inp.now }
  | .STATE_APOGEE_DETECT =>
    if |getAltitudeAverage hp inp.kalmanFifo 0 3 - getAltitudeAverage hp inp.kalmanFifo 3 3|
        > th.apogee_altimeter_threshold then
      { fsm with rocket_state_ := .STATE_COAST_GNC }
    else
      let fsm := { fsm with apogee_timer_ := systimeSub inp.now fsm.apogee_time_ }
      if hp.TIME_I2MS fsm.apogee_timer_ > th.apogee_time_thresh then
        { fsm with rocket_state_ := .STATE_APOGEE }
      else fsm
  | .STATE_APOGEE =>
    if |getAccelerationAverage hp inp.kalmanFifo 0 3
          - getAccelerationAverage hp inp.kalmanFifo 3 3|
        > th.drogue_acceleration_change_threshold_imu then
      { fsm with rocket_state_ := .STATE_DROGUE_DETECT }
    else if hp.TIME_I2MS fsm.apogee_timer_ < th.drogue_deploy_time_since_apogee_threshold then
      { fsm with rocket_state_ := .STATE_APOGEE }
    else
      { fsm with rocket_state_ := .STATE_DROGUE, drogue_time_ := inp.now }
  | .STATE_DROGUE_DETECT =>
    if |getSecondDerivativeAltitudeAverage hp inp.kalmanFifo 0 3
          - getSecondDerivativeAltitudeAverage hp inp.kalmanFifo 3 3|
        > th.drogue_acceleration_change_threshold_altimeter then
      { fsm with rocket_state_ := .STATE_DROGUE, drogue_time_ := inp.now }
    else
      { fsm with rocket_state_ := .STATE_APOGEE }
  | .STATE_DROGUE =>
    let fsm := { fsm with drogue_timer_ := systimeSub inp.now fsm.drogue_time_ }
    let afterRefresh : KalmanFSM :=
      if hp.TIME_I2MS fsm.drogue_timer_ < th.main_deploy_time_since_drogue_threshold then
        { fsm with rocket_state_ := .STATE_DROGUE }
      else
        { fsm with rocket_state_ := .STATE_MAIN, main_time_ := inp.now }
    if hp.TIME_I2MS fsm.drogue_timer_ > th.refresh_timer then
      if |getAccelerationAverage hp inp.kalmanFifo 0 3
            - getAccelerationAverage hp inp.kalmanFifo 3 3|
          > th.main_acceleration_change_threshold_imu then
        { fsm with rocket_state_ := .STATE_MAIN_DETECT }
      else afterRefresh
    else afterRefresh
  | .STATE_MAIN_DETECT =>
    if |getSecondDerivativeAltitudeAverage hp inp.kalmanFifo 0 3
          - getSecondDerivativeAltitudeAverage hp inp.kalmanFifo 3 3|
        > th.main_acceleration_change_threshold_altimeter then
      { fsm with rocket_state_ := .STATE_MAIN, main_time_ := inp.now }
    else
      { fsm with rocket_state_ := .STATE_DROGUE }
  | .STATE_MAIN =>
    let fsm := { fsm with main_timer_ := systimeSub inp.now fsm.main_time_ }
    if |getAltitudeAverage hp inp.kalmanFifo 0 3 - getAltitudeAverage hp inp.kalmanFifo 3 3|
        < th.landing_altimeter_threshold then
      { fsm with rocket_state_ := .STATE_LANDED_DETECT, landing_time_ := inp.now }
    else if hp.TIME_I2MS fsm.main_timer_ < th.main_deploy_time_since_drogue_threshold then
      { fsm with rocket_state_ := .STATE_MAIN }
    else
      { fsm with rocket_state_ := .STATE_LANDED, landing_time_ := inp.now }
  | .STATE_LANDED_DETECT =>
    if |getAltitudeAverage hp inp.kalmanFifo 0 3 - getAltitudeAverage hp inp.kalmanFifo 3 3|
        > th.landing_altimeter_threshold then
      { fsm with rocket_state_ := .STATE_MAIN }
    else
      let fsm := { fsm with landing_timer := systimeSub inp.now fsm.landing_time_ }
      if hp.TIME_I2MS fsm.landing_timer > th.landing_time_thresh then
        { fsm with rocket_state_ := .STATE_LANDED }
      else fsm
  | .STATE_LANDED => fsm

/-- `KalmanFSM::tickFSM`: the abort check followed by the switch. -/
def tickFSM (th : Thresholds) (hp : Helpers) (fsm : KalmanFSM) (inp : TickInput) :
    KalmanFSM :=
  let fsm := if inp.aborted then { fsm with rocket_state_ := .STATE_ABORT } else fsm
  tickSwitch th hp fsm inp

/-- The FSM thread: `tickFSM` once per input, in order. -/
def runFSM (th : Thresholds) (hp : Helpers) (fsm : KalmanFSM) (inps : List TickInput) :
    KalmanFSM :=
  inps.foldl (tickFSM th hp) fsm

/-! ## The Kalman filter -/

/-- Fixed-size matrices of `float`, as `Eigen::Matrix<float, m, n>`. -/
abbrev Mat (m n : Nat) := Matrix (Fin m) (Fin n) ℚ

/-- The coefficient assignment `M(i, j) = v`. -/
def setAt {m n : Nat} (M : Mat m n) (i : Fin m) (j : Fin n) (v : ℚ) : Mat m n :=
  fun a b => if a = i ∧ b = j then v else M a b

/-- Eigen's `inverse()` on a fixed-size 2x2 matrix: the adjugate times the
reciprocal of the determinant. (With a zero determinant the `float` code
produces infinities or NaN; here `1 / 0 = 0`, and every statement that depends
on the inverse assumes a non-zero determinant.) -/
def inverse2 (M : Mat 2 2) : Mat 2 2 :=
  let det := M 0 0 * M 1 1 - M 1 0 * M 0 1
  let invdet := 1 / det
  !![M 1 1 * invdet, -M 0 1 * invdet; -M 1 0 * invdet, M 0 0 * invdet]

/-- The member variables of `KalmanFilter` used by kalmanFilter.cpp. The class
declaration (kalmanFilter.h) is not among the sources; the fields are the names
the member functions use, with the matrix sizes their products require. `s_dt`
is the nominal sample interval, a constant of the header. -/
structure KalmanFilter where
  s_dt : ℚ
  x_k : Mat 3 1
  F_mat : Mat 3 3
  H : Mat 2 3
  P_k : Mat 3 3
  Q : Mat 3 3
  R : Mat 2 2
  P_priori : Mat 3 3
  x_priori : Mat 3 1
  K : Mat 3 2
  y_k : Mat 2 1
  B : Mat 3 1
  kalman_x : ℚ
  kalman_vx : ℚ
  kalman_ax : ℚ
  kalman_apo : ℚ
  timestamp : Nat

/-- The filter together with the estimate fifo of the data logger
(`dataLogger.kalmanFifo`, newest sample first), which `update` pushes to. -/
structure KalmanWorld where
  kf : KalmanFilter
  kalmanFifo : List KalmanData

/-- What one filter step reads from the rest of the program:
`getActiveFSM().getFSMState()`, `highG.getAccel().az`, `barometer.getAltitude()`
and `chVTGetSystemTime()`. The phase is read by `kfTickFunction` and again by
`update`; under the cooperative scheduling of the specification no FSM tick
runs inside a filter step, so both reads return the same phase. -/
structure StepInput where
  phase : FSM_State
  az : ℚ
  altitude : ℚ
  now : Nat

/-- Modelled from the spec: `DataLogBuffer::pushKalmanFifo` is declared in
dataLog.h, which is not among the sources. "Push overwrites the oldest sample
when full. Indexed from newest (index 0) backwards." `cap` is the capacity. -/
def pushKalmanFifo (cap : Nat) (d : KalmanData) (fifo : List KalmanData) : List KalmanData :=
  (d :: fifo).take cap

/-- `KalmanFilter::SetQ(dt, sd)`. -/
def SetQ (kf : KalmanFilter) (dt sd : ℚ) : KalmanFilter :=
  let Q := kf.Q
  let Q := setAt Q 0 0 (dt ^ 5 / 20)
  let Q := setAt Q 0 1 (dt ^ 4 / 8 * 80)
  let Q := setAt Q 0 2 (dt ^ 3 / 6)
  let Q := setAt Q 1 1 (dt ^ 3 / 8)
  let Q := setAt Q 1 2 (dt ^ 2 / 2)
  let Q := setAt Q 2 2 dt
  let Q := setAt Q 1 0 (Q 0 1)
  let Q := setAt Q 2 0 (Q 0 2)
  let Q := setAt Q 2 1 (Q 1 2)
  { kf with Q := Q.map (fun q => q * sd) }

/-- `KalmanFilter::SetF(dt)`. -/
def SetF (kf : KalmanFilter) (dt : ℚ) : KalmanFilter :=
  let F := kf.F_mat
  let F := setAt F 0 1 dt
  let F := setAt F 0 2 ((kf.s_dt * dt) / 2)
  let F := setAt F 1 2 dt
  let F := setAt F 0 0 1
  let F := setAt F 1 1 1
  let F := setAt F 2 2 1
  { kf with F_mat := F }

/-- `KalmanFilter::priori()`. -/
def priori (kf : KalmanFilter) : KalmanFilter :=
  let kf := { kf with x_priori := kf.F_mat * kf.x_k }
  { kf with P_priori := (kf.F_mat * kf.P_k * kf.F_mat.transpose) + kf.Q }

/-- `KalmanFilter::update()`. -/
def update (cap : Nat) (w : KalmanWorld) (inp : StepInput) : KalmanWorld :=
  let kf := w.kf
  let kf :=
    if inp.phase.toNat ≥ FSM_State.STATE_APOGEE.toNat then
      { kf with H := setAt kf.H 1 2 0 }
    else kf
  let temp : Mat 2 2 := inverse2 ((kf.H * kf.P_priori * kf.H.transpose) + kf.R)
  let identity : Mat 3 3 := 1
  let kf := { kf with K := (kf.P_priori * kf.H.transpose) * temp }
  let kf := { kf with y_k := setAt kf.y_k 1 0 (inp.az * (981 / 100) - 981 / 1000 - 51 / 100) }
  let kf := { kf with y_k := setAt kf.y_k 0 0 inp.altitude }
  let kf := { kf with x_k := kf.x_priori + kf.K * (kf.y_k - (kf.H * kf.x_priori)) }
  let kf := { kf with P_k := (identity - kf.K * kf.H) * kf.P_priori }
  let kf := { kf with kalman_x := kf.x_k 0 0 }
  let kf := { kf with kalman_vx := kf.x_k 1 0 }
  let kf := { kf with kalman_ax := kf.x_k 2 0 }
  let kf := { kf with timestamp := inp.now }
  { kf := kf
    kalmanFifo := pushKalmanFifo cap
      { kalman_pos_x := kf.kalman_x, kalman_vel_x := kf.kalman_vx, kalman_acc_x := kf.kalman_ax,
        kalman_apo := kf.kalman_apo, timeStamp_state := kf.timestamp } w.kalmanFifo }

/-- `KalmanFilter::kfTickFunction(dt, sd)`; `dt` is in milliseconds. -/
def kfTickFunction (cap : Nat) (w : KalmanWorld) (inp : StepInput) (dt sd : ℚ) : KalmanWorld :=
  if inp.phase.toNat > FSM_State.STATE_IDLE.toNat then
    let kf := SetF w.kf (dt / 1000)
    let kf := SetQ kf (dt / 1000) sd
    let kf := priori kf
    update cap { w with kf := kf } inp
  else w

/-- `KalmanFilter::Initialize()`; `baro i` is the value `barometer.getAltitude()`
returns in iteration `i` of the averaging loop. -/
def Initialize (kf : KalmanFilter) (baro : Nat → ℚ) : KalmanFilter :=
  let sum : ℚ := (List.range 30).foldl (fun sum i => sum + baro i) 0
  let x_k := setAt kf.x_k 0 0 (sum / 30)
  let x_k := setAt x_k 1 0 0
  let x_k := setAt x_k 2 0 0
  let F := kf.F_mat
  let F := setAt F 0 1 kf.s_dt
  let F := setAt F 0 2 ((kf.s_dt * kf.s_dt) / 2)
  let F := setAt F 1 2 kf.s_dt
  let F := setAt F 0 0 1
  let F := setAt F 1 1 1
  let F := setAt F 2 2 1
  let H := setAt kf.H 0 0 1
  let H := setAt H 1 2 1
  let P := kf.P_k
  let P := setAt P 0 0 0
  let P := setAt P 0 1 0
  let P := setAt P 0 2 0
  let P := setAt P 1 1 0
  let P := setAt P 2 2 0
  let P := setAt P 1 2 0
  let P := setAt P 2 1 (P 1 2)
  let P := setAt P 1 0 (P 0 1)
  let P := setAt P 2 0 (P 0 2)
  let P := setAt P 1 0 (P 0 1)
  let Q := kf.Q
  let Q := setAt Q 0 0 (kf.s_dt ^ 5 / 20)
  let Q := setAt Q 0 1 (kf.s_dt ^ 4 / 8 * 80)
  let Q := setAt Q 0 2 (kf.s_dt ^ 3 / 6)
  let Q := setAt Q 1 1 (kf.s_dt ^ 3 / 8)
  let Q := setAt Q 1 2 (kf.s_dt ^ 2 / 2)
  let Q := setAt Q 2 2 kf.s_dt
  let Q := setAt Q 1 0 (Q 0 1)
  let Q := setAt Q 2 0 (Q 0 2)
  let Q := setAt Q 2 1 (Q 1 2)
  let scale_fact : ℚ := 13
  let Q := Q.map (fun q => q * scale_fact)
  let R := setAt kf.R 0 0 2
  let R := setAt R 1 1 (1 / 10)
  let B := setAt kf.B 2 0 (-1)
  { kf with x_k := x_k, F_mat := F, H := H, P_k := P, Q := Q, R := R, B := B }

/-- The Kalman thread after `Initialize`: one `kfTickFunction` per entry, in
order; an entry is the step's inputs with the `dt` and `sd` passed to it. -/
def runKalman (cap : Nat) (w : KalmanWorld) (steps : List (StepInput × ℚ × ℚ)) : KalmanWorld :=
  steps.foldl (fun w st => kfTickFunction cap w st.1 st.2.1 st.2.2) w

/-! ## Concrete scenarios -/

/-- Modelled from the spec: `getAverage` belongs to the FSM base class, which is
not among the sources. "`mean(field, start, len)` — arithmetic mean of `field`
over samples `[start, start+len)` counted from newest", failing closed (0) when
the window is empty or exceeds the number of samples available. -/
def getAverage (fifo : List KalmanData) (f : KalmanData → ℚ) (start len : Nat) : ℚ :=
  if len = 0 ∨ fifo.length < start + len then 0
  else (((fifo.drop start).take len).map f).sum / len

/-- Helpers for the scenarios: a 1 kHz system tick, for which `TIME_I2MS` is
the identity, and the windowed mean of the spec. The second-derivative
statistic is given its fail-closed value 0; no scenario below reaches a phase
that evaluates it. -/
def scenarioHelpers : Helpers where
  TIME_I2MS := fun ticks => ticks
  getAverage := getAverage
  getSecondDerivativeAverage := fun _ _ _ _ _ => 0

/-- A thresholds table with the representative values of the spec's scenarios
(launch 3 g for 250 ms, coast 0.3 g, burn 4500 ms, apogee 1 m for 1500 ms) and
plausible values for the others. -/
def scenarioThresholds : Thresholds where
  launch_linear_acceleration_thresh := 2943 / 100
  launch_time_thresh := 250
  coast_thresh := 2943 / 1000
  coast_time_thresh := 300
  burn_time_thresh_ms := 4500
  coast_ac_delay_thresh := 1000
  coast_to_apogee_time_thresh := 30000
  apogee_altimeter_threshold := 1
  apogee_time_thresh := 1500
  drogue_acceleration_change_threshold_imu := 2
  drogue_acceleration_change_threshold_altimeter := 2
  drogue_deploy_time_since_apogee_threshold := 3000
  main_acceleration_change_threshold_imu := 2
  main_acceleration_change_threshold_altimeter := 2
  main_deploy_time_since_drogue_threshold := 60000
  landing_altimeter_threshold := 1 / 2
  landing_time_thresh := 5000
  refresh_timer := 500

/-- A machine at boot: phase `STATE_INIT`, every time stamp and timer zero. -/
def bootFSM : KalmanFSM where
  rocket_state_ := .STATE_INIT
  launch_time_ := 0
  burn_timer_ := 0
  burnout_time_ := 0
  coast_timer_ := 0
  apogee_time_ := 0
  apogee_timer_ := 0
  drogue_time_ := 0
  drogue_timer_ := 0
  main_time_ := 0
  main_timer_ := 0
  landing_time_ := 0
  landing_timer := 0

/-- An estimate fifo of `n` identical samples: level flight at 3000 m, at rest. -/
def steadyFifo (n : Nat) : List KalmanData :=
  List.replicate n
    { kalman_pos_x := 3000, kalman_vel_x := 0, kalman_acc_x := 0, kalman_apo := 3000,
      timeStamp_state := 0 }

/-- A tick input at clock value `now`: abort flag as given, estimate at rest at
3000 m, fifo of eight identical samples. -/
def steadyTick (aborted : Bool) (now : Nat) : TickInput where
  aborted := aborted
  now := now
  est := { state_est_pos_x := 3000, state_est_vel_x := 0, state_est_accel_x := 0 }
  kalmanFifo := steadyFifo 8

/-- A machine in `STATE_APOGEE_DETECT` that entered it at tick 60000 (launch at
10000, burnout at 14500). -/
def apogeeDetectFSM : KalmanFSM :=
  { bootFSM with
    rocket_state_ := .STATE_APOGEE_DETECT
    launch_time_ := 10000
    burn_timer_ := 4500
    burnout_time_ := 14500
    coast_timer_ := 45500
    apogee_time_ := 60000 }

/-- Modelled from the spec: the member initialisers of `KalmanFilter` are in
kalmanFilter.h, which is not among the sources. The spec gives `F`, `H` and `R`
after initialisation with zeros in every coefficient that `Initialize` does not
write, so the constructed filter has all matrices zero; `s_dt` is the nominal
sample interval. -/
def constructedFilter (s_dt : ℚ) : KalmanFilter where
  s_dt := s_dt
  x_k := 0
  F_mat := 0
  H := 0
  P_k := 0
  Q := 0
  R := 0
  P_priori := 0
  x_priori := 0
  K := 0
  y_k := 0
  B := 0
  kalman_x := 0
  kalman_vx := 0
  kalman_ax := 0
  kalman_apo := 0
  timestamp := 0

/-- The filter of the scenarios: constructed with the 50 ms nominal interval
(the Kalman task period) and initialised on a pad at 200 m. -/
def padFilter : KalmanFilter :=
  Initialize (constructedFilter (1 / 20)) (fun _ => 200)

/-- The scenario world: the initialised filter and an empty estimate fifo. -/
def padWorld : KalmanWorld where
  kf := padFilter
  kalmanFifo := []

/-- A filter step input of the scenarios: the given phase, 1 g on the high-g
accelerometer, the barometer at 200 m, clock at 5000. -/
def padStep (phase : FSM_State) : StepInput where
  phase := phase
  az := 1
  altitude := 200
  now := 5000

/-! ## Closed forms of the specification -/

/-- The state-transition matrix as the specification writes it:
`F(dt) = [[1, dt, dt²/2], [0, 1, dt], [0, 0, 1]]`. -/
def closedFormF (dt : ℚ) : Mat 3 3 :=
  !![1, dt, dt ^ 2 / 2; 0, 1, dt; 0, 0, 1]

/-- The process-noise matrix as the specification writes it, before the
scaling by the spectral density: `Q00 = dt^5/20`, `Q01 = dt^4*80/8`,
`Q02 = dt^3/6`, `Q11 = dt^3/8`, `Q12 = dt^2/2`, `Q22 = dt`, symmetric. -/
def closedFormQ (dt : ℚ) : Mat 3 3 :=
  !![dt ^ 5 / 20, dt ^ 4 * 80 / 8, dt ^ 3 / 6;
     dt ^ 4 * 80 / 8, dt ^ 3 / 8, dt ^ 2 / 2;
     dt ^ 3 / 6, dt ^ 2 / 2, dt]

/-- The measurement matrix in force during a step: the filter's `H` with
`H(1,2)` zeroed when the phase is `STATE_APOGEE` or later. -/
def measurementInForce (H : Mat 2 3) (phase : FSM_State) : Mat 2 3 :=
  if FSM_State.STATE_APOGEE.toNat ≤ phase.toNat then setAt H 1 2 0 else H

/-- The measurement vector of the specification, step 6: barometer altitude
`b` and vertical acceleration `az·9.81 − 1.491`. -/
def measurement (b az : ℚ) : Mat 2 1 :=
  !![b; az * (981 / 100) - 1491 / 1000]

/-- Priori state of the specification: `x⁻ = F·x`. -/
def priorState (F : Mat 3 3) (x : Mat 3 1) : Mat 3 1 :=
  F * x

/-- Priori covariance of the specification: `P⁻ = F·P·Fᵀ + Q`. -/
def priorCovariance (F P Q : Mat 3 3) : Mat 3 3 :=
  F * P * F.transpose + Q

/-- Innovation covariance of the specification: `H·P⁻·Hᵀ + R`. -/
def innovationCovariance (H : Mat 2 3) (Pm : Mat 3 3) (R : Mat 2 2) : Mat 2 2 :=
  H * Pm * H.transpose + R

/-- Gain of the specification, `K = P⁻·Hᵀ·Si`, where `Si` stands for the inverse
of the innovation covariance. -/
def gain (Pm : Mat 3 3) (H : Mat 2 3) (Si : Mat 2 2) : Mat 3 2 :=
  Pm * H.transpose * Si

/-- Posteriori state of the specification: `x = x⁻ + K·(y − H·x⁻)`. -/
def posteriorState (xm : Mat 3 1) (K : Mat 3 2) (y : Mat 2 1) (H : Mat 2 3) : Mat 3 1 :=
  xm + K * (y - H * xm)

/-- Posteriori covariance of the specification: `P = (I − K·H)·P⁻`. -/
def posteriorCovariance (K : Mat 3 2) (H : Mat 2 3) (Pm : Mat 3 3) : Mat 3 3 :=
  (1 - K * H) * Pm

/-- The priori covariance read off the specification alone for a step of
`dt` milliseconds: `F` and `Q` are the closed forms at `dt/1000`. -/
def claimedPrior (kf : KalmanFilter) (dt sd : ℚ) : Mat 3 3 :=
  priorCovariance (closedFormF (dt / 1000)) kf.P_k (sd • closedFormQ (dt / 1000))

/-- The innovation covariance read off the specification alone, with the
measurement matrix of the incoming filter state. -/
def claimedInnovation (kf : KalmanFilter) (dt sd : ℚ) : Mat 2 2 :=
  innovationCovariance kf.H (claimedPrior kf dt sd) kf.R

/-- The new state vector read off the specification alone: closed-form `F` and
`Q`, the measurement matrix of the incoming filter state, sensor readings `b`
and `az`; `Si` stands for the inverse of `claimedInnovation`. -/
def claimedState (kf : KalmanFilter) (dt sd b az : ℚ) (Si : Mat 2 2) : Mat 3 1 :=
  posteriorState (priorState (closedFormF (dt / 1000)) kf.x_k)
    (gain (claimedPrior kf dt sd) kf.H Si) (measurement b az) kf.H

/-- A filter in powered ascent: the initialised filter with the state vector
at 500 m, climbing at 100 m/s and accelerating at 20 m/s². -/
def ascentFilter : KalmanFilter :=
  { padFilter with x_k := !![500; 100; 20] }

/-- The ascent filter with an empty estimate fifo. -/
def ascentWorld : KalmanWorld where
  kf := ascentFilter
  kalmanFifo := []

/-- A filter step input in `STATE_BOOST`: 3 g on the high-g accelerometer, the
barometer at 505 m, clock at 12000. -/
def boostStep : StepInput where
  phase := .STATE_BOOST
  az := 3
  altitude := 505
  now := 12000

/-- A filter that has converged: the initialised filter with the covariance
`P = 0.0001·I` (symmetric, positive definite). -/
def confidentFilter : KalmanFilter :=
  { padFilter with P_k := Matrix.diagonal (fun _ => 1 / 10000) }

/-- The converged filter with an empty estimate fifo. -/
def confidentWorld : KalmanWorld where
  kf := confidentFilter
  kalmanFifo := []

/-- The initialised filter with the covariance `P = I`. -/
def unitCovFilter : KalmanFilter :=
  { padFilter with P_k := 1 }

/-- The unit-covariance filter with an empty estimate fifo. -/
def unitCovWorld : KalmanWorld where
  kf := unitCovFilter
  kalmanFifo := []

/-! ## Vocabulary of the transition table -/

/-- The six transition time stamps of the phase context: launch, burnout,
apogee, drogue, main and landing. The elapsed counters (`burn_timer_`,
`coast_timer_`, ...) are not among them. -/
structure TransitionTimes where
  launch_time : Nat
  burnout_time : Nat
  apogee_time : Nat
  drogue_time : Nat
  main_time : Nat
  landing_time : Nat
  deriving DecidableEq

/-- The transition time stamps held by a machine. -/
def KalmanFSM.times (fsm : KalmanFSM) : TransitionTimes where
  launch_time := fsm.launch_time_
  burnout_time := fsm.burnout_time_
  apogee_time := fsm.apogee_time_
  drogue_time := fsm.drogue_time_
  main_time := fsm.main_time_
  landing_time := fsm.landing_time_

/-- Time elapsed at clock value `now` since the time stamp `since`, in
milliseconds, the way the arms of `tickFSM` measure it:
`TIME_I2MS(chVTGetSystemTime() - since)`. -/
def elapsedMs (hp : Helpers) (now since : Nat) : Nat :=
  hp.TIME_I2MS (systimeSub now since)

/-- The quantity `|A_win(0) − A_win(3)|` of the transition table:
`fabs(getAltitudeAverage(0, 3) - getAltitudeAverage(3, 3))`. -/
def altitudeChange (hp : Helpers) (fifo : List KalmanData) : ℚ :=
  |getAltitudeAverage hp fifo 0 3 - getAltitudeAverage hp fifo 3 3|

/-- The quantity `|a_win(0) − a_win(3)|` of the transition table:
`fabs(getAccelerationAverage(0, 3) - getAccelerationAverage(3, 3))`. -/
def accelerationChange (hp : Helpers) (fifo : List KalmanData) : ℚ :=
  |getAccelerationAverage hp fifo 0 3 - getAccelerationAverage hp fifo 3 3|

/-- The quantity `|A2_win(0) − A2_win(3)|` of the transition table:
`fabs(getSecondDerivativeAltitudeAverage(0, 3) - getSecondDerivativeAltitudeAverage(3, 3))`. -/
def curvatureChange (hp : Helpers) (fifo : List KalmanData) : ℚ :=
  |getSecondDerivativeAltitudeAverage hp fifo 0 3
    - getSecondDerivativeAltitudeAverage hp fifo 3 3|

/-- An estimate fifo of a steady descent: eight samples, newest first, each
2 m above the one after it in time, at rest in acceleration. The newest
three-sample altitude window averages 1002 m, the one before it 1008 m. -/
def descentFifo : List KalmanData :=
  (List.range 8).map fun k =>
    { kalman_pos_x := 1000 + 2 * (k : ℚ), kalman_vel_x := -10, kalman_acc_x := 0,
      kalman_apo := 3000, timeStamp_state := 0 }

/-- A tick input during the descent at clock value `now`: abort flag unset. -/
def descentTick (now : Nat) : TickInput where
  aborted := false
  now := now
  est := { state_est_pos_x := 1000, state_est_vel_x := -10, state_est_accel_x := 0 }
  kalmanFifo := descentFifo

/-- A tick input under thrust at clock value `now`: abort flag unset, climbing
at 100 m/s and accelerating at 50 m/s². -/
def thrustTick (now : Nat) : TickInput where
  aborted := false
  now := now
  est := { state_est_pos_x := 300, state_est_vel_x := 100, state_est_accel_x := 50 }
  kalmanFifo := steadyFifo 8

/-- A tick input while coasting upwards at clock value `now`: abort flag unset,
climbing at 100 m/s with no thrust. -/
def coastTick (now : Nat) : TickInput where
  aborted := false
  now := now
  est := { state_est_pos_x := 2000, state_est_vel_x := 100, state_est_accel_x := -10 }
  kalmanFifo := steadyFifo 8

/-- A machine in `STATE_BOOST` launched at tick 10000. -/
def boostFSM : KalmanFSM :=
  { bootFSM with
    rocket_state_ := .STATE_BOOST
    launch_time_ := 10000
    burn_timer_ := 300 }

/-- A machine in `STATE_COAST_GNC`: launch at 10000, burnout at 14500. -/
def coastFSM : KalmanFSM :=
  { bootFSM with
    rocket_state_ := .STATE_COAST_GNC
    launch_time_ := 10000
    burn_timer_ := 4500
    burnout_time_ := 14500
    coast_timer_ := 1006 }

/-- A machine in `STATE_DROGUE`: apogee at 60000, drogue at 65000. -/
def drogueFSM : KalmanFSM :=
  { apogeeDetectFSM with
    rocket_state_ := .STATE_DROGUE
    apogee_timer_ := 1501
    drogue_time_ := 65000 }

/-- A machine in `STATE_MAIN`: drogue at 65000, main at 100000. -/
def mainFSM : KalmanFSM :=
  { drogueFSM with
    rocket_state_ := .STATE_MAIN
    drogue_timer_ := 35000
    main_time_ := 100000 }

/-- A machine in `STATE_IDLE`, as the boot machine is after its first tick. -/
def idleFSM : KalmanFSM :=
  { bootFSM with rocket_state_ := .STATE_IDLE }

/-- A machine in `STATE_LAUNCH_DETECT` that saw the launch at tick 10000. -/
def launchDetectFSM : KalmanFSM :=
  { bootFSM with rocket_state_ := .STATE_LAUNCH_DETECT, launch_time_ := 10000 }

/-- A machine in `STATE_DROGUE_DETECT`: apogee at 60000, confirmed at 61501. -/
def drogueDetectFSM : KalmanFSM :=
  { apogeeDetectFSM with rocket_state_ := .STATE_DROGUE_DETECT, apogee_timer_ := 1501 }

/-- A machine in `STATE_LANDED_DETECT` that entered it at tick 200000. -/
def landedDetectFSM : KalmanFSM :=
  { mainFSM with
    rocket_state_ := .STATE_LANDED_DETECT
    main_timer_ := 100000
    landing_time_ := 200000 }

/-- A machine in `STATE_LANDED`, landing confirmed 5001 ms after tick 200000. -/
def landedFSM : KalmanFSM :=
  { landedDetectFSM with rocket_state_ := .STATE_LANDED, landing_timer := 5001 }

/-- The ticks of a powered ascent from boot: one quiet tick at 9000, thrust from
10000 on, still thrusting 4500 ms after launch detection. -/
def ascentTicks : List TickInput :=
  [steadyTick false 9000, thrustTick 10000, thrustTick 10251, thrustTick 14500]

/-- A filter whose measurement noise holds earlier content off the diagonal
before `Initialize` runs. -/
def staleNoiseFilter : KalmanFilter :=
  { constructedFilter (1 / 20) with R := !![12, 1; 1, 12] }

/-! ## The telemetry command handler -/

/-- `enum CommandType` of telemetry.h. -/
inductive CommandType where
  | SET_FREQ
  | SET_CALLSIGN
  | ABORT
  | TEST_FLAPS
  | EMPTY
  deriving DecidableEq, Repr

/-- `struct telemetry_command` of telemetry.h. The members `callsign`, `freq`
and `do_abort` share one union in the source; each is kept here as the view
of the union that `handleCommand` reads under that name. `cmd_id` is an `int`. -/
structure telemetry_command where
  command : CommandType
  cmd_id : Int
  callsign : List Char
  freq : ℚ
  do_abort : Bool
  verify : List Char

/-- `struct command_handler_struct` of telemetry.h. -/
structure command_handler_struct where
  should_change : Bool
  new_freq : ℚ

/-- The members of `class Telemetry` that `handleCommand` reads or writes. -/
structure Telemetry where
  abort : Bool
  last_command_id : Int
  callsign : List Char
  freq_status : command_handler_struct

/-- The conversion `(int16_t)n` of an `int`. -/
def toInt16 (n : Int) : Int :=
  (n + 32768) % 65536 - 32768

/-- `Telemetry::handleCommand(cmd)`; the debug prints are left out. -/
def handleCommand (t : Telemetry) (cmd : telemetry_command) : Telemetry :=
  if cmd.verify ≠ ['A', 'Y', 'B', 'E', 'R', 'K'] then t
  else if t.last_command_id = cmd.cmd_id then t
  else
    let t := { t with last_command_id := toInt16 cmd.cmd_id }
    let t :=
      if cmd.command = CommandType.SET_FREQ then
        { t with freq_status := { should_change := true, new_freq := cmd.freq } }
      else t
    let t :=
      if cmd.command = CommandType.SET_CALLSIGN then { t with callsign := cmd.callsign }
      else t
    let t :=
      if cmd.command = CommandType.ABORT then
        (if !t.abort then { t with abort := !t.abort } else t)
      else t
    t

/-- A telemetry object as declared: no abort, `last_command_id = -1`, callsign
"NO SIGN", no pending frequency change. -/
def freshTelemetry : Telemetry where
  abort := false
  last_command_id := -1
  callsign := ['N', 'O', ' ', 'S', 'I', 'G', 'N', Char.ofNat 0]
  freq_status := { should_change := false, new_freq := 0 }

/-- A verified command of the given type and id. -/
def verifiedCommand (command : CommandType) (cmd_id : Int) : telemetry_command where
  command := command
  cmd_id := cmd_id
  callsign := ['K', 'D', '9', 'Z', 'P', 'M', Char.ofNat 0, Char.ofNat 0]
  freq := 434
  do_abort := true
  verify := ['A', 'Y', 'B', 'E', 'R', 'K']

/-! ## The GPS sensor cache -/

/-- The record `GPSSensor::update` pushes to the GPS fifo, fields in the order
of the initialiser in the source. -/
structure GpsData where
  latitude : ℚ
  longitude : ℚ
  altitude : ℚ
  siv_count : Nat
  fix_type : Nat
  posLock : Bool
  timeStamp : Nat

/-- What one call of `GPSSensor::update` gets from the receiver driver and the
clock: the result of `GNSS.getPVT(20)`, the values the driver getters return
after it, and `chVTGetSystemTime()`. -/
structure GNSSRead where
  getPVT : Bool
  getLatitude : Int
  getLongitude : Int
  getAltitudeMSL : Int
  getFixType : Nat
  getSIV : Nat
  now : Nat

/-- The cached fields of `class GPSSensor`. -/
structure GPSSensor where
  timeStamp : Nat
  latitude : ℚ
  longitude : ℚ
  altitude : ℚ
  fix_type : Nat
  pos_lock : Bool
  SIV_count : Nat

/-- The GPS cache together with the GPS fifo of the data logger (newest first). -/
structure GpsWorld where
  gps : GPSSensor
  gpsFifo : List GpsData

/-- Modelled from the spec: `dataLogger.pushGpsFifo`, a ring buffer in which a
push overwrites the oldest sample when full; `cap` is its capacity. -/
def pushGpsFifo (cap : Nat) (d : GpsData) (fifo : List GpsData) : List GpsData :=
  (d :: fifo).take cap

/-- `GPSSensor::update()`; `enable_gps` tells whether `ENABLE_GPS` is defined. -/
def GPSSensor.update (cap : Nat) (enable_gps : Bool) (w : GpsWorld) (r : GNSSRead) :
    GpsWorld :=
  if enable_gps then
    let succeed := r.getPVT
    if !succeed then w
    else
      let timeStamp := r.now
      let latitude : ℚ := r.getLatitude / 10000000
      let longitude : ℚ := r.getLongitude / 10000000
      let altitude : ℚ := r.getAltitudeMSL
      let fix_type := r.getFixType
      let pos_lock := decide (fix_type = 3)
      let SIV_count := r.getSIV
      { gps :=
          { timeStamp := timeStamp, latitude := latitude, longitude := longitude,
            altitude := altitude, fix_type := fix_type, pos_lock := pos_lock,
            SIV_count := SIV_count }
        gpsFifo :=
          pushGpsFifo cap
            { latitude := latitude, longitude := longitude, altitude := altitude,
              siv_count := SIV_count, fix_type := fix_type, posLock := pos_lock,
              timeStamp := timeStamp }
            w.gpsFifo }
  else w

/-- `GPSSensor::getLatitude()`. -/
def GPSSensor.getLatitude (g : GPSSensor) : ℚ := g.latitude

/-- `GPSSensor::getLongitude()`. -/
def GPSSensor.getLongitude (g : GPSSensor) : ℚ := g.longitude

/-- `GPSSensor::getAltitude()`. -/
def GPSSensor.getAltitude (g : GPSSensor) : ℚ := g.altitude

/-- `GPSSensor::getFixType()`. -/
def GPSSensor.getFixType (g : GPSSensor) : Nat := g.fix_type

/-- `GPSSensor::getPosLock()`. -/
def GPSSensor.getPosLock (g : GPSSensor) : Bool := g.pos_lock

/-- `GPSSensor::getSIVCount()`. -/
def GPSSensor.getSIVCount (g : GPSSensor) : Nat := g.SIV_count

/-- A cache holding a fix over the launch site with one record logged. -/
def fixedGpsWorld : GpsWorld where
  gps :=
    { timeStamp := 4000, latitude := 401 / 10, longitude := -882 / 10, altitude := 220000,
      fix_type := 3, pos_lock := true, SIV_count := 9 }
  gpsFifo :=
    [{ latitude := 401 / 10, longitude := -882 / 10, altitude := 220000, siv_count := 9,
       fix_type := 3, posLock := true, timeStamp := 4000 }]

/-- A failed position read at clock value 4200. -/
def failedRead : GNSSRead where
  getPVT := false
  getLatitude := 0
  getLongitude := 0
  getAltitudeMSL := 0
  getFixType := 0
  getSIV := 0
  now := 4200

/-! ## The servo thread of the first test flight -/

/-- The values of `*rocketStatePointer` that `servo_THD` names in its `switch`;
every other value of the state is `other` and takes the `default` arm. -/
inductive ServoState where
  | STATE_INIT
  | STATE_IDLE
  | STATE_LAUNCH_DETECT
  | STATE_BOOST
  | STATE_COAST
  | STATE_APOGEE_DETECT
  | other (code : Nat)
  deriving DecidableEq, Repr

/-- Conversion of a `float` to an integer type: the fractional part is dropped. -/
def truncToInt (q : ℚ) : Int :=
  if 0 ≤ q then ⌊q⌋ else ⌈q⌉

/-- `round_off_angle(value)`, returning the new content of `value`. -/
def round_off_angle (value : Int) : Int :=
  let value := if value > 180 then 180 else value
  let value := if value < 0 then 0 else value
  value

/-- What one pass of the loop of `servo_THD` decides. -/
structure ServoCommand where
  active_control : Bool
  cw_angle : Int
  ccw_angle : Int
  deriving DecidableEq, Repr

/-- One pass of the `while (true)` loop of `servo_THD`: `state` is
`*rocketStatePointer`, `gz` the low-g sensor reading; the angles returned are
those written to `servo_cw` and `servo_ccw`. -/
def servo_THD (state : ServoState) (gz : ℚ) : ServoCommand :=
  let active_control :=
    match state with
    | .STATE_INIT => true
    | .STATE_IDLE => true
    | .STATE_LAUNCH_DETECT => true
    | .STATE_BOOST => false
    | .STATE_COAST => true
    | .STATE_APOGEE_DETECT => false
    | .other _ => false
  let cw_angle : Int := if active_control then truncToInt gz else 0
  let ccw_angle : Int := if active_control then truncToInt gz else 0
  { active_control := active_control
    cw_angle := round_off_angle cw_angle
    ccw_angle := round_off_angle ccw_angle }

/-! ## Range conversion of the telemetry packet -/

/-- The integer types `inv_convert_range` is instantiated with in telemetry.cpp. -/
inductive IntegerType where
  | int16_t
  | uint16_t
  | uint8_t
  deriving DecidableEq, Repr

/-- `std::numeric_limits<T>::min()`. -/
def numeric_limits_min : IntegerType → Int
  | .int16_t => -32768
  | .uint16_t => 0
  | .uint8_t => 0

/-- `std::numeric_limits<T>::max()`. -/
def numeric_limits_max : IntegerType → Int
  | .int16_t => 32767
  | .uint16_t => 65535
  | .uint8_t => 255

/-- The bit width of `T`. -/
def bit_width : IntegerType → Nat
  | .int16_t => 16
  | .uint16_t => 16
  | .uint8_t => 8

/-- `std::min(a, b)`. -/
def stdMin (a b : ℚ) : ℚ :=
  if b < a then b else a

/-- `std::max(a, b)`. -/
def stdMax (a b : ℚ) : ℚ :=
  if a < b then b else a

/-- `inv_convert_range<T>(val, range)`; the `float` the body computes is
converted to `T` on return. -/
def inv_convert_range (T : IntegerType) (val range : ℚ) : Int :=
  let numeric_range : Int := numeric_limits_max T - numeric_limits_min T + 1
  let converted : ℚ := val * (numeric_range : ℚ) / range
  truncToInt (stdMax (stdMin (numeric_limits_max T : ℚ) converted) (numeric_limits_min T : ℚ))

/-! ## The drag-coefficient spline of the apogee predictor -/

/-- The coefficient vector `c` of `rk4::approximate_cubic_spline_`, four
entries per interval. -/
def rk4.c : List ℚ :=
  [0.0, 15.0, -1.2, 0.68, 15.0, -3.82, 0.29, 0.52,
   -3.82, 0.9, -0.09, 0.6, 0.9, 0.23, 0.0, 0.57,
   0.23, -0.02, 0.02, 0.56, -0.02, 2.25, 0.02, 0.56,
   2.25, -4.17, 0.25, 0.42, -4.17, 6.55, -0.17, 0.72,
   6.55, 9.35, 0.49, 0.19, 9.35, -13.77, 1.42, -0.66,
   -13.77, -5.0, 0.04, 0.73, -5.0, 1.16, -0.45, 1.28,
   1.16, 0.34, -0.34, 1.14, 0.34, 0.48, -0.3, 1.09,
   0.48, 0.76, -0.26, 1.03, 0.76, 0.11, -0.18, 0.91,
   0.11, 0.61, -0.17, 0.89, 0.61, 0.46, -0.11, 0.79,
   0.46, -0.05, -0.06, 0.71, -0.05, 0.95, -0.07, 0.72,
   0.95, -0.12, 0.03, 0.53, -0.12, 1.35, 0.02, 0.55,
   1.35, -4.08, 0.15, 0.26, -4.08, 1.06, -0.26, 1.19,
   1.06, -0.16, -0.15, 0.94, -0.16, 0.17, -0.17, 0.98,
   0.17, 0.07, -0.15, 0.93, 0.07, 0.14, -0.14, 0.91,
   0.14, -0.04, -0.13, 0.87, -0.04, 0.0, -0.13, 0.88]

/-- The interpolation points `x_interpolate` of `rk4::approximate_cubic_spline_`. -/
def rk4.x_interpolate : List ℚ :=
  [0.01, 0.11310345, 0.2162069, 0.31931034, 0.42241379,
   0.52551724, 0.62862069, 0.73172414, 0.83482759, 0.93793103,
   1.04103448, 1.14413793, 1.24724138, 1.35034483, 1.45344828,
   1.55655172, 1.65965517, 1.76275862, 1.86586207, 1.96896552,
   2.07206897, 2.17517241, 2.27827586, 2.38137931, 2.48448276,
   2.58758621, 2.69068966, 2.7937931, 2.89689655, 3.0]

/-- The interval index `i` that `rk4::approximate_cubic_spline_` selects for `x`. -/
def rk4.interval_index (x : ℚ) : Int :=
  if x = rk4.x_interpolate.getD (rk4.x_interpolate.length - 1) 0 then
    (rk4.x_interpolate.length : Int) - 1
  else ⌊x * 10⌋

/-- A coefficient access `v(i)` with the bounds check Eigen leaves out: `none`
when `i` is not an index of `v`. -/
def rk4.coeff (v : List ℚ) (i : Int) : Option ℚ :=
  if 0 ≤ i then v[i.toNat]? else none

/-- `rk4::approximate_cubic_spline_(x)`: `none` when an access is out of
bounds. -/
def rk4.approximate_cubic_spline_ (x : ℚ) : Option ℚ := do
  let i := rk4.interval_index x
  let ind := 4 * i
  let c0 ← rk4.coeff rk4.c ind
  let c1 ← rk4.coeff rk4.c (ind + 1)
  let c2 ← rk4.coeff rk4.c (ind + 2)
  let c3 ← rk4.coeff rk4.c (ind + 3)
  let xi ← rk4.coeff rk4.x_interpolate i
  let xi1 ← rk4.coeff rk4.x_interpolate (i + 1)
  pure (c0 / (6 * (xi - xi1)) * (x - xi1) ^ 3 + c1 / (6 * (xi1 - xi)) * (x - xi) ^ 3
    + c2 * x + c3)

/-! ## Properties of the state machine -/

/-- The switch never leaves `STATE_ABORT`. -/
theorem tickSwitch_abort (th : Thresholds) (hp : Helpers) (fsm : KalmanFSM) (inp : TickInput)
    (h : fsm.rocket_state_ = FSM_State.STATE_ABORT) : tickSwitch th hp fsm inp = fsm := by
  unfold tickSwitch
  rw [h]

/-- A tick started in `STATE_ABORT` ends in `STATE_ABORT`, whatever the input. -/
theorem tickFSM_abort_phase (th : Thresholds) (hp : Helpers) (fsm : KalmanFSM) (inp : TickInput)
    (h : fsm.rocket_state_ = FSM_State.STATE_ABORT) :
    (tickFSM th hp fsm inp).rocket_state_ = FSM_State.STATE_ABORT := by
  unfold tickFSM
  cases ha : inp.aborted
  · simp only [Bool.false_eq_true, if_false]
    rw [tickSwitch_abort th hp _ inp h, h]
  · simp only [if_true]
    rw [tickSwitch_abort th hp _ inp rfl]

/-- C1. Abort is absorbing: from a state whose phase is `STATE_ABORT`, one
`tickFSM` on any input (abort flag set or not, any estimate, fifo and clock)
ends in `STATE_ABORT`, and so does every finite sequence of ticks. -/
theorem abort_absorbing (th : Thresholds) (hp : Helpers) (fsm : KalmanFSM)
    (h : fsm.rocket_state_ = FSM_State.STATE_ABORT) :
    (∀ inp : TickInput, (tickFSM th hp fsm inp).rocket_state_ = FSM_State.STATE_ABORT) ∧
    (∀ inps : List TickInput,
      (runFSM th hp fsm inps).rocket_state_ = FSM_State.STATE_ABORT) := by
  refine ⟨fun inp => tickFSM_abort_phase th hp fsm inp h, fun inps => ?_⟩
  induction inps generalizing fsm with
  | nil => simpa [runFSM] using h
  | cons inp rest ih =>
    have hstep := tickFSM_abort_phase th hp fsm inp h
    simpa [runFSM] using ih (tickFSM th hp fsm inp) hstep

/-- C2. With the abort flag set, one `tickFSM` ends in `STATE_ABORT` from every
phase and on every input. -/
theorem abort_flag_snaps (th : Thresholds) (hp : Helpers) (fsm : KalmanFSM) (inp : TickInput)
    (h : inp.aborted = true) :
    (tickFSM th hp fsm inp).rocket_state_ = FSM_State.STATE_ABORT := by
  unfold tickFSM
  simp only [h, if_true]
  rw [tickSwitch_abort th hp _ inp rfl]

/-- C3. With the abort flag unset, one `tickFSM` leaves the phase unchanged, or
moves it to a later phase of the order Init .. Landed, or moves it from a
`*_DETECT` phase to the phase immediately before it. -/
theorem phase_order_step (th : Thresholds) (hp : Helpers) (fsm : KalmanFSM) (inp : TickInput)
    (h : inp.aborted = false) :
    (tickFSM th hp fsm inp).rocket_state_ = fsm.rocket_state_ ∨
    (fsm.rocket_state_.toNat < (tickFSM th hp fsm inp).rocket_state_.toNat ∧
      (tickFSM th hp fsm inp).rocket_state_.toNat ≤ FSM_State.STATE_LANDED.toNat) ∨
    (fsm.rocket_state_.isDetect = true ∧
      (tickFSM th hp fsm inp).rocket_state_.toNat + 1 = fsm.rocket_state_.toNat) := by
  obtain ⟨st, t1, t2, t3, t4, t5, t6, t7, t8, t9, t10, t11, t12⟩ := fsm
  simp only [tickFSM, h]
  cases st <;> simp only [tickSwitch, Bool.false_eq_true, if_false] <;> (try split_ifs) <;>
    simp [FSM_State.toNat, FSM_State.isDetect]

/-- Witness of `abort_absorbing`: a machine in `STATE_ABORT` ticked with the
flag unset. -/
theorem abort_absorbing_witness :
    ({ bootFSM with rocket_state_ := FSM_State.STATE_ABORT } : KalmanFSM).rocket_state_
        = FSM_State.STATE_ABORT ∧
    (tickFSM scenarioThresholds scenarioHelpers
        { bootFSM with rocket_state_ := FSM_State.STATE_ABORT }
        (steadyTick false 100)).rocket_state_ = FSM_State.STATE_ABORT ∧
    (runFSM scenarioThresholds scenarioHelpers
        { bootFSM with rocket_state_ := FSM_State.STATE_ABORT }
        [steadyTick false 100, steadyTick true 106, steadyTick false 112]).rocket_state_
        = FSM_State.STATE_ABORT :=
  ⟨rfl,
   (abort_absorbing scenarioThresholds scenarioHelpers
      { bootFSM with rocket_state_ := FSM_State.STATE_ABORT } rfl).1 (steadyTick false 100),
   (abort_absorbing scenarioThresholds scenarioHelpers
      { bootFSM with rocket_state_ := FSM_State.STATE_ABORT } rfl).2
      [steadyTick false 100, steadyTick true 106, steadyTick false 112]⟩

/-- Witness of `abort_flag_snaps`: the flag set while the machine is in
`STATE_APOGEE_DETECT`. -/
theorem abort_flag_snaps_witness :
    (steadyTick true 61000).aborted = true ∧
    (tickFSM scenarioThresholds scenarioHelpers apogeeDetectFSM
        (steadyTick true 61000)).rocket_state_ = FSM_State.STATE_ABORT :=
  ⟨rfl, abort_flag_snaps scenarioThresholds scenarioHelpers apogeeDetectFSM
    (steadyTick true 61000) rfl⟩

/-- Witness of `phase_order_step`: a tick of the machine in
`STATE_APOGEE_DETECT` with the flag unset. -/
theorem phase_order_step_witness :
    (steadyTick false 61000).aborted = false ∧
    ((tickFSM scenarioThresholds scenarioHelpers apogeeDetectFSM
        (steadyTick false 61000)).rocket_state_ = apogeeDetectFSM.rocket_state_ ∨
    (apogeeDetectFSM.rocket_state_.toNat <
        (tickFSM scenarioThresholds scenarioHelpers apogeeDetectFSM
          (steadyTick false 61000)).rocket_state_.toNat ∧
      (tickFSM scenarioThresholds scenarioHelpers apogeeDetectFSM
          (steadyTick false 61000)).rocket_state_.toNat ≤ FSM_State.STATE_LANDED.toNat) ∨
    (apogeeDetectFSM.rocket_state_.isDetect = true ∧
      (tickFSM scenarioThresholds scenarioHelpers apogeeDetectFSM
          (steadyTick false 61000)).rocket_state_.toNat + 1
        = apogeeDetectFSM.rocket_state_.toNat)) :=
  ⟨rfl, phase_order_step scenarioThresholds scenarioHelpers apogeeDetectFSM
    (steadyTick false 61000) rfl⟩

/-- The windowed means of a fifo of eight identical samples agree, so the
difference of the two windows is zero. -/
theorem steadyFifo_windows :
    getAltitudeAverage scenarioHelpers (steadyFifo 8) 0 3 = 3000 ∧
    getAltitudeAverage scenarioHelpers (steadyFifo 8) 3 3 = 3000 ∧
    getAccelerationAverage scenarioHelpers (steadyFifo 8) 0 3 = 0 ∧
    getAccelerationAverage scenarioHelpers (steadyFifo 8) 3 3 = 0 := by
  simp [getAltitudeAverage, getAccelerationAverage, scenarioHelpers, getAverage, steadyFifo,
    List.replicate]
  norm_num

/-- What the `STATE_APOGEE` arm does when the acceleration windows do not
differ by more than the threshold: it compares the stored `apogee_timer_`
(last written in `STATE_APOGEE_DETECT`) with the deploy threshold; the clock is
not consulted for the decision. -/
theorem apogee_arm_uses_stored_timer (th : Thresholds) (hp : Helpers) (fsm : KalmanFSM)
    (inp : TickInput) (hst : fsm.rocket_state_ = FSM_State.STATE_APOGEE)
    (hab : inp.aborted = false)
    (hwin : ¬ |getAccelerationAverage hp inp.kalmanFifo 0 3
                - getAccelerationAverage hp inp.kalmanFifo 3 3|
              > th.drogue_acceleration_change_threshold_imu) :
    tickFSM th hp fsm inp =
      if hp.TIME_I2MS fsm.apogee_timer_ < th.drogue_deploy_time_since_apogee_threshold then fsm
      else { fsm with rocket_state_ := FSM_State.STATE_DROGUE, drogue_time_ := inp.now } := by
  obtain ⟨st, t1, t2, t3, t4, t5, t6, t7, t8, t9, t10, t11, t12⟩ := fsm
  simp only at hst
  subst hst
  simp only [tickFSM, hab, Bool.false_eq_true, if_false, tickSwitch, if_neg hwin]

/-- C10 (evaluation at the failing input). A machine in `STATE_APOGEE_DETECT`
since tick 60000 is ticked at 61501 and confirms `STATE_APOGEE` with
`apogee_timer_ = 1501`. Ticked again at 70000, with the abort flag unset and
equal acceleration windows, 10000 ms have elapsed since `apogee_time_`, more
than the 3000 ms deploy threshold, and yet the phase stays `STATE_APOGEE` and
`drogue_time_` is not written: the arm reads the timer left at 1501. -/
theorem apogee_timer_stale :
    (tickFSM scenarioThresholds scenarioHelpers apogeeDetectFSM
        (steadyTick false 61501)).rocket_state_ = FSM_State.STATE_APOGEE ∧
    (tickFSM scenarioThresholds scenarioHelpers apogeeDetectFSM
        (steadyTick false 61501)).apogee_time_ = 60000 ∧
    (tickFSM scenarioThresholds scenarioHelpers apogeeDetectFSM
        (steadyTick false 61501)).apogee_timer_ = 1501 ∧
    ¬ (|getAccelerationAverage scenarioHelpers (steadyTick false 70000).kalmanFifo 0 3
          - getAccelerationAverage scenarioHelpers (steadyTick false 70000).kalmanFifo 3 3|
        > scenarioThresholds.drogue_acceleration_change_threshold_imu) ∧
    scenarioHelpers.TIME_I2MS (systimeSub (steadyTick false 70000).now 60000)
        > scenarioThresholds.drogue_deploy_time_since_apogee_threshold ∧
    (tickFSM scenarioThresholds scenarioHelpers
        (tickFSM scenarioThresholds scenarioHelpers apogeeDetectFSM (steadyTick false 61501))
        (steadyTick false 70000)).rocket_state_ = FSM_State.STATE_APOGEE ∧
    (tickFSM scenarioThresholds scenarioHelpers
        (tickFSM scenarioThresholds scenarioHelpers apogeeDetectFSM (steadyTick false 61501))
        (steadyTick false 70000)).drogue_time_ = 0 := by
  have hw := steadyFifo_windows
  obtain ⟨hA0, hA3, ha0, ha3⟩ := hw
  have h1 : tickFSM scenarioThresholds scenarioHelpers apogeeDetectFSM (steadyTick false 61501)
      = { apogeeDetectFSM with
          rocket_state_ := FSM_State.STATE_APOGEE, apogee_timer_ := 1501 } := by
    simp [tickFSM, tickSwitch, apogeeDetectFSM, bootFSM, steadyTick, hA0, hA3,
      scenarioThresholds, systimeSub]
    simp [scenarioHelpers]
  have h2 : tickFSM scenarioThresholds scenarioHelpers
      { apogeeDetectFSM with rocket_state_ := FSM_State.STATE_APOGEE, apogee_timer_ := 1501 }
      (steadyTick false 70000)
      = { apogeeDetectFSM with
          rocket_state_ := FSM_State.STATE_APOGEE, apogee_timer_ := 1501 } := by
    simp [tickFSM, tickSwitch, apogeeDetectFSM, bootFSM, steadyTick, ha0, ha3,
      scenarioThresholds]
    simp [scenarioHelpers]
  rw [h1, h2]
  refine ⟨rfl, rfl, rfl, ?_, ?_, rfl, rfl⟩
  · simp [steadyTick, ha0, ha3, scenarioThresholds]
  · simp [steadyTick, scenarioHelpers, scenarioThresholds, systimeSub]

/-! ## Properties of the filter -/

@[simp] theorem setAt_apply {m n : Nat} (M : Mat m n) (i a : Fin m) (j b : Fin n) (v : ℚ) :
    setAt M i j v a b = if a = i ∧ b = j then v else M a b := rfl

/-- C4. While the FSM phase is `STATE_INIT` or `STATE_IDLE`, `kfTickFunction`
returns the filter and the estimate fifo exactly as it received them: `x`, `P`,
`F`, `Q`, `H`, `K`, the published estimate and the ring buffer are unchanged. -/
theorem kfTick_idle_unchanged (cap : Nat) (w : KalmanWorld) (inp : StepInput) (dt sd : ℚ)
    (h : inp.phase = FSM_State.STATE_INIT ∨ inp.phase = FSM_State.STATE_IDLE) :
    kfTickFunction cap w inp dt sd = w := by
  unfold kfTickFunction
  rcases h with h | h <;> simp [h, FSM_State.toNat]

/-- Witness of `kfTick_idle_unchanged`: an idle step of the initialised filter. -/
theorem kfTick_idle_unchanged_witness :
    ((padStep FSM_State.STATE_IDLE).phase = FSM_State.STATE_INIT ∨
      (padStep FSM_State.STATE_IDLE).phase = FSM_State.STATE_IDLE) ∧
    kfTickFunction 8 padWorld (padStep FSM_State.STATE_IDLE) 50 13 = padWorld :=
  ⟨Or.inr rfl, kfTick_idle_unchanged 8 padWorld (padStep FSM_State.STATE_IDLE) 50 13
    (Or.inr rfl)⟩

/-- The transition matrix that `SetF(dt)` leaves in a filter set up by
`Initialize`: the coefficient (0,2) is `s_dt * dt / 2`, the product of the
nominal interval and the step. -/
theorem SetF_after_Initialize (s_dt : ℚ) (baro : Nat → ℚ) (dt : ℚ) :
    (SetF (Initialize (constructedFilter s_dt) baro) dt).F_mat
      = !![1, dt, s_dt * dt / 2; 0, 1, dt; 0, 0, 1] := by
  ext i j
  fin_cases i <;> fin_cases j <;>
    simp [SetF, Initialize, constructedFilter, Matrix.vecHead, Matrix.vecTail]

/-- C5 (evaluation at the failing input). With the nominal interval
`s_dt = 0.05` and a step of `dt = 0.051` seconds, `SetF` after `Initialize`
leaves `F[0,2] = 0.05 * 0.051 / 2 = 51/40000`, which is not `dt²/2`. -/
theorem SetF_entry02_at_51ms :
    (SetF padFilter (51 / 1000)).F_mat
      = !![1, 51 / 1000, 51 / 40000; 0, 1, 51 / 1000; 0, 0, 1] ∧
    (SetF padFilter (51 / 1000)).F_mat 0 2 ≠ (51 / 1000 : ℚ) ^ 2 / 2 := by
  have h := SetF_after_Initialize (1 / 20) (fun _ => 200) (51 / 1000)
  have h02 : (1 / 20 : ℚ) * (51 / 1000) / 2 = 51 / 40000 := by norm_num
  rw [h02] at h
  refine ⟨h, ?_⟩
  unfold padFilter
  rw [h]
  norm_num

/-- The matrix `Q` after `SetQ(dt, sd)`, whatever the filter held before. -/
theorem SetQ_Q (kf : KalmanFilter) (dt sd : ℚ) : (SetQ kf dt sd).Q = sd • closedFormQ dt := by
  ext i j
  fin_cases i <;> fin_cases j <;> simp [SetQ, closedFormQ] <;> ring

/-- C6. After `SetQ(dt, sd)` the matrix `Q` is `sd` times the closed form
`Q00 = dt^5/20`, `Q01 = dt^4*80/8`, `Q02 = dt^3/6`, `Q11 = dt^3/8`,
`Q12 = dt^2/2`, `Q22 = dt`, it is symmetric, and it is the same whatever the
filter held before: nothing of the previous `Q` remains. -/
theorem SetQ_closed_form (kf : KalmanFilter) (dt sd : ℚ) :
    (SetQ kf dt sd).Q
      = sd • !![dt ^ 5 / 20, dt ^ 4 * 80 / 8, dt ^ 3 / 6;
                dt ^ 4 * 80 / 8, dt ^ 3 / 8, dt ^ 2 / 2;
                dt ^ 3 / 6, dt ^ 2 / 2, dt] ∧
    (SetQ kf dt sd).Q.IsSymm ∧
    ∀ kf0 : KalmanFilter, (SetQ kf0 dt sd).Q = (SetQ kf dt sd).Q := by
  refine ⟨SetQ_Q kf dt sd, ?_, fun kf0 => by rw [SetQ_Q kf0, SetQ_Q kf]⟩
  rw [SetQ_Q kf]
  ext i j
  fin_cases i <;> fin_cases j <;> simp [closedFormQ, Matrix.transpose_apply]

/-- Wherever the determinant is not zero, `inverse2` is a left inverse. -/
theorem inverse2_mul (M : Mat 2 2) (h : M.det ≠ 0) : inverse2 M * M = 1 := by
  rw [Matrix.det_fin_two] at h
  have h2 : M 0 0 * M 1 1 - M 1 0 * M 0 1 ≠ 0 := by
    intro hz; apply h; rw [← hz]; ring
  ext i j
  fin_cases i <;> fin_cases j <;>
    simp [inverse2, Matrix.mul_apply, Fin.sum_univ_two] <;> field_simp <;> ring

/-- Wherever the determinant is not zero, `inverse2` is a right inverse. -/
theorem mul_inverse2 (M : Mat 2 2) (h : M.det ≠ 0) : M * inverse2 M = 1 := by
  rw [Matrix.det_fin_two] at h
  have h2 : M 0 0 * M 1 1 - M 1 0 * M 0 1 ≠ 0 := by
    intro hz; apply h; rw [← hz]; ring
  ext i j
  fin_cases i <;> fin_cases j <;>
    simp [inverse2, Matrix.mul_apply, Fin.sum_univ_two] <;> field_simp <;> ring

/-- Wherever the determinant is not zero, `inverse2` is the matrix inverse. -/
theorem inverse2_eq_inv (M : Mat 2 2) (h : M.det ≠ 0) : inverse2 M = M⁻¹ :=
  (Matrix.inv_eq_right_inv (mul_inverse2 M h)).symm

/-- The measurement vector `update` assembles from the two sensor readings. -/
theorem setAt_y (y : Mat 2 1) (a b : ℚ) : setAt (setAt y 1 0 a) 0 0 b = !![b; a] := by
  ext i j
  fin_cases i <;> fin_cases j <;> simp

/-- One active filter step, field by field: what `kfTickFunction` leaves in the
filter when the phase is after `STATE_IDLE`. -/
theorem kfTick_active (cap : Nat) (w : KalmanWorld) (inp : StepInput) (dt sd : ℚ)
    (hph : FSM_State.STATE_IDLE.toNat < inp.phase.toNat) :
    (kfTickFunction cap w inp dt sd).kf.F_mat = (SetF w.kf (dt / 1000)).F_mat ∧
    (kfTickFunction cap w inp dt sd).kf.Q = (SetQ w.kf (dt / 1000) sd).Q ∧
    (kfTickFunction cap w inp dt sd).kf.R = w.kf.R ∧
    (kfTickFunction cap w inp dt sd).kf.H
      = (if FSM_State.STATE_APOGEE.toNat ≤ inp.phase.toNat then setAt w.kf.H 1 2 0
         else w.kf.H) ∧
    (kfTickFunction cap w inp dt sd).kf.x_priori
      = (kfTickFunction cap w inp dt sd).kf.F_mat * w.kf.x_k ∧
    (kfTickFunction cap w inp dt sd).kf.P_priori
      = (kfTickFunction cap w inp dt sd).kf.F_mat * w.kf.P_k
          * (kfTickFunction cap w inp dt sd).kf.F_mat.transpose
        + (kfTickFunction cap w inp dt sd).kf.Q ∧
    (kfTickFunction cap w inp dt sd).kf.K
      = (kfTickFunction cap w inp dt sd).kf.P_priori
          * (kfTickFunction cap w inp dt sd).kf.H.transpose
          * inverse2 ((kfTickFunction cap w inp dt sd).kf.H
              * (kfTickFunction cap w inp dt sd).kf.P_priori
              * (kfTickFunction cap w inp dt sd).kf.H.transpose
            + (kfTickFunction cap w inp dt sd).kf.R) ∧
    (kfTickFunction cap w inp dt sd).kf.y_k
      = !![inp.altitude; inp.az * (981 / 100) - 981 / 1000 - 51 / 100] ∧
    (kfTickFunction cap w inp dt sd).kf.x_k
      = (kfTickFunction cap w inp dt sd).kf.x_priori
        + (kfTickFunction cap w inp dt sd).kf.K
          * ((kfTickFunction cap w inp dt sd).kf.y_k
            - (kfTickFunction cap w inp dt sd).kf.H
              * (kfTickFunction cap w inp dt sd).kf.x_priori) ∧
    (kfTickFunction cap w inp dt sd).kf.P_k
      = (1 - (kfTickFunction cap w inp dt sd).kf.K * (kfTickFunction cap w inp dt sd).kf.H)
        * (kfTickFunction cap w inp dt sd).kf.P_priori := by
  have hph2 : inp.phase.toNat > FSM_State.STATE_IDLE.toNat := hph
  unfold kfTickFunction
  rw [if_pos hph2]
  by_cases hap : inp.phase.toNat ≥ FSM_State.STATE_APOGEE.toNat
  · have hap2 : FSM_State.STATE_APOGEE.toNat ≤ inp.phase.toNat := hap
    simp only [update, if_pos hap, if_pos hap2, priori, SetQ, SetF, setAt_y]
    simp
  · have hap2 : ¬ FSM_State.STATE_APOGEE.toNat ≤ inp.phase.toNat := hap
    simp only [update, if_neg hap, if_neg hap2, priori, SetQ, SetF, setAt_y]
    simp

/-- The measurement matrix after one `kfTickFunction`, in every phase. -/
theorem kfTick_H (cap : Nat) (w : KalmanWorld) (inp : StepInput) (dt sd : ℚ) :
    (kfTickFunction cap w inp dt sd).kf.H
      = (if FSM_State.STATE_APOGEE.toNat ≤ inp.phase.toNat then setAt w.kf.H 1 2 0
         else w.kf.H) := by
  by_cases hph : FSM_State.STATE_IDLE.toNat < inp.phase.toNat
  · exact (kfTick_active cap w inp dt sd hph).2.2.2.1
  · have e1 : FSM_State.STATE_IDLE.toNat = 1 := rfl
    have e8 : FSM_State.STATE_APOGEE.toNat = 8 := rfl
    have hnot : ¬ FSM_State.STATE_APOGEE.toNat ≤ inp.phase.toNat := by
      rw [e8]; rw [e1] at hph; omega
    have hskip : ¬ inp.phase.toNat > FSM_State.STATE_IDLE.toNat := hph
    rw [if_neg hnot]
    unfold kfTickFunction
    rw [if_neg hskip]

/-- Zeroing `H(1,2)` twice is zeroing it once. -/
theorem setAt_H12_idem (H : Mat 2 3) : setAt (setAt H 1 2 0) 1 2 0 = setAt H 1 2 0 := by
  ext i j
  simp only [setAt_apply]
  split_ifs <;> rfl

/-- The measurement matrix after any run of filter steps: `H(1,2)` has been
zeroed if some step of the run saw a phase at or after `STATE_APOGEE`, and `H`
is untouched otherwise. -/
theorem runKalman_H (cap : Nat) (steps : List (StepInput × ℚ × ℚ)) (w : KalmanWorld) :
    (runKalman cap w steps).kf.H
      = (if steps.any (fun st => decide (FSM_State.STATE_APOGEE.toNat ≤ st.1.phase.toNat))
         then setAt w.kf.H 1 2 0 else w.kf.H) := by
  induction steps generalizing w with
  | nil => simp [runKalman]
  | cons st rest ih =>
    have hstep : runKalman cap w (st :: rest)
        = runKalman cap (kfTickFunction cap w st.1 st.2.1 st.2.2) rest := by
      simp [runKalman]
    rw [hstep, ih, kfTick_H]
    by_cases h1 : FSM_State.STATE_APOGEE.toNat ≤ st.1.phase.toNat
    · simp [h1, setAt_H12_idem]
    · have hd : decide (FSM_State.STATE_APOGEE.toNat ≤ st.1.phase.toNat) = false := by
        simpa using h1
      simp only [if_neg h1, List.any_cons, hd, Bool.false_or]

/-- The measurement matrix `Initialize` leaves in a freshly constructed filter. -/
theorem Initialize_H (s_dt : ℚ) (baro : Nat → ℚ) :
    (Initialize (constructedFilter s_dt) baro).H = !![1, 0, 0; 0, 0, 1] := by
  ext i j
  fin_cases i <;> fin_cases j <;>
    simp [Initialize, constructedFilter, Matrix.vecHead, Matrix.vecTail]

/-- C8. A filter step run while the phase is `STATE_APOGEE` or later leaves
`H[1,2] = 0`, forms the gain, the state and the covariance with that matrix, and
`H[1,2]` is still 0 after any further steps. On a filter set up by `Initialize`:
as long as every step saw a phase before `STATE_APOGEE`, `H = [[1,0,0],[0,0,1]]`;
after a step at `STATE_APOGEE` or later, and after any further steps,
`H = [[1,0,0],[0,0,0]]`. -/
theorem H_coupling_after_apogee (cap : Nat) (w : KalmanWorld) (s_dt : ℚ) (baro : Nat → ℚ)
    (fifo : List KalmanData) (pre post : List (StepInput × ℚ × ℚ)) (inp : StepInput)
    (dt sd : ℚ)
    (hpre : ∀ st ∈ pre, st.1.phase.toNat < FSM_State.STATE_APOGEE.toNat)
    (hap : FSM_State.STATE_APOGEE.toNat ≤ inp.phase.toNat) :
    ((kfTickFunction cap w inp dt sd).kf.H 1 2 = 0 ∧
      (kfTickFunction cap w inp dt sd).kf.K
        = (kfTickFunction cap w inp dt sd).kf.P_priori
            * (kfTickFunction cap w inp dt sd).kf.H.transpose
            * inverse2 ((kfTickFunction cap w inp dt sd).kf.H
                * (kfTickFunction cap w inp dt sd).kf.P_priori
                * (kfTickFunction cap w inp dt sd).kf.H.transpose
              + (kfTickFunction cap w inp dt sd).kf.R) ∧
      (kfTickFunction cap w inp dt sd).kf.x_k
        = (kfTickFunction cap w inp dt sd).kf.x_priori
          + (kfTickFunction cap w inp dt sd).kf.K
            * ((kfTickFunction cap w inp dt sd).kf.y_k
              - (kfTickFunction cap w inp dt sd).kf.H
                * (kfTickFunction cap w inp dt sd).kf.x_priori) ∧
      (kfTickFunction cap w inp dt sd).kf.P_k
        = (1 - (kfTickFunction cap w inp dt sd).kf.K
                * (kfTickFunction cap w inp dt sd).kf.H)
          * (kfTickFunction cap w inp dt sd).kf.P_priori ∧
      (runKalman cap (kfTickFunction cap w inp dt sd) post).kf.H 1 2 = 0) ∧
    ((runKalman cap ⟨Initialize (constructedFilter s_dt) baro, fifo⟩ pre).kf.H
        = !![1, 0, 0; 0, 0, 1] ∧
      (kfTickFunction cap
          (runKalman cap ⟨Initialize (constructedFilter s_dt) baro, fifo⟩ pre) inp dt sd).kf.H
        = !![1, 0, 0; 0, 0, 0] ∧
      (runKalman cap
          (kfTickFunction cap
            (runKalman cap ⟨Initialize (constructedFilter s_dt) baro, fifo⟩ pre) inp dt sd)
          post).kf.H
        = !![1, 0, 0; 0, 0, 0]) := by
  have e1 : FSM_State.STATE_IDLE.toNat = 1 := rfl
  have e8 : FSM_State.STATE_APOGEE.toNat = 8 := rfl
  have hact : FSM_State.STATE_IDLE.toNat < inp.phase.toNat := by
    rw [e1]; rw [e8] at hap; omega
  have hzero : ∀ H : Mat 2 3, setAt H 1 2 0 1 2 = 0 := by
    intro H; simp
  have hkeep : ∀ H : Mat 2 3, H 1 2 = 0 → setAt H 1 2 0 = H := by
    intro H h0
    ext i j
    simp only [setAt_apply]
    split_ifs with hc
    · obtain ⟨hi, hj⟩ := hc
      rw [hi, hj, h0]
    · rfl
  have hstepH : ∀ v : KalmanWorld, (kfTickFunction cap v inp dt sd).kf.H = setAt v.kf.H 1 2 0 := by
    intro v
    rw [kfTick_H, if_pos hap]
  have hlater : ∀ v : KalmanWorld, v.kf.H 1 2 = 0 → (runKalman cap v post).kf.H = v.kf.H := by
    intro v h0
    rw [runKalman_H]
    split_ifs
    · exact hkeep _ h0
    · rfl
  have hpreH : (runKalman cap ⟨Initialize (constructedFilter s_dt) baro, fifo⟩ pre).kf.H
      = !![1, 0, 0; 0, 0, 1] := by
    rw [runKalman_H]
    have hnone : pre.any
        (fun st => decide (FSM_State.STATE_APOGEE.toNat ≤ st.1.phase.toNat)) = false := by
      rw [List.any_eq_false]
      intro st hst
      have := hpre st hst
      simp only [decide_eq_true_eq]
      omega
    rw [hnone]
    simpa using Initialize_H s_dt baro
  have hapH : (kfTickFunction cap
      (runKalman cap ⟨Initialize (constructedFilter s_dt) baro, fifo⟩ pre) inp dt sd).kf.H
      = !![1, 0, 0; 0, 0, 0] := by
    rw [hstepH, hpreH]
    ext i j
    fin_cases i <;> fin_cases j <;> simp [Matrix.vecHead, Matrix.vecTail]
  have hA := kfTick_active cap w inp dt sd hact
  have h12 : (kfTickFunction cap w inp dt sd).kf.H 1 2 = 0 := by
    rw [hstepH]; exact hzero _
  refine ⟨⟨h12, hA.2.2.2.2.2.2.1, hA.2.2.2.2.2.2.2.2.1, hA.2.2.2.2.2.2.2.2.2, ?_⟩,
    hpreH, hapH, ?_⟩
  · rw [hlater _ h12]; exact h12
  · rw [hlater _ (by rw [hapH]; rfl)]
    exact hapH

/-- Witness of `H_coupling_after_apogee`: the initialised filter stepped once in
`STATE_BOOST`, once in `STATE_APOGEE` and once in `STATE_DROGUE`. -/
theorem H_coupling_after_apogee_witness :
    (∀ st ∈ [(padStep FSM_State.STATE_BOOST, (50 : ℚ), (13 : ℚ))],
      st.1.phase.toNat < FSM_State.STATE_APOGEE.toNat) ∧
    FSM_State.STATE_APOGEE.toNat ≤ (padStep FSM_State.STATE_APOGEE).phase.toNat ∧
    (runKalman 8 ⟨Initialize (constructedFilter (1 / 20)) (fun _ => 200), []⟩
        [(padStep FSM_State.STATE_BOOST, 50, 13)]).kf.H = !![1, 0, 0; 0, 0, 1] ∧
    (kfTickFunction 8
        (runKalman 8 ⟨Initialize (constructedFilter (1 / 20)) (fun _ => 200), []⟩
          [(padStep FSM_State.STATE_BOOST, 50, 13)])
        (padStep FSM_State.STATE_APOGEE) 50 13).kf.H = !![1, 0, 0; 0, 0, 0] ∧
    (runKalman 8
        (kfTickFunction 8
          (runKalman 8 ⟨Initialize (constructedFilter (1 / 20)) (fun _ => 200), []⟩
            [(padStep FSM_State.STATE_BOOST, 50, 13)])
          (padStep FSM_State.STATE_APOGEE) 50 13)
        [(padStep FSM_State.STATE_DROGUE, 50, 13)]).kf.H = !![1, 0, 0; 0, 0, 0] :=
  have hpre : ∀ st ∈ [(padStep FSM_State.STATE_BOOST, (50 : ℚ), (13 : ℚ))],
      st.1.phase.toNat < FSM_State.STATE_APOGEE.toNat := by
    intro st hst
    rw [List.mem_singleton] at hst
    rw [hst]
    decide
  ⟨hpre, by decide,
    (H_coupling_after_apogee 8 padWorld (1 / 20) (fun _ => 200) []
      [(padStep FSM_State.STATE_BOOST, 50, 13)] [(padStep FSM_State.STATE_DROGUE, 50, 13)]
      (padStep FSM_State.STATE_APOGEE) 50 13 hpre (by decide)).2⟩

/-- The coefficients of `F` that `SetF(dt)` writes apart from (0,2), and the
ones it leaves as they were. -/
theorem SetF_entries (kf : KalmanFilter) (dt : ℚ) :
    (SetF kf dt).F_mat 0 0 = 1 ∧ (SetF kf dt).F_mat 0 1 = dt ∧
    (SetF kf dt).F_mat 1 1 = 1 ∧ (SetF kf dt).F_mat 1 2 = dt ∧
    (SetF kf dt).F_mat 2 2 = 1 ∧
    (SetF kf dt).F_mat 1 0 = kf.F_mat 1 0 ∧ (SetF kf dt).F_mat 2 0 = kf.F_mat 2 0 ∧
    (SetF kf dt).F_mat 2 1 = kf.F_mat 2 1 := by
  simp [SetF]

/-- C7 (amended). One `kfTickFunction(dt, sd)` in a phase after `STATE_IDLE`,
with `dt` in milliseconds. Let `F` be the matrix `SetF(dt/1000)` leaves (rows
`(1, dt/1000, ·)`, `(·, 1, dt/1000)`, `(·, ·, 1)`, the sub-diagonal coefficients
being those the filter held), `Q = sd * closedFormQ(dt/1000)`, and `H` the
measurement matrix in force (the filter's `H`, with `H[1,2]` zeroed when the
phase is `STATE_APOGEE` or later). If `H·P⁻·Hᵀ + R` is invertible, the step
computes `x⁻ = F·x`, `P⁻ = F·P·Fᵀ + Q`, `K = P⁻·Hᵀ·(H·P⁻·Hᵀ + R)⁻¹`,
`y = (b, az·9.81 − 1.491)` and leaves `x = x⁻ + K·(y − H·x⁻)`,
`P = (I − K·H)·P⁻` and `H` as the new filter state. -/
theorem kfTick_step_formulas (cap : Nat) (w : KalmanWorld) (inp : StepInput) (dt sd : ℚ)
    (hph : FSM_State.STATE_IDLE.toNat < inp.phase.toNat)
    (hinv : (innovationCovariance (measurementInForce w.kf.H inp.phase)
              (priorCovariance (SetF w.kf (dt / 1000)).F_mat w.kf.P_k
                (sd • closedFormQ (dt / 1000)))
              w.kf.R).det ≠ 0) :
    let F : Mat 3 3 := (SetF w.kf (dt / 1000)).F_mat
    let Q : Mat 3 3 := sd • closedFormQ (dt / 1000)
    let H : Mat 2 3 := measurementInForce w.kf.H inp.phase
    let xm : Mat 3 1 := priorState F w.kf.x_k
    let Pm : Mat 3 3 := priorCovariance F w.kf.P_k Q
    let K : Mat 3 2 := gain Pm H (innovationCovariance H Pm w.kf.R)⁻¹
    let y : Mat 2 1 := measurement inp.altitude inp.az
    (F 0 0 = 1 ∧ F 0 1 = dt / 1000 ∧ F 1 1 = 1 ∧ F 1 2 = dt / 1000 ∧ F 2 2 = 1 ∧
      F 1 0 = w.kf.F_mat 1 0 ∧ F 2 0 = w.kf.F_mat 2 0 ∧ F 2 1 = w.kf.F_mat 2 1) ∧
    (kfTickFunction cap w inp dt sd).kf.F_mat = F ∧
    (kfTickFunction cap w inp dt sd).kf.Q = Q ∧
    (kfTickFunction cap w inp dt sd).kf.H = H ∧
    (kfTickFunction cap w inp dt sd).kf.x_priori = xm ∧
    (kfTickFunction cap w inp dt sd).kf.P_priori = Pm ∧
    (kfTickFunction cap w inp dt sd).kf.K = K ∧
    (kfTickFunction cap w inp dt sd).kf.y_k = y ∧
    (kfTickFunction cap w inp dt sd).kf.x_k = posteriorState xm K y H ∧
    (kfTickFunction cap w inp dt sd).kf.P_k = posteriorCovariance K H Pm := by
  intro F Q H xm Pm K y
  obtain ⟨hF, hQ, hR, hH, hxm, hPm, hK, hy, hx, hP⟩ := kfTick_active cap w inp dt sd hph
  have hQ2 : (kfTickFunction cap w inp dt sd).kf.Q = Q := by rw [hQ, SetQ_Q]
  have hH2 : (kfTickFunction cap w inp dt sd).kf.H = H := hH
  have hxm2 : (kfTickFunction cap w inp dt sd).kf.x_priori = xm := by rw [hxm, hF]; rfl
  have hPm2 : (kfTickFunction cap w inp dt sd).kf.P_priori = Pm := by rw [hPm, hF, hQ2]; rfl
  have hK2 : (kfTickFunction cap w inp dt sd).kf.K = K := by
    rw [hK, hPm2, hH2, hR]
    have e := inverse2_eq_inv _ hinv
    unfold innovationCovariance at e
    rw [e]
    rfl
  have hy2 : (kfTickFunction cap w inp dt sd).kf.y_k = y := by
    rw [hy]
    have e : inp.az * (981 / 100) - 981 / 1000 - 51 / 100
        = inp.az * (981 / 100) - 1491 / 1000 := by ring
    rw [e]
    rfl
  refine ⟨SetF_entries w.kf (dt / 1000), hF, hQ2, hH2, hxm2, hPm2, hK2, hy2, ?_, ?_⟩
  · rw [hx, hxm2, hK2, hy2, hH2]; rfl
  · rw [hP, hK2, hH2, hPm2]; rfl

/-! ### The initialised filter, field by field -/

/-- The covariance `Initialize` leaves in a freshly constructed filter. -/
theorem Initialize_P (s_dt : ℚ) (baro : Nat → ℚ) :
    (Initialize (constructedFilter s_dt) baro).P_k = 0 := by
  ext i j
  fin_cases i <;> fin_cases j <;> simp [Initialize, constructedFilter]

/-- The measurement noise `Initialize` leaves in a freshly constructed filter. -/
theorem Initialize_R (s_dt : ℚ) (baro : Nat → ℚ) :
    (Initialize (constructedFilter s_dt) baro).R = !![2, 0; 0, 1 / 10] := by
  ext i j
  fin_cases i <;> fin_cases j <;> simp [Initialize, constructedFilter]

/-- The scenario filter starts at the pad altitude, at rest. -/
theorem padFilter_x : padFilter.x_k = !![200; 0; 0] := by
  ext i j
  fin_cases i <;> fin_cases j <;>
    simp [padFilter, Initialize, constructedFilter, List.range_succ, Matrix.vecHead,
      Matrix.vecTail]
  norm_num

/-- The scenario filter has the initialised measurement matrix. -/
theorem padFilter_H : padFilter.H = !![1, 0, 0; 0, 0, 1] := Initialize_H _ _

/-- The scenario filter starts with a zero covariance. -/
theorem padFilter_P : padFilter.P_k = 0 := Initialize_P _ _

/-- The scenario filter has the initialised measurement noise. -/
theorem padFilter_R : padFilter.R = !![2, 0; 0, 1 / 10] := Initialize_R _ _

/-- `SetF(dt)` on any filter that shares the nominal interval and the
transition matrix of the scenario filter. -/
theorem padFilter_SetF (kf : KalmanFilter) (dt : ℚ) (hs : kf.s_dt = padFilter.s_dt)
    (hF : kf.F_mat = padFilter.F_mat) :
    (SetF kf dt).F_mat = !![1, dt, 1 / 20 * dt / 2; 0, 1, dt; 0, 0, 1] := by
  have h := SetF_after_Initialize (1 / 20) (fun _ => 200) dt
  rw [← h]
  simp only [SetF, hs, hF]
  rfl

/-- The determinant of the innovation covariance of the first step of the
initialised filter (50 ms or 51 ms, spectral density 13) is not zero. -/
theorem pad_innovation_det (dt : ℚ) (hdt : dt = 50 ∨ dt = 51) :
    ((!![1, 0, 0; 0, 0, 1] : Mat 2 3) * ((13 : ℚ) • closedFormQ (dt / 1000))
      * (!![1, 0, 0; 0, 0, 1] : Mat 2 3).transpose + (!![2, 0; 0, 1 / 10] : Mat 2 2)).det
      ≠ 0 := by
  rw [Matrix.det_fin_two]
  rcases hdt with h | h <;> subst h <;>
    simp [Matrix.mul_apply, Fin.sum_univ_three, closedFormQ, Matrix.vecHead, Matrix.vecTail] <;>
    norm_num

/-- C7 (counterexample). The formulas of the claim, with the filter's own `H`
and with `F = closedFormF(dt/1000)`, are not what the step leaves.
(1) The initialised filter stepped in `STATE_APOGEE` at the nominal 50 ms:
`update` zeroes `H[1,2]` before forming the gain, so the acceleration reading
does not enter the state, while the claimed formula uses `H[1,2] = 1`.
(2) The ascent filter stepped in `STATE_BOOST` at 51 ms: `SetF` writes
`F[0,2] = s_dt·dt/2`, not `dt²/2`, and the new state differs. In both cases the
innovation covariance of the claim is invertible and the phase is after
`STATE_IDLE`. -/
theorem kfTick_claimed_formulas_fail :
    (FSM_State.STATE_IDLE.toNat < (padStep FSM_State.STATE_APOGEE).phase.toNat ∧
      (claimedInnovation padWorld.kf 50 13).det ≠ 0 ∧
      (kfTickFunction 8 padWorld (padStep FSM_State.STATE_APOGEE) 50 13).kf.x_k
        ≠ claimedState padWorld.kf 50 13 (padStep FSM_State.STATE_APOGEE).altitude
            (padStep FSM_State.STATE_APOGEE).az (claimedInnovation padWorld.kf 50 13)⁻¹) ∧
    (FSM_State.STATE_IDLE.toNat < boostStep.phase.toNat ∧
      (claimedInnovation ascentWorld.kf 51 13).det ≠ 0 ∧
      (kfTickFunction 8 ascentWorld boostStep 51 13).kf.x_k
        ≠ claimedState ascentWorld.kf 51 13 boostStep.altitude boostStep.az
            (claimedInnovation ascentWorld.kf 51 13)⁻¹) := by
  simp only [claimedState, claimedInnovation, claimedPrior, posteriorState, priorState, gain,
    innovationCovariance, priorCovariance, measurement]
  have hdetA := pad_innovation_det 50 (Or.inl rfl)
  have hdetB := pad_innovation_det 51 (Or.inr rfl)
  refine ⟨⟨by decide, ?_, ?_⟩, ⟨by decide, ?_, ?_⟩⟩
  · simp only [padWorld, padFilter_P, padFilter_H, padFilter_R, Matrix.mul_zero,
      Matrix.zero_mul, zero_add]
    exact hdetA
  · intro h
    have h20 := congrFun (congrFun h 2) 0
    obtain ⟨hF, hQ, hR, hH, hxm, hPm, hK, hy, hx, hP⟩ :=
      kfTick_active 8 padWorld (padStep FSM_State.STATE_APOGEE) 50 13 (by decide)
    have hF2 : (kfTickFunction 8 padWorld (padStep FSM_State.STATE_APOGEE) 50 13).kf.F_mat
        = !![1, 50 / 1000, 1 / 20 * (50 / 1000) / 2; 0, 1, 50 / 1000; 0, 0, 1] := by
      rw [hF]; exact padFilter_SetF _ _ rfl rfl
    have hQ2 := hQ
    rw [SetQ_Q] at hQ2
    have hH2 : (kfTickFunction 8 padWorld (padStep FSM_State.STATE_APOGEE) 50 13).kf.H
        = !![1, 0, 0; 0, 0, 0] := by
      rw [hH]
      simp only [padWorld, padFilter_H, padStep]
      ext i j
      fin_cases i <;> fin_cases j <;> simp [FSM_State.toNat, Matrix.vecHead, Matrix.vecTail]
    have hR2 : (kfTickFunction 8 padWorld (padStep FSM_State.STATE_APOGEE) 50 13).kf.R
        = !![2, 0; 0, 1 / 10] := by
      rw [hR]; exact padFilter_R
    rw [hx, hK, hy, hxm, hPm, hH2, hR2, hQ2, hF2] at h20
    simp only [padWorld, padFilter_P, padFilter_x, padFilter_H, padFilter_R, padStep,
      Matrix.mul_zero, Matrix.zero_mul, zero_add] at h20
    rw [← inverse2_eq_inv _ hdetA] at h20
    simp [Matrix.mul_apply, Fin.sum_univ_three, Fin.sum_univ_two, inverse2, closedFormQ,
      closedFormF, Matrix.vecHead, Matrix.vecTail] at h20
    norm_num at h20
  · simp only [ascentWorld, ascentFilter, padFilter_P, padFilter_H, padFilter_R,
      Matrix.mul_zero, Matrix.zero_mul, zero_add]
    exact hdetB
  · intro h
    have h00 := congrFun (congrFun h 0) 0
    obtain ⟨hF, hQ, hR, hH, hxm, hPm, hK, hy, hx, hP⟩ :=
      kfTick_active 8 ascentWorld boostStep 51 13 (by decide)
    have hF2 : (kfTickFunction 8 ascentWorld boostStep 51 13).kf.F_mat
        = !![1, 51 / 1000, 1 / 20 * (51 / 1000) / 2; 0, 1, 51 / 1000; 0, 0, 1] := by
      rw [hF]; exact padFilter_SetF _ _ rfl rfl
    have hQ2 := hQ
    rw [SetQ_Q] at hQ2
    have hH2 : (kfTickFunction 8 ascentWorld boostStep 51 13).kf.H
        = !![1, 0, 0; 0, 0, 1] := by
      rw [hH]
      simp only [ascentWorld, ascentFilter, padFilter_H, boostStep]
      simp [FSM_State.toNat]
    have hR2 : (kfTickFunction 8 ascentWorld boostStep 51 13).kf.R
        = !![2, 0; 0, 1 / 10] := by
      rw [hR]; exact padFilter_R
    rw [hx, hK, hy, hxm, hPm, hH2, hR2, hQ2, hF2] at h00
    simp only [ascentWorld, ascentFilter, padFilter_P, padFilter_H, padFilter_R, boostStep,
      Matrix.mul_zero, Matrix.zero_mul, zero_add] at h00
    rw [← inverse2_eq_inv _ hdetB] at h00
    simp [Matrix.mul_apply, Fin.sum_univ_three, Fin.sum_univ_two, inverse2, closedFormQ,
      closedFormF, Matrix.vecHead, Matrix.vecTail] at h00
    norm_num at h00

/-- Witness of `kfTick_step_formulas`: the first step of the initialised
filter, in `STATE_BOOST`, 50 ms, spectral density 13. -/
theorem kfTick_step_formulas_witness :
    FSM_State.STATE_IDLE.toNat < (padStep FSM_State.STATE_BOOST).phase.toNat ∧
    (innovationCovariance (measurementInForce padWorld.kf.H (padStep FSM_State.STATE_BOOST).phase)
      (priorCovariance (SetF padWorld.kf (50 / 1000)).F_mat padWorld.kf.P_k
        ((13 : ℚ) • closedFormQ (50 / 1000)))
      padWorld.kf.R).det ≠ 0 ∧
    (kfTickFunction 8 padWorld (padStep FSM_State.STATE_BOOST) 50 13).kf.H
      = measurementInForce padWorld.kf.H (padStep FSM_State.STATE_BOOST).phase ∧
    (kfTickFunction 8 padWorld (padStep FSM_State.STATE_BOOST) 50 13).kf.x_priori
      = priorState (SetF padWorld.kf (50 / 1000)).F_mat padWorld.kf.x_k ∧
    (kfTickFunction 8 padWorld (padStep FSM_State.STATE_BOOST) 50 13).kf.P_priori
      = priorCovariance (SetF padWorld.kf (50 / 1000)).F_mat padWorld.kf.P_k
          ((13 : ℚ) • closedFormQ (50 / 1000)) ∧
    (kfTickFunction 8 padWorld (padStep FSM_State.STATE_BOOST) 50 13).kf.y_k
      = measurement 200 1 :=
  have hph : FSM_State.STATE_IDLE.toNat < (padStep FSM_State.STATE_BOOST).phase.toNat := by
    decide
  have hdet : (innovationCovariance
      (measurementInForce padWorld.kf.H (padStep FSM_State.STATE_BOOST).phase)
      (priorCovariance (SetF padWorld.kf (50 / 1000)).F_mat padWorld.kf.P_k
        ((13 : ℚ) • closedFormQ (50 / 1000)))
      padWorld.kf.R).det ≠ 0 := by
    have hH : measurementInForce padWorld.kf.H (padStep FSM_State.STATE_BOOST).phase
        = !![1, 0, 0; 0, 0, 1] := by
      simp [measurementInForce, padStep, FSM_State.toNat, padWorld, padFilter_H]
    rw [hH]
    simp only [innovationCovariance, priorCovariance, padWorld, padFilter_P, padFilter_R,
      Matrix.mul_zero, Matrix.zero_mul, zero_add]
    exact pad_innovation_det 50 (Or.inl rfl)
  ⟨hph, hdet,
    (kfTick_step_formulas 8 padWorld (padStep FSM_State.STATE_BOOST) 50 13 hph hdet).2.2.2.1,
    (kfTick_step_formulas 8 padWorld (padStep FSM_State.STATE_BOOST) 50 13 hph hdet).2.2.2.2.1,
    (kfTick_step_formulas 8 padWorld (padStep FSM_State.STATE_BOOST) 50 13 hph
      hdet).2.2.2.2.2.1,
    (kfTick_step_formulas 8 padWorld (padStep FSM_State.STATE_BOOST) 50 13 hph
      hdet).2.2.2.2.2.2.2.1⟩

/-- Joseph form of the covariance update: with any left inverse `Si` of the
innovation covariance, `(I − K·H)·P⁻ = (I − K·H)·P⁻·(I − K·H)ᵀ + K·R·Kᵀ`. -/
theorem joseph_form (Pm : Mat 3 3) (H : Mat 2 3) (R Si : Mat 2 2)
    (hSi : Si * (H * Pm * H.transpose + R) = 1) :
    (1 - Pm * H.transpose * Si * H) * Pm
      = (1 - Pm * H.transpose * Si * H) * Pm * (1 - Pm * H.transpose * Si * H).transpose
        + Pm * H.transpose * Si * R * (Pm * H.transpose * Si).transpose := by
  have hKS : Pm * H.transpose * Si * (H * Pm * H.transpose + R) = Pm * H.transpose := by
    rw [Matrix.mul_assoc (Pm * H.transpose) Si, hSi, Matrix.mul_one]
  have hKR : (1 - Pm * H.transpose * Si * H) * Pm * H.transpose
      = Pm * H.transpose * Si * R := by
    have e : (1 - Pm * H.transpose * Si * H) * Pm * H.transpose
        = Pm * H.transpose - Pm * H.transpose * Si * (H * Pm * H.transpose) := by
      rw [Matrix.sub_mul, Matrix.sub_mul, Matrix.one_mul]
      simp only [Matrix.mul_assoc]
    rw [e]
    rw [Matrix.mul_add] at hKS
    calc Pm * H.transpose - Pm * H.transpose * Si * (H * Pm * H.transpose)
        = (Pm * H.transpose * Si * (H * Pm * H.transpose) + Pm * H.transpose * Si * R)
            - Pm * H.transpose * Si * (H * Pm * H.transpose) := by rw [hKS]
      _ = Pm * H.transpose * Si * R := by abel
  have hT : (1 - Pm * H.transpose * Si * H).transpose
      = 1 - H.transpose * (Pm * H.transpose * Si).transpose := by
    rw [Matrix.transpose_sub, Matrix.transpose_one, Matrix.transpose_mul]
  rw [hT, Matrix.mul_sub, Matrix.mul_one, ← Matrix.mul_assoc _ H.transpose, hKR]
  abel

/-- A positive-semidefinite matrix has a non-negative diagonal. -/
theorem psd_diag_nonneg (M : Mat 3 3) (h : M.PosSemidef) (i : Fin 3) : 0 ≤ M i i := by
  have h1 := h.2 (Pi.single i 1)
  simpa [Matrix.dotProduct, Matrix.mulVec, Pi.single_apply, Fin.sum_univ_three] using h1


/-- With the initialised measurement matrix and noise the innovation covariance
is `[[P⁻00 + 2, P⁻02], [P⁻20, P⁻22 + 1/10]]`; this is its determinant. -/
theorem innovation_det (Pm : Mat 3 3) :
    ((!![1, 0, 0; 0, 0, 1] : Mat 2 3) * Pm * (!![1, 0, 0; 0, 0, 1] : Mat 2 3).transpose
      + (!![2, 0; 0, 1 / 10] : Mat 2 2)).det
      = (Pm 0 0 + 2) * (Pm 2 2 + 1 / 10) - Pm 0 2 * Pm 2 0 := by
  rw [Matrix.det_fin_two]
  simp only [Matrix.add_apply, Matrix.mul_apply, Fin.sum_univ_three, Matrix.transpose_apply]
  simp [Matrix.vecHead, Matrix.vecTail]

/-- The innovation covariance (initialised `H` and `R`) has a positive
determinant as soon as the quadratic form of `P⁻` is non-negative on the vector
`(P⁻22 + 1/10, 0, −P⁻02)`. -/
theorem innovation_det_pos (Pm : Mat 3 3) (hsym : Pm 2 0 = Pm 0 2) (h22 : 0 ≤ Pm 2 2)
    (hq : 0 ≤ (Pm 2 2 + 1 / 10) ^ 2 * Pm 0 0 - 2 * (Pm 2 2 + 1 / 10) * Pm 0 2 * Pm 0 2
              + Pm 0 2 ^ 2 * Pm 2 2) :
    0 < ((!![1, 0, 0; 0, 0, 1] : Mat 2 3) * Pm * (!![1, 0, 0; 0, 0, 1] : Mat 2 3).transpose
      + (!![2, 0; 0, 1 / 10] : Mat 2 2)).det := by
  rw [innovation_det, hsym]
  have ha : 0 < Pm 2 2 + 1 / 10 := by linarith
  have key : (Pm 2 2 + 1 / 10) * ((Pm 0 0 + 2) * (Pm 2 2 + 1 / 10) - Pm 0 2 * Pm 0 2)
      = ((Pm 2 2 + 1 / 10) ^ 2 * Pm 0 0 - 2 * (Pm 2 2 + 1 / 10) * Pm 0 2 * Pm 0 2
              + Pm 0 2 ^ 2 * Pm 2 2) + 2 * (Pm 2 2 + 1 / 10) ^ 2 + 1 / 10 * Pm 0 2 ^ 2 := by
    ring
  have hpos : 0 < (Pm 2 2 + 1 / 10) * ((Pm 0 0 + 2) * (Pm 2 2 + 1 / 10) - Pm 0 2 * Pm 0 2) := by
    rw [key]
    have h1 : 0 < 2 * (Pm 2 2 + 1 / 10) ^ 2 := by positivity
    have h2 : 0 ≤ 1 / 10 * Pm 0 2 ^ 2 := by positivity
    linarith
  exact (mul_pos_iff_of_pos_left ha).mp hpos

/-- The quadratic form of a positive-semidefinite matrix on a vector with no
velocity component. -/
theorem psd_form_02 (M : Mat 3 3) (h : M.PosSemidef) (a b : ℚ) :
    M 2 0 = M 0 2 ∧ 0 ≤ a ^ 2 * M 0 0 + 2 * a * b * M 0 2 + b ^ 2 * M 2 2 := by
  have hs : M 2 0 = M 0 2 := by
    have := h.1
    have h2 := congrFun (congrFun this 0) 2
    simpa [Matrix.conjTranspose_apply] using h2
  refine ⟨hs, ?_⟩
  have h1 := h.2 ![a, 0, b]
  simp [Matrix.dotProduct, Matrix.mulVec, Fin.sum_univ_three] at h1
  rw [hs] at h1
  have e : a ^ 2 * M 0 0 + 2 * a * b * M 0 2 + b ^ 2 * M 2 2
      = a * (M 0 0 * a + M 0 2 * b) + b * (M 0 2 * a + M 2 2 * b) := by ring
  rw [e]
  exact h1


/-- The posterior covariance is symmetric when the prior and the noise are. -/
theorem posterior_isSymm (Pm : Mat 3 3) (H : Mat 2 3) (R Si : Mat 2 2)
    (hPm : Pm.IsSymm) (hR : R.IsSymm)
    (hSi : Si * (H * Pm * H.transpose + R) = 1) :
    ((1 - Pm * H.transpose * Si * H) * Pm).IsSymm := by
  rw [joseph_form Pm H R Si hSi]
  unfold Matrix.IsSymm
  simp only [Matrix.transpose_add, Matrix.transpose_mul, Matrix.transpose_transpose, hPm.eq,
    hR.eq, Matrix.mul_assoc]

/-- The posterior covariance is positive semidefinite when the prior and the
noise are. -/
theorem posterior_posSemidef (Pm : Mat 3 3) (H : Mat 2 3) (R Si : Mat 2 2)
    (hPm : Pm.PosSemidef) (hR : R.PosSemidef)
    (hSi : Si * (H * Pm * H.transpose + R) = 1) :
    ((1 - Pm * H.transpose * Si * H) * Pm).PosSemidef := by
  rw [joseph_form Pm H R Si hSi]
  have h1 := hPm.mul_mul_conjTranspose_same (1 - Pm * H.transpose * Si * H)
  have h2 := hR.mul_mul_conjTranspose_same (Pm * H.transpose * Si)
  rw [Matrix.conjTranspose_eq_transpose_of_trivial] at h1 h2
  exact h1.add h2

/-- The measurement noise `diag(2.0, 0.1)` is positive semidefinite. -/
theorem noise_posSemidef : (!![2, 0; 0, 1 / 10] : Mat 2 2).PosSemidef := by
  have e : (!![2, 0; 0, 1 / 10] : Mat 2 2) = Matrix.diagonal ![2, 1 / 10] := by
    ext i j
    fin_cases i <;> fin_cases j <;> simp
  rw [e, Matrix.posSemidef_diagonal_iff]
  intro i
  fin_cases i <;> simp


/-- The prior covariance `F·P·Fᵀ + sd·Q(t)` of a positive-semidefinite `P`, with
`t ≥ 0` and `sd ≥ 0`, makes the innovation covariance (initialised `H` and `R`)
invertible: its determinant is positive. -/
theorem prior_innovation_det_pos (F P : Mat 3 3) (t sd : ℚ) (hP : P.PosSemidef)
    (ht : 0 ≤ t) (hsd : 0 ≤ sd) :
    0 < ((!![1, 0, 0; 0, 0, 1] : Mat 2 3) * (F * P * F.transpose + sd • closedFormQ t)
          * (!![1, 0, 0; 0, 0, 1] : Mat 2 3).transpose
        + (!![2, 0; 0, 1 / 10] : Mat 2 2)).det := by
  have hM : (F * P * F.transpose).PosSemidef := by
    have h := hP.mul_mul_conjTranspose_same F
    rwa [Matrix.conjTranspose_eq_transpose_of_trivial] at h
  have e00 : (F * P * F.transpose + sd • closedFormQ t) 0 0
      = (F * P * F.transpose) 0 0 + sd * (t ^ 5 / 20) := by
    simp [closedFormQ]
  have e02 : (F * P * F.transpose + sd • closedFormQ t) 0 2
      = (F * P * F.transpose) 0 2 + sd * (t ^ 3 / 6) := by
    simp [closedFormQ]
  have e20 : (F * P * F.transpose + sd • closedFormQ t) 2 0
      = (F * P * F.transpose) 2 0 + sd * (t ^ 3 / 6) := by
    simp [closedFormQ]
  have e22 : (F * P * F.transpose + sd • closedFormQ t) 2 2
      = (F * P * F.transpose) 2 2 + sd * t := by
    simp [closedFormQ]
  have hm22 : 0 ≤ (F * P * F.transpose) 2 2 := psd_diag_nonneg _ hM 2
  have hst : 0 ≤ sd * t := mul_nonneg hsd ht
  obtain ⟨hs, hq⟩ := psd_form_02 _ hM
    ((F * P * F.transpose) 2 2 + sd * t + 1 / 10) (-((F * P * F.transpose) 0 2 + sd * (t ^ 3 / 6)))
  apply innovation_det_pos
  · rw [e20, e02, hs]
  · rw [e22]; linarith
  · rw [e00, e02, e22]
    have hQ : 0 ≤ sd * t *
        ((-((F * P * F.transpose) 0 2 + sd * (t ^ 3 / 6))
            + ((F * P * F.transpose) 2 2 + sd * t + 1 / 10) * t ^ 2 / 6) ^ 2
          + ((F * P * F.transpose) 2 2 + sd * t + 1 / 10) ^ 2 * t ^ 4 / 45) := by
      apply mul_nonneg hst
      positivity
    nlinarith [hq, hQ]


/-- The closed form of `Q` is symmetric. -/
theorem closedFormQ_isSymm (t : ℚ) : (closedFormQ t).IsSymm := by
  ext i j
  fin_cases i <;> fin_cases j <;> simp [closedFormQ, Matrix.transpose_apply]

/-- Over the rationals a positive-semidefinite matrix is symmetric. -/
theorem isSymm_of_posSemidef {n : Nat} (M : Mat n n) (h : M.PosSemidef) : M.IsSymm := by
  have h1 := h.1
  unfold Matrix.IsHermitian at h1
  rwa [Matrix.conjTranspose_eq_transpose_of_trivial] at h1

/-- The prior covariance of a symmetric `P` is symmetric. -/
theorem prior_isSymm (F P : Mat 3 3) (t sd : ℚ) (hP : P.IsSymm) :
    (F * P * F.transpose + sd • closedFormQ t).IsSymm := by
  unfold Matrix.IsSymm
  rw [Matrix.transpose_add, Matrix.transpose_mul, Matrix.transpose_mul,
    Matrix.transpose_transpose, hP.eq, Matrix.transpose_smul, (closedFormQ_isSymm t).eq,
    Matrix.mul_assoc]

/-- C9 (amended). For every symmetric positive-definite `P`, every `dt > 0`
(milliseconds) and `sd > 0`, with `R = diag(2.0, 0.1)` and `H` as initialised,
one filter step in a phase after `STATE_IDLE` and before `STATE_APOGEE` leaves
a symmetric posterior `P`; each of its diagonal entries is `≥ 0` whenever the
prior covariance `P⁻ = F·P·Fᵀ + Q` of the step is positive semidefinite. -/
theorem posterior_cov_step (cap : Nat) (w : KalmanWorld) (inp : StepInput) (dt sd : ℚ)
    (hph : FSM_State.STATE_IDLE.toNat < inp.phase.toNat)
    (hap : inp.phase.toNat < FSM_State.STATE_APOGEE.toNat)
    (hP : w.kf.P_k.PosDef) (hdt : 0 < dt) (hsd : 0 < sd)
    (hR : w.kf.R = !![2, 0; 0, 1 / 10]) (hH : w.kf.H = !![1, 0, 0; 0, 0, 1]) :
    (kfTickFunction cap w inp dt sd).kf.P_priori
      = (SetF w.kf (dt / 1000)).F_mat * w.kf.P_k * ((SetF w.kf (dt / 1000)).F_mat).transpose
        + sd • closedFormQ (dt / 1000) ∧
    (kfTickFunction cap w inp dt sd).kf.P_k.IsSymm ∧
    ((kfTickFunction cap w inp dt sd).kf.P_priori.PosSemidef →
      ∀ i : Fin 3, 0 ≤ (kfTickFunction cap w inp dt sd).kf.P_k i i) := by
  obtain ⟨hF, hQ, hR2, hH2, hxm, hPm, hK, hy, hx, hPk⟩ := kfTick_active cap w inp dt sd hph
  have hnot : ¬ FSM_State.STATE_APOGEE.toNat ≤ inp.phase.toNat := by omega
  rw [if_neg hnot, hH] at hH2
  rw [hR] at hR2
  rw [hF, hQ, SetQ_Q] at hPm
  have hPsd : w.kf.P_k.PosSemidef := hP.posSemidef
  have hdet := prior_innovation_det_pos (SetF w.kf (dt / 1000)).F_mat w.kf.P_k (dt / 1000) sd
    hPsd (by positivity) hsd.le
  rw [← hPm] at hdet
  have hSi := inverse2_mul _ hdet.ne'
  rw [hK, hH2, hR2] at hPk
  refine ⟨hPm, ?_, ?_⟩
  · rw [hPk]
    apply posterior_isSymm _ _ _ _ _ (isSymm_of_posSemidef _ noise_posSemidef) hSi
    rw [hPm]
    exact prior_isSymm _ _ _ _ (isSymm_of_posSemidef _ hPsd)
  · intro hpsd i
    rw [hPk]
    exact psd_diag_nonneg _ (posterior_posSemidef _ _ _ _ hpsd noise_posSemidef hSi) i


/-- C9 (counterexample). The converged filter (`P = 0.0001·I`, symmetric
positive definite, `R = diag(2.0, 0.1)`, `H` as initialised) stepped in
`STATE_BOOST` with `dt = 50` ms and `sd = 13`: the posterior variance of the
velocity, `P[1,1]`, is negative. -/
theorem posterior_diag_negative :
    confidentFilter.P_k.PosDef ∧ (0 : ℚ) < 50 ∧ (0 : ℚ) < 13 ∧
    confidentFilter.R = !![2, 0; 0, 1 / 10] ∧ confidentFilter.H = !![1, 0, 0; 0, 0, 1] ∧
    FSM_State.STATE_IDLE.toNat < (padStep FSM_State.STATE_BOOST).phase.toNat ∧
    (padStep FSM_State.STATE_BOOST).phase.toNat < FSM_State.STATE_APOGEE.toNat ∧
    (kfTickFunction 8 confidentWorld (padStep FSM_State.STATE_BOOST) 50 13).kf.P_k 1 1
      = -(1063075436997 / 21603963982865000) ∧
    (kfTickFunction 8 confidentWorld (padStep FSM_State.STATE_BOOST) 50 13).kf.P_k 1 1 < 0 := by
  have hval : (kfTickFunction 8 confidentWorld (padStep FSM_State.STATE_BOOST) 50 13).kf.P_k 1 1
      = -(1063075436997 / 21603963982865000) := ?_
  · refine ⟨?_, by norm_num, by norm_num, padFilter_R, padFilter_H, by decide, by decide,
      hval, ?_⟩
    · exact Matrix.PosDef.diagonal (fun _ => by norm_num)
    · rw [hval]; norm_num
  · obtain ⟨hF, hQ, hR, hH, hxm, hPm, hK, hy, hx, hP⟩ :=
      kfTick_active 8 confidentWorld (padStep FSM_State.STATE_BOOST) 50 13 (by decide)
    have hF2 : (kfTickFunction 8 confidentWorld (padStep FSM_State.STATE_BOOST) 50 13).kf.F_mat
        = !![1, 50 / 1000, 1 / 20 * (50 / 1000) / 2; 0, 1, 50 / 1000; 0, 0, 1] := by
      rw [hF]; exact padFilter_SetF _ _ rfl rfl
    have hQ2 := hQ
    rw [SetQ_Q] at hQ2
    have hH2 : (kfTickFunction 8 confidentWorld (padStep FSM_State.STATE_BOOST) 50 13).kf.H
        = !![1, 0, 0; 0, 0, 1] := by
      rw [hH]
      simp only [confidentWorld, confidentFilter, padFilter_H, padStep]
      simp [FSM_State.toNat]
    have hR2 : (kfTickFunction 8 confidentWorld (padStep FSM_State.STATE_BOOST) 50 13).kf.R
        = !![2, 0; 0, 1 / 10] := by
      rw [hR]; exact padFilter_R
    rw [hP, hK, hPm, hH2, hR2, hQ2, hF2]
    simp only [confidentWorld, confidentFilter]
    simp [Matrix.mul_apply, Fin.sum_univ_three, Fin.sum_univ_two, inverse2, closedFormQ,
      Matrix.vecHead, Matrix.vecTail, Matrix.diagonal_apply, Matrix.one_apply]
    norm_num


/-- The prior covariance of the unit-covariance filter at 50 ms, `sd = 13`, is
positive semidefinite. -/
theorem unitCov_prior_posSemidef :
    ((!![1, 50 / 1000, 1 / 20 * (50 / 1000) / 2; 0, 1, 50 / 1000; 0, 0, 1] : Mat 3 3) * 1
        * (!![1, 50 / 1000, 1 / 20 * (50 / 1000) / 2; 0, 1, 50 / 1000; 0, 0, 1] : Mat 3 3).transpose
      + (13 : ℚ) • closedFormQ (50 / 1000)).PosSemidef := by
  constructor
  · unfold Matrix.IsHermitian
    rw [Matrix.conjTranspose_eq_transpose_of_trivial]
    exact prior_isSymm _ _ _ _ Matrix.isSymm_one
  · intro x
    simp [Matrix.dotProduct, Matrix.mulVec, Matrix.mul_apply, Fin.sum_univ_three, closedFormQ,
      Matrix.vecHead, Matrix.vecTail, Matrix.one_apply]
    nlinarith [sq_nonneg (x 0 + x 1), sq_nonneg (x 0 + x 2), sq_nonneg (x 1 + x 2),
      sq_nonneg (x 0), sq_nonneg (x 1), sq_nonneg (x 2)]

/-- Witness of `posterior_cov_step`: the unit-covariance filter stepped in
`STATE_BOOST` with `dt = 50` ms and `sd = 13`; its prior covariance is positive
semidefinite, so the posterior is symmetric with a non-negative diagonal. -/
theorem posterior_cov_step_witness :
    FSM_State.STATE_IDLE.toNat < (padStep FSM_State.STATE_BOOST).phase.toNat ∧
    (padStep FSM_State.STATE_BOOST).phase.toNat < FSM_State.STATE_APOGEE.toNat ∧
    unitCovWorld.kf.P_k.PosDef ∧ (0 : ℚ) < 50 ∧ (0 : ℚ) < 13 ∧
    unitCovWorld.kf.R = !![2, 0; 0, 1 / 10] ∧ unitCovWorld.kf.H = !![1, 0, 0; 0, 0, 1] ∧
    (kfTickFunction 8 unitCovWorld (padStep FSM_State.STATE_BOOST) 50 13).kf.P_k.IsSymm ∧
    (kfTickFunction 8 unitCovWorld (padStep FSM_State.STATE_BOOST) 50 13).kf.P_priori.PosSemidef ∧
    0 ≤ (kfTickFunction 8 unitCovWorld (padStep FSM_State.STATE_BOOST) 50 13).kf.P_k 0 0 ∧
    0 ≤ (kfTickFunction 8 unitCovWorld (padStep FSM_State.STATE_BOOST) 50 13).kf.P_k 1 1 ∧
    0 ≤ (kfTickFunction 8 unitCovWorld (padStep FSM_State.STATE_BOOST) 50 13).kf.P_k 2 2 := by
  have hph : FSM_State.STATE_IDLE.toNat < (padStep FSM_State.STATE_BOOST).phase.toNat := by
    decide
  have hap : (padStep FSM_State.STATE_BOOST).phase.toNat < FSM_State.STATE_APOGEE.toNat := by
    decide
  have hP : unitCovWorld.kf.P_k.PosDef := Matrix.PosDef.one
  have hT := posterior_cov_step 8 unitCovWorld (padStep FSM_State.STATE_BOOST) 50 13 hph hap hP
    (by norm_num) (by norm_num) padFilter_R padFilter_H
  have hpsd : (kfTickFunction 8 unitCovWorld
      (padStep FSM_State.STATE_BOOST) 50 13).kf.P_priori.PosSemidef := by
    rw [hT.1, padFilter_SetF unitCovWorld.kf (50 / 1000) rfl rfl]
    exact unitCov_prior_posSemidef
  exact ⟨hph, hap, hP, by norm_num, by norm_num, padFilter_R, padFilter_H, hT.2.1, hpsd,
    hT.2.2 hpsd 0, hT.2.2 hpsd 1, hT.2.2 hpsd 2⟩

/-! ## The transition table, arm by arm -/

/-! ### The arms of the switch, one by one -/

/-- C20. Landed is terminal: a tick in `STATE_LANDED` with the abort flag unset
returns the machine as it was, so the phase is `STATE_LANDED` and no transition
time stamp is changed, whatever the input. -/
theorem landed_terminal (th : Thresholds) (hp : Helpers) (fsm : KalmanFSM) (inp : TickInput)
    (hst : fsm.rocket_state_ = FSM_State.STATE_LANDED) (hab : inp.aborted = false) :
    (tickFSM th hp fsm inp).rocket_state_ = FSM_State.STATE_LANDED ∧
    (tickFSM th hp fsm inp).times = fsm.times ∧
    tickFSM th hp fsm inp = fsm := by
  obtain ⟨st, t1, t2, t3, t4, t5, t6, t7, t8, t9, t10, t11, t12⟩ := fsm
  simp only at hst
  subst hst
  simp [tickFSM, hab, tickSwitch]

/-- A tick in `STATE_IDLE` with the abort flag unset and an estimated
acceleration not above the launch threshold returns the machine as it was. -/
theorem idle_quiet (th : Thresholds) (hp : Helpers) (fsm : KalmanFSM) (inp : TickInput)
    (hst : fsm.rocket_state_ = FSM_State.STATE_IDLE) (hab : inp.aborted = false)
    (hacc : inp.est.state_est_accel_x ≤ th.launch_linear_acceleration_thresh) :
    tickFSM th hp fsm inp = fsm := by
  obtain ⟨st, t1, t2, t3, t4, t5, t6, t7, t8, t9, t10, t11, t12⟩ := fsm
  simp only at hst
  subst hst
  simp [tickFSM, hab, tickSwitch, not_lt.mpr hacc]

/-- A run of ticks from `STATE_IDLE`, all with the abort flag unset and an
estimated acceleration not above the launch threshold, returns the machine as
it was. -/
theorem idle_quiet_run (th : Thresholds) (hp : Helpers) (fsm : KalmanFSM)
    (hst : fsm.rocket_state_ = FSM_State.STATE_IDLE) (inps : List TickInput)
    (hq : ∀ inp ∈ inps, inp.aborted = false ∧
      inp.est.state_est_accel_x ≤ th.launch_linear_acceleration_thresh) :
    runFSM th hp fsm inps = fsm := by
  induction inps with
  | nil => rfl
  | cons inp rest ih =>
    have h1 := hq inp (List.mem_cons_self _ _)
    have hstep : runFSM th hp fsm (inp :: rest) = runFSM th hp (tickFSM th hp fsm inp) rest := by
      simp [runFSM]
    rw [hstep, idle_quiet th hp fsm inp hst h1.1 h1.2]
    exact ih (fun i hi => hq i (List.mem_cons_of_mem _ hi))

/-- C15. A tick in `STATE_IDLE` with the abort flag unset: if the estimated
acceleration is greater than `launch_linear_acceleration_thresh` the phase
becomes `STATE_LAUNCH_DETECT` and `launch_time_` is set to the current time (no
other time stamp changes); otherwise the phase stays `STATE_IDLE` and no time
stamp changes. Consequently a sequence of such ticks whose estimates all have
acceleration at or below the threshold keeps the phase `STATE_IDLE` after every
number of ticks. -/
theorem idle_tick (th : Thresholds) (hp : Helpers) (fsm : KalmanFSM) (inp : TickInput)
    (inps : List TickInput)
    (hst : fsm.rocket_state_ = FSM_State.STATE_IDLE) (hab : inp.aborted = false)
    (hq : ∀ i ∈ inps, i.aborted = false ∧
      i.est.state_est_accel_x ≤ th.launch_linear_acceleration_thresh) :
    (inp.est.state_est_accel_x > th.launch_linear_acceleration_thresh →
      (tickFSM th hp fsm inp).rocket_state_ = FSM_State.STATE_LAUNCH_DETECT ∧
      (tickFSM th hp fsm inp).times = { fsm.times with launch_time := inp.now }) ∧
    (¬ inp.est.state_est_accel_x > th.launch_linear_acceleration_thresh →
      (tickFSM th hp fsm inp).rocket_state_ = FSM_State.STATE_IDLE ∧
      (tickFSM th hp fsm inp).times = fsm.times) ∧
    (∀ n : Nat, (runFSM th hp fsm (inps.take n)).rocket_state_ = FSM_State.STATE_IDLE ∧
      (runFSM th hp fsm (inps.take n)).times = fsm.times) := by
  refine ⟨?_, ?_, ?_⟩
  · intro hacc
    obtain ⟨st, t1, t2, t3, t4, t5, t6, t7, t8, t9, t10, t11, t12⟩ := fsm
    simp only at hst
    subst hst
    simp [tickFSM, hab, tickSwitch, hacc, KalmanFSM.times]
  · intro hacc
    rw [idle_quiet th hp fsm inp hst hab (not_lt.mp hacc)]
    exact ⟨hst, rfl⟩
  · intro n
    rw [idle_quiet_run th hp fsm hst (inps.take n)
      (fun i hi => hq i (List.mem_of_mem_take hi))]
    exact ⟨hst, rfl⟩

/-- C18. A tick in `STATE_DROGUE_DETECT` (respectively `STATE_MAIN_DETECT`)
with the abort flag unset: if `|A2_win(0) − A2_win(3)|` is greater than
`drogue_acceleration_change_threshold_altimeter` (respectively
`main_acceleration_change_threshold_altimeter`) the phase becomes
`STATE_DROGUE` (respectively `STATE_MAIN`) and `drogue_time_` (respectively
`main_time_`) is set to the current time; in every other case the phase returns
to `STATE_APOGEE` (respectively `STATE_DROGUE`) with no time stamp changed. The
phase never remains `STATE_DROGUE_DETECT` or `STATE_MAIN_DETECT`. -/
theorem untimed_detect_tick (th : Thresholds) (hp : Helpers) (fsm : KalmanFSM)
    (inp : TickInput) (hab : inp.aborted = false) :
    (fsm.rocket_state_ = FSM_State.STATE_DROGUE_DETECT →
      (curvatureChange hp inp.kalmanFifo > th.drogue_acceleration_change_threshold_altimeter →
        (tickFSM th hp fsm inp).rocket_state_ = FSM_State.STATE_DROGUE ∧
        (tickFSM th hp fsm inp).times = { fsm.times with drogue_time := inp.now }) ∧
      (¬ curvatureChange hp inp.kalmanFifo > th.drogue_acceleration_change_threshold_altimeter →
        (tickFSM th hp fsm inp).rocket_state_ = FSM_State.STATE_APOGEE ∧
        (tickFSM th hp fsm inp).times = fsm.times) ∧
      (tickFSM th hp fsm inp).rocket_state_ ≠ FSM_State.STATE_DROGUE_DETECT) ∧
    (fsm.rocket_state_ = FSM_State.STATE_MAIN_DETECT →
      (curvatureChange hp inp.kalmanFifo > th.main_acceleration_change_threshold_altimeter →
        (tickFSM th hp fsm inp).rocket_state_ = FSM_State.STATE_MAIN ∧
        (tickFSM th hp fsm inp).times = { fsm.times with main_time := inp.now }) ∧
      (¬ curvatureChange hp inp.kalmanFifo > th.main_acceleration_change_threshold_altimeter →
        (tickFSM th hp fsm inp).rocket_state_ = FSM_State.STATE_DROGUE ∧
        (tickFSM th hp fsm inp).times = fsm.times) ∧
      (tickFSM th hp fsm inp).rocket_state_ ≠ FSM_State.STATE_MAIN_DETECT) := by
  obtain ⟨st, t1, t2, t3, t4, t5, t6, t7, t8, t9, t10, t11, t12⟩ := fsm
  refine ⟨?_, ?_⟩
  · intro hst
    simp only at hst
    subst hst
    simp only [tickFSM, hab, Bool.false_eq_true, if_false, tickSwitch, curvatureChange,
      KalmanFSM.times]
    split_ifs with h <;> simp [h]
  · intro hst
    simp only at hst
    subst hst
    simp only [tickFSM, hab, Bool.false_eq_true, if_false, tickSwitch, curvatureChange,
      KalmanFSM.times]
    split_ifs with h <;> simp [h]

/-- C19. Timed antechambers revert or confirm. A tick in `STATE_BURNOUT_DETECT`
with the abort flag unset goes to `STATE_BOOST` if the estimated acceleration is
greater than `coast_thresh`; otherwise to `STATE_COAST_PREGNC` exactly when the
time elapsed since `burnout_time_` is greater than `coast_time_thresh`;
otherwise it stays. A tick in `STATE_APOGEE_DETECT` goes to `STATE_COAST_GNC`
if `|A_win(0) − A_win(3)|` is greater than `apogee_altimeter_threshold`;
otherwise to `STATE_APOGEE` exactly when the time elapsed since `apogee_time_`
is greater than `apogee_time_thresh`; otherwise it stays. No other phase is
reachable in one tick, and no time stamp is written. -/
theorem timed_detect_tick (th : Thresholds) (hp : Helpers) (fsm : KalmanFSM)
    (inp : TickInput) (hab : inp.aborted = false) :
    (fsm.rocket_state_ = FSM_State.STATE_BURNOUT_DETECT →
      (inp.est.state_est_accel_x > th.coast_thresh →
        (tickFSM th hp fsm inp).rocket_state_ = FSM_State.STATE_BOOST) ∧
      (¬ inp.est.state_est_accel_x > th.coast_thresh →
        ((tickFSM th hp fsm inp).rocket_state_ = FSM_State.STATE_COAST_PREGNC ↔
          elapsedMs hp inp.now fsm.burnout_time_ > th.coast_time_thresh) ∧
        (¬ elapsedMs hp inp.now fsm.burnout_time_ > th.coast_time_thresh →
          (tickFSM th hp fsm inp).rocket_state_ = FSM_State.STATE_BURNOUT_DETECT)) ∧
      ((tickFSM th hp fsm inp).rocket_state_ = FSM_State.STATE_BOOST ∨
        (tickFSM th hp fsm inp).rocket_state_ = FSM_State.STATE_COAST_PREGNC ∨
        (tickFSM th hp fsm inp).rocket_state_ = FSM_State.STATE_BURNOUT_DETECT) ∧
      (tickFSM th hp fsm inp).times = fsm.times) ∧
    (fsm.rocket_state_ = FSM_State.STATE_APOGEE_DETECT →
      (altitudeChange hp inp.kalmanFifo > th.apogee_altimeter_threshold →
        (tickFSM th hp fsm inp).rocket_state_ = FSM_State.STATE_COAST_GNC) ∧
      (¬ altitudeChange hp inp.kalmanFifo > th.apogee_altimeter_threshold →
        ((tickFSM th hp fsm inp).rocket_state_ = FSM_State.STATE_APOGEE ↔
          elapsedMs hp inp.now fsm.apogee_time_ > th.apogee_time_thresh) ∧
        (¬ elapsedMs hp inp.now fsm.apogee_time_ > th.apogee_time_thresh →
          (tickFSM th hp fsm inp).rocket_state_ = FSM_State.STATE_APOGEE_DETECT)) ∧
      ((tickFSM th hp fsm inp).rocket_state_ = FSM_State.STATE_COAST_GNC ∨
        (tickFSM th hp fsm inp).rocket_state_ = FSM_State.STATE_APOGEE ∨
        (tickFSM th hp fsm inp).rocket_state_ = FSM_State.STATE_APOGEE_DETECT) ∧
      (tickFSM th hp fsm inp).times = fsm.times) := by
  obtain ⟨st, t1, t2, t3, t4, t5, t6, t7, t8, t9, t10, t11, t12⟩ := fsm
  refine ⟨?_, ?_⟩
  · intro hst
    simp only at hst
    subst hst
    simp only [tickFSM, hab, Bool.false_eq_true, if_false, tickSwitch, elapsedMs,
      KalmanFSM.times]
    split_ifs with h1 h2 <;> simp_all
  · intro hst
    simp only at hst
    subst hst
    simp only [tickFSM, hab, Bool.false_eq_true, if_false, tickSwitch, elapsedMs,
      altitudeChange, KalmanFSM.times]
    split_ifs with h1 h2 <;> simp_all

/-! ### Runs of ticks -/

/-- A run starts with its first tick. -/
theorem runFSM_cons (th : Thresholds) (hp : Helpers) (fsm : KalmanFSM) (inp : TickInput)
    (rest : List TickInput) :
    runFSM th hp fsm (inp :: rest) = runFSM th hp (tickFSM th hp fsm inp) rest := by
  simp [runFSM]

/-- A run over a concatenation is the run over the second part, started where
the run over the first part ends. -/
theorem runFSM_append (th : Thresholds) (hp : Helpers) (fsm : KalmanFSM)
    (xs ys : List TickInput) :
    runFSM th hp fsm (xs ++ ys) = runFSM th hp (runFSM th hp fsm xs) ys := by
  simp [runFSM]

/-- The `STATE_LAUNCH_DETECT` arm, phase and launch time after the tick. -/
theorem launch_detect_arm (th : Thresholds) (hp : Helpers) (fsm : KalmanFSM) (inp : TickInput)
    (hst : fsm.rocket_state_ = FSM_State.STATE_LAUNCH_DETECT) (hab : inp.aborted = false) :
    (tickFSM th hp fsm inp).rocket_state_
      = (if inp.est.state_est_accel_x < th.launch_linear_acceleration_thresh then
          FSM_State.STATE_IDLE
        else if elapsedMs hp inp.now fsm.launch_time_ > th.launch_time_thresh then
          FSM_State.STATE_BOOST
        else FSM_State.STATE_LAUNCH_DETECT) ∧
    (tickFSM th hp fsm inp).times = fsm.times := by
  obtain ⟨st, t1, t2, t3, t4, t5, t6, t7, t8, t9, t10, t11, t12⟩ := fsm
  simp only at hst
  subst hst
  simp only [tickFSM, hab, Bool.false_eq_true, if_false, tickSwitch, elapsedMs,
    KalmanFSM.times]
  split_ifs <;> simp_all

/-- A run of ticks in `STATE_LAUNCH_DETECT`, none below the acceleration
threshold and none later than `launch_time_thresh` after the launch time,
stays in `STATE_LAUNCH_DETECT` and keeps the launch time. -/
theorem launch_detect_hold_run (th : Thresholds) (hp : Helpers) (t0 : Nat)
    (mid : List TickInput) (fsm : KalmanFSM)
    (hst : fsm.rocket_state_ = FSM_State.STATE_LAUNCH_DETECT) (ht : fsm.launch_time_ = t0)
    (hmid : ∀ i ∈ mid, i.aborted = false ∧
      ¬ i.est.state_est_accel_x < th.launch_linear_acceleration_thresh ∧
      ¬ elapsedMs hp i.now t0 > th.launch_time_thresh) :
    (runFSM th hp fsm mid).rocket_state_ = FSM_State.STATE_LAUNCH_DETECT ∧
    (runFSM th hp fsm mid).launch_time_ = t0 := by
  induction mid generalizing fsm with
  | nil => exact ⟨hst, ht⟩
  | cons i rest ih =>
    obtain ⟨hab, hacc, hel⟩ := hmid i (List.mem_cons_self _ _)
    obtain ⟨hph, htm⟩ := launch_detect_arm th hp fsm i hst hab
    rw [ht, if_neg hacc, if_neg hel] at hph
    have hlt : (tickFSM th hp fsm i).launch_time_ = t0 := by
      have := congrArg TransitionTimes.launch_time htm
      simpa [KalmanFSM.times, ht] using this
    rw [runFSM_cons]
    exact ih (tickFSM th hp fsm i) hph hlt (fun j hj => hmid j (List.mem_cons_of_mem _ hj))

/-- C14. A tick in `STATE_LAUNCH_DETECT` with the abort flag unset: if the
estimated acceleration is below `launch_linear_acceleration_thresh` the phase
returns to `STATE_IDLE`, whatever time has elapsed; otherwise the phase
becomes `STATE_BOOST` exactly when the time elapsed since `launch_time_` is
greater than `launch_time_thresh`, and stays `STATE_LAUNCH_DETECT` otherwise.
So, from `STATE_IDLE`, one above-threshold estimate followed by below-threshold
estimates ends in `STATE_IDLE`, and above-threshold estimates, the last of
which is the first to come later than `launch_time_thresh` after the launch
time, end in `STATE_BOOST`. -/
theorem launch_detect_tick (th : Thresholds) (hp : Helpers) (fsm : KalmanFSM)
    (inp : TickInput) (idle : KalmanFSM) (first : TickInput) (below mid : List TickInput)
    (last : TickInput)
    (hst : fsm.rocket_state_ = FSM_State.STATE_LAUNCH_DETECT) (hab : inp.aborted = false)
    (hidle : idle.rocket_state_ = FSM_State.STATE_IDLE)
    (hfirst : first.aborted = false ∧
      first.est.state_est_accel_x > th.launch_linear_acceleration_thresh)
    (hbelow : below ≠ [] ∧ ∀ i ∈ below, i.aborted = false ∧
      i.est.state_est_accel_x < th.launch_linear_acceleration_thresh)
    (hmid : ∀ i ∈ mid, i.aborted = false ∧
      i.est.state_est_accel_x > th.launch_linear_acceleration_thresh ∧
      elapsedMs hp i.now first.now ≤ th.launch_time_thresh)
    (hlast : last.aborted = false ∧
      last.est.state_est_accel_x > th.launch_linear_acceleration_thresh ∧
      elapsedMs hp last.now first.now > th.launch_time_thresh) :
    (inp.est.state_est_accel_x < th.launch_linear_acceleration_thresh →
      (tickFSM th hp fsm inp).rocket_state_ = FSM_State.STATE_IDLE) ∧
    (¬ inp.est.state_est_accel_x < th.launch_linear_acceleration_thresh →
      ((tickFSM th hp fsm inp).rocket_state_ = FSM_State.STATE_BOOST ↔
        elapsedMs hp inp.now fsm.launch_time_ > th.launch_time_thresh) ∧
      (¬ elapsedMs hp inp.now fsm.launch_time_ > th.launch_time_thresh →
        (tickFSM th hp fsm inp).rocket_state_ = FSM_State.STATE_LAUNCH_DETECT)) ∧
    (runFSM th hp idle (first :: below)).rocket_state_ = FSM_State.STATE_IDLE ∧
    (runFSM th hp idle (first :: (mid ++ [last]))).rocket_state_ = FSM_State.STATE_BOOST := by
  obtain ⟨hph, -⟩ := launch_detect_arm th hp fsm inp hst hab
  have hfirstTick : (tickFSM th hp idle first).rocket_state_ = FSM_State.STATE_LAUNCH_DETECT ∧
      (tickFSM th hp idle first).launch_time_ = first.now := by
    obtain ⟨st, t1, t2, t3, t4, t5, t6, t7, t8, t9, t10, t11, t12⟩ := idle
    simp only at hidle
    subst hidle
    simp [tickFSM, hfirst.1, tickSwitch, hfirst.2]
  refine ⟨?_, ?_, ?_, ?_⟩
  · intro h
    rw [hph, if_pos h]
  · intro h
    rw [hph, if_neg h]
    refine ⟨?_, ?_⟩
    · split_ifs with h2 <;> simp [h2]
    · intro h2
      rw [if_neg h2]
  · obtain ⟨hne, hall⟩ := hbelow
    rw [runFSM_cons]
    cases below with
    | nil => exact absurd rfl hne
    | cons b rest =>
      obtain ⟨hb1, hb2⟩ := hall b (List.mem_cons_self _ _)
      obtain ⟨hphb, -⟩ := launch_detect_arm th hp _ b hfirstTick.1 hb1
      rw [if_pos hb2] at hphb
      rw [runFSM_cons, idle_quiet_run th hp _ hphb rest
        (fun i hi => ⟨(hall i (List.mem_cons_of_mem _ hi)).1,
          le_of_lt (hall i (List.mem_cons_of_mem _ hi)).2⟩)]
      exact hphb
  · rw [runFSM_cons, runFSM_append]
    obtain ⟨hm1, hm2⟩ := launch_detect_hold_run th hp first.now mid _ hfirstTick.1 hfirstTick.2
      (fun i hi => ⟨(hmid i hi).1, not_lt.mpr (le_of_lt (hmid i hi).2.1),
        not_lt.mpr (hmid i hi).2.2⟩)
    obtain ⟨hl1, hl2, hl3⟩ := hlast
    obtain ⟨hphl, -⟩ := launch_detect_arm th hp _ last hm1 hl1
    rw [hm2, if_neg (not_lt.mpr (le_of_lt hl2)), if_pos hl3] at hphl
    simpa [runFSM] using hphl

/-- The `STATE_MAIN` arm: phase and time stamps after the tick. -/
theorem main_arm (th : Thresholds) (hp : Helpers) (fsm : KalmanFSM) (inp : TickInput)
    (hst : fsm.rocket_state_ = FSM_State.STATE_MAIN) (hab : inp.aborted = false) :
    (tickFSM th hp fsm inp).rocket_state_
      = (if altitudeChange hp inp.kalmanFifo < th.landing_altimeter_threshold then
          FSM_State.STATE_LANDED_DETECT
        else if elapsedMs hp inp.now fsm.main_time_
            < th.main_deploy_time_since_drogue_threshold then
          FSM_State.STATE_MAIN
        else FSM_State.STATE_LANDED) ∧
    (tickFSM th hp fsm inp).times
      = (if altitudeChange hp inp.kalmanFifo < th.landing_altimeter_threshold then
          { fsm.times with landing_time := inp.now }
        else if elapsedMs hp inp.now fsm.main_time_
            < th.main_deploy_time_since_drogue_threshold then
          fsm.times
        else { fsm.times with landing_time := inp.now }) := by
  obtain ⟨st, t1, t2, t3, t4, t5, t6, t7, t8, t9, t10, t11, t12⟩ := fsm
  simp only at hst
  subst hst
  simp only [tickFSM, hab, Bool.false_eq_true, if_false, tickSwitch, elapsedMs,
    altitudeChange, KalmanFSM.times]
  split_ifs <;> simp_all

/-- The `STATE_LANDED_DETECT` arm: phase and time stamps after the tick. -/
theorem landed_detect_arm (th : Thresholds) (hp : Helpers) (fsm : KalmanFSM)
    (inp : TickInput)
    (hst : fsm.rocket_state_ = FSM_State.STATE_LANDED_DETECT) (hab : inp.aborted = false) :
    (tickFSM th hp fsm inp).rocket_state_
      = (if altitudeChange hp inp.kalmanFifo > th.landing_altimeter_threshold then
          FSM_State.STATE_MAIN
        else if elapsedMs hp inp.now fsm.landing_time_ > th.landing_time_thresh then
          FSM_State.STATE_LANDED
        else FSM_State.STATE_LANDED_DETECT) ∧
    (tickFSM th hp fsm inp).times = fsm.times := by
  obtain ⟨st, t1, t2, t3, t4, t5, t6, t7, t8, t9, t10, t11, t12⟩ := fsm
  simp only at hst
  subst hst
  simp only [tickFSM, hab, Bool.false_eq_true, if_false, tickSwitch, elapsedMs,
    altitudeChange, KalmanFSM.times]
  split_ifs <;> simp_all

/-- A run of ticks in `STATE_LANDED_DETECT`, none with an altitude change above
the threshold and none later than `landing_time_thresh` after the landing time,
stays in `STATE_LANDED_DETECT` and keeps the landing time. -/
theorem landed_detect_hold_run (th : Thresholds) (hp : Helpers) (t0 : Nat)
    (mid : List TickInput) (fsm : KalmanFSM)
    (hst : fsm.rocket_state_ = FSM_State.STATE_LANDED_DETECT) (ht : fsm.landing_time_ = t0)
    (hmid : ∀ i ∈ mid, i.aborted = false ∧
      ¬ altitudeChange hp i.kalmanFifo > th.landing_altimeter_threshold ∧
      ¬ elapsedMs hp i.now t0 > th.landing_time_thresh) :
    (runFSM th hp fsm mid).rocket_state_ = FSM_State.STATE_LANDED_DETECT ∧
    (runFSM th hp fsm mid).landing_time_ = t0 := by
  induction mid generalizing fsm with
  | nil => exact ⟨hst, ht⟩
  | cons i rest ih =>
    obtain ⟨hab, hch, hel⟩ := hmid i (List.mem_cons_self _ _)
    obtain ⟨hph, htm⟩ := landed_detect_arm th hp fsm i hst hab
    rw [ht, if_neg hch, if_neg hel] at hph
    have hlt : (tickFSM th hp fsm i).landing_time_ = t0 := by
      have := congrArg TransitionTimes.landing_time htm
      simpa [KalmanFSM.times, ht] using this
    rw [runFSM_cons]
    exact ih (tickFSM th hp fsm i) hph hlt (fun j hj => hmid j (List.mem_cons_of_mem _ hj))

/-- C16. A tick in `STATE_LANDED_DETECT` with the abort flag unset: if
`|A_win(0) − A_win(3)|` is greater than `landing_altimeter_threshold` the phase
returns to `STATE_MAIN`; otherwise the phase becomes `STATE_LANDED` exactly when
the time elapsed since `landing_time_` is greater than `landing_time_thresh`,
and stays `STATE_LANDED_DETECT` otherwise. So, from `STATE_MAIN`, altitude
windows that stay within the threshold, the last of which is the first to come
later than `landing_time_thresh` after the landing time, take the machine
through `STATE_LANDED_DETECT` to `STATE_LANDED`. -/
theorem landed_detect_tick (th : Thresholds) (hp : Helpers) (fsm : KalmanFSM)
    (inp : TickInput) (descending : KalmanFSM) (first : TickInput) (mid : List TickInput)
    (last : TickInput)
    (hst : fsm.rocket_state_ = FSM_State.STATE_LANDED_DETECT) (hab : inp.aborted = false)
    (hmain : descending.rocket_state_ = FSM_State.STATE_MAIN)
    (hfirst : first.aborted = false ∧
      altitudeChange hp first.kalmanFifo < th.landing_altimeter_threshold)
    (hmid : ∀ i ∈ mid, i.aborted = false ∧
      altitudeChange hp i.kalmanFifo ≤ th.landing_altimeter_threshold ∧
      elapsedMs hp i.now first.now ≤ th.landing_time_thresh)
    (hlast : last.aborted = false ∧
      altitudeChange hp last.kalmanFifo ≤ th.landing_altimeter_threshold ∧
      elapsedMs hp last.now first.now > th.landing_time_thresh) :
    (altitudeChange hp inp.kalmanFifo > th.landing_altimeter_threshold →
      (tickFSM th hp fsm inp).rocket_state_ = FSM_State.STATE_MAIN) ∧
    (¬ altitudeChange hp inp.kalmanFifo > th.landing_altimeter_threshold →
      ((tickFSM th hp fsm inp).rocket_state_ = FSM_State.STATE_LANDED ↔
        elapsedMs hp inp.now fsm.landing_time_ > th.landing_time_thresh) ∧
      (¬ elapsedMs hp inp.now fsm.landing_time_ > th.landing_time_thresh →
        (tickFSM th hp fsm inp).rocket_state_ = FSM_State.STATE_LANDED_DETECT)) ∧
    (runFSM th hp descending (first :: mid)).rocket_state_ = FSM_State.STATE_LANDED_DETECT ∧
    (runFSM th hp descending (first :: (mid ++ [last]))).rocket_state_
      = FSM_State.STATE_LANDED := by
  obtain ⟨hph, -⟩ := landed_detect_arm th hp fsm inp hst hab
  obtain ⟨hf1, hf2⟩ := main_arm th hp descending first hmain hfirst.1
  rw [if_pos hfirst.2] at hf1 hf2
  have hft : (tickFSM th hp descending first).landing_time_ = first.now := by
    have := congrArg TransitionTimes.landing_time hf2
    simpa [KalmanFSM.times] using this
  obtain ⟨hm1, hm2⟩ := landed_detect_hold_run th hp first.now mid _ hf1 hft
    (fun i hi => ⟨(hmid i hi).1, not_lt.mpr (hmid i hi).2.1, not_lt.mpr (hmid i hi).2.2⟩)
  refine ⟨?_, ?_, ?_, ?_⟩
  · intro h
    rw [hph, if_pos h]
  · intro h
    rw [hph, if_neg h]
    refine ⟨?_, ?_⟩
    · split_ifs with h2 <;> simp [h2]
    · intro h2
      rw [if_neg h2]
  · rw [runFSM_cons]
    exact hm1
  · rw [runFSM_cons, runFSM_append]
    obtain ⟨hl1, hl2, hl3⟩ := hlast
    obtain ⟨hphl, -⟩ := landed_detect_arm th hp _ last hm1 hl1
    rw [hm2, if_neg (not_lt.mpr hl2), if_pos hl3] at hphl
    simpa [runFSM] using hphl

/-- The windowed statistics of the descent fifo: the altitude windows differ
by 6 m, the acceleration windows agree. -/
theorem descentFifo_windows :
    altitudeChange scenarioHelpers descentFifo = 6 ∧
    accelerationChange scenarioHelpers descentFifo = 0 := by
  simp [altitudeChange, accelerationChange, getAltitudeAverage, getAccelerationAverage,
    scenarioHelpers, getAverage, descentFifo, List.range_succ]
  norm_num

/-- The windowed statistics of the steady fifo: no change in altitude or in
acceleration. -/
theorem steadyFifo_changes :
    altitudeChange scenarioHelpers (steadyFifo 8) = 0 ∧
    accelerationChange scenarioHelpers (steadyFifo 8) = 0 := by
  obtain ⟨h1, h2, h3, h4⟩ := steadyFifo_windows
  simp [altitudeChange, accelerationChange, h1, h2, h3, h4]

/-- C11 (amended). A tick in `STATE_MAIN` with the abort flag unset: if
`|A_win(0) − A_win(3)|` is below `landing_altimeter_threshold` the phase becomes
`STATE_LANDED_DETECT` and `landing_time_` is set to the current time; otherwise
the phase becomes `STATE_LANDED`, with `landing_time_` set to the current time,
exactly when the time elapsed since `main_time_` is at least
`main_deploy_time_since_drogue_threshold`; otherwise the phase stays
`STATE_MAIN` and no time stamp changes. -/
theorem main_tick (th : Thresholds) (hp : Helpers) (fsm : KalmanFSM) (inp : TickInput)
    (hst : fsm.rocket_state_ = FSM_State.STATE_MAIN) (hab : inp.aborted = false) :
    (altitudeChange hp inp.kalmanFifo < th.landing_altimeter_threshold →
      (tickFSM th hp fsm inp).rocket_state_ = FSM_State.STATE_LANDED_DETECT ∧
      (tickFSM th hp fsm inp).times = { fsm.times with landing_time := inp.now }) ∧
    (¬ altitudeChange hp inp.kalmanFifo < th.landing_altimeter_threshold →
      ((tickFSM th hp fsm inp).rocket_state_ = FSM_State.STATE_LANDED ↔
        th.main_deploy_time_since_drogue_threshold ≤ elapsedMs hp inp.now fsm.main_time_) ∧
      (th.main_deploy_time_since_drogue_threshold ≤ elapsedMs hp inp.now fsm.main_time_ →
        (tickFSM th hp fsm inp).rocket_state_ = FSM_State.STATE_LANDED ∧
        (tickFSM th hp fsm inp).times = { fsm.times with landing_time := inp.now }) ∧
      (elapsedMs hp inp.now fsm.main_time_ < th.main_deploy_time_since_drogue_threshold →
        (tickFSM th hp fsm inp).rocket_state_ = FSM_State.STATE_MAIN ∧
        (tickFSM th hp fsm inp).times = fsm.times)) := by
  obtain ⟨hph, htm⟩ := main_arm th hp fsm inp hst hab
  refine ⟨?_, ?_⟩
  · intro h
    rw [hph, htm, if_pos h, if_pos h]
    exact ⟨rfl, rfl⟩
  · intro h
    rw [hph, htm, if_neg h, if_neg h]
    refine ⟨?_, ?_, ?_⟩
    · split_ifs with h2
      · simp [h2]
      · simp [not_lt.mp h2]
    · intro h2
      rw [if_neg (not_lt.mpr h2), if_neg (not_lt.mpr h2)]
      exact ⟨rfl, rfl⟩
    · intro h2
      rw [if_pos h2, if_pos h2]
      exact ⟨rfl, rfl⟩

/-- C11 (counterexample). The machine in `STATE_MAIN` (drogue at 65000, main at
100000, threshold 60000 ms, altitude windows 6 m apart). Ticked at 130000:
65000 ms have elapsed since `drogue_time_`, more than the threshold, and the
phase stays `STATE_MAIN`, because only 30000 ms have elapsed since `main_time_`.
Ticked at 160000: the time elapsed since `main_time_` equals the threshold, the
phase becomes `STATE_LANDED`, and `landing_time_` is overwritten with 160000. -/
theorem main_timeout_as_claimed_fails :
    mainFSM.rocket_state_ = FSM_State.STATE_MAIN ∧
    (descentTick 130000).aborted = false ∧
    ¬ altitudeChange scenarioHelpers (descentTick 130000).kalmanFifo
        < scenarioThresholds.landing_altimeter_threshold ∧
    elapsedMs scenarioHelpers (descentTick 130000).now mainFSM.drogue_time_
        > scenarioThresholds.main_deploy_time_since_drogue_threshold ∧
    (tickFSM scenarioThresholds scenarioHelpers mainFSM (descentTick 130000)).rocket_state_
        = FSM_State.STATE_MAIN ∧
    elapsedMs scenarioHelpers (descentTick 160000).now mainFSM.main_time_
        = scenarioThresholds.main_deploy_time_since_drogue_threshold ∧
    (tickFSM scenarioThresholds scenarioHelpers mainFSM (descentTick 160000)).rocket_state_
        = FSM_State.STATE_LANDED ∧
    mainFSM.landing_time_ = 0 ∧
    (tickFSM scenarioThresholds scenarioHelpers mainFSM (descentTick 160000)).landing_time_
        = 160000 := by
  have hw : ¬ altitudeChange scenarioHelpers descentFifo
      < scenarioThresholds.landing_altimeter_threshold := by
    rw [descentFifo_windows.1]
    norm_num [scenarioThresholds]
  obtain ⟨hp1, -⟩ := main_arm scenarioThresholds scenarioHelpers mainFSM (descentTick 130000)
    rfl rfl
  obtain ⟨hp2, ht2⟩ := main_arm scenarioThresholds scenarioHelpers mainFSM (descentTick 160000)
    rfl rfl
  have e1 : elapsedMs scenarioHelpers (descentTick 130000).now mainFSM.main_time_ = 30000 := by
    decide
  have e2 : elapsedMs scenarioHelpers (descentTick 160000).now mainFSM.main_time_ = 60000 := by
    decide
  have e3 : elapsedMs scenarioHelpers (descentTick 130000).now mainFSM.drogue_time_ = 65000 := by
    decide
  have hk : ∀ n, (descentTick n).kalmanFifo = descentFifo := fun _ => rfl
  rw [hk, if_neg hw, e1] at hp1
  rw [hk, if_neg hw, e2] at hp2 ht2
  have hl := congrArg TransitionTimes.landing_time ht2
  refine ⟨rfl, rfl, hw, ?_, ?_, ?_, ?_, rfl, ?_⟩
  · rw [e3]; decide
  · rw [hp1]; decide
  · rw [e2]; rfl
  · rw [hp2]; decide
  · simpa [KalmanFSM.times, scenarioThresholds, descentTick] using hl

/-- The `STATE_BOOST` arm: phase and time stamps after the tick. -/
theorem boost_arm (th : Thresholds) (hp : Helpers) (fsm : KalmanFSM) (inp : TickInput)
    (hst : fsm.rocket_state_ = FSM_State.STATE_BOOST) (hab : inp.aborted = false) :
    (tickFSM th hp fsm inp).rocket_state_
      = (if inp.est.state_est_accel_x < th.coast_thresh then FSM_State.STATE_BURNOUT_DETECT
        else if elapsedMs hp inp.now fsm.launch_time_ < th.burn_time_thresh_ms then
          FSM_State.STATE_BOOST
        else FSM_State.STATE_COAST_PREGNC) ∧
    (tickFSM th hp fsm inp).times
      = (if inp.est.state_est_accel_x < th.coast_thresh then
          { fsm.times with burnout_time := inp.now }
        else if elapsedMs hp inp.now fsm.launch_time_ < th.burn_time_thresh_ms then
          fsm.times
        else { fsm.times with burnout_time := inp.now }) := by
  obtain ⟨st, t1, t2, t3, t4, t5, t6, t7, t8, t9, t10, t11, t12⟩ := fsm
  simp only at hst
  subst hst
  simp only [tickFSM, hab, Bool.false_eq_true, if_false, tickSwitch, elapsedMs,
    KalmanFSM.times]
  split_ifs <;> simp_all

/-- C12 (amended). A tick in `STATE_BOOST` with the abort flag unset: if the
estimated acceleration is below `coast_thresh` the phase becomes
`STATE_BURNOUT_DETECT` and `burnout_time_` is set to the current time; otherwise
the phase becomes `STATE_COAST_PREGNC`, with `burnout_time_` set to the current
time, exactly when the time elapsed since `launch_time_` is at least
`burn_time_thresh_ms`, and stays `STATE_BOOST` with no time stamp changed
otherwise. -/
theorem boost_tick (th : Thresholds) (hp : Helpers) (fsm : KalmanFSM) (inp : TickInput)
    (hst : fsm.rocket_state_ = FSM_State.STATE_BOOST) (hab : inp.aborted = false) :
    (inp.est.state_est_accel_x < th.coast_thresh →
      (tickFSM th hp fsm inp).rocket_state_ = FSM_State.STATE_BURNOUT_DETECT ∧
      (tickFSM th hp fsm inp).times = { fsm.times with burnout_time := inp.now }) ∧
    (¬ inp.est.state_est_accel_x < th.coast_thresh →
      ((tickFSM th hp fsm inp).rocket_state_ = FSM_State.STATE_COAST_PREGNC ↔
        th.burn_time_thresh_ms ≤ elapsedMs hp inp.now fsm.launch_time_) ∧
      (th.burn_time_thresh_ms ≤ elapsedMs hp inp.now fsm.launch_time_ →
        (tickFSM th hp fsm inp).rocket_state_ = FSM_State.STATE_COAST_PREGNC ∧
        (tickFSM th hp fsm inp).times = { fsm.times with burnout_time := inp.now }) ∧
      (elapsedMs hp inp.now fsm.launch_time_ < th.burn_time_thresh_ms →
        (tickFSM th hp fsm inp).rocket_state_ = FSM_State.STATE_BOOST ∧
        (tickFSM th hp fsm inp).times = fsm.times)) := by
  obtain ⟨hph, htm⟩ := boost_arm th hp fsm inp hst hab
  refine ⟨?_, ?_⟩
  · intro h
    rw [hph, htm, if_pos h, if_pos h]
    exact ⟨rfl, rfl⟩
  · intro h
    rw [hph, htm, if_neg h, if_neg h]
    refine ⟨?_, ?_, ?_⟩
    · split_ifs with h2
      · simp [h2]
      · simp [not_lt.mp h2]
    · intro h2
      rw [if_neg (not_lt.mpr h2), if_neg (not_lt.mpr h2)]
      exact ⟨rfl, rfl⟩
    · intro h2
      rw [if_pos h2, if_pos h2]
      exact ⟨rfl, rfl⟩

/-- C12 (counterexample). The machine in `STATE_BOOST` launched at 10000,
ticked under thrust at 14500: the time elapsed since `launch_time_` is 4500 ms,
equal to `burn_time_thresh_ms` and so not greater than it, and the phase
becomes `STATE_COAST_PREGNC` with `burnout_time_` set to 14500. -/
theorem boost_timeout_at_threshold :
    boostFSM.rocket_state_ = FSM_State.STATE_BOOST ∧
    (thrustTick 14500).aborted = false ∧
    ¬ (thrustTick 14500).est.state_est_accel_x < scenarioThresholds.coast_thresh ∧
    ¬ elapsedMs scenarioHelpers (thrustTick 14500).now boostFSM.launch_time_
        > scenarioThresholds.burn_time_thresh_ms ∧
    (tickFSM scenarioThresholds scenarioHelpers boostFSM (thrustTick 14500)).rocket_state_
        = FSM_State.STATE_COAST_PREGNC ∧
    boostFSM.burnout_time_ = 0 ∧
    (tickFSM scenarioThresholds scenarioHelpers boostFSM (thrustTick 14500)).burnout_time_
        = 14500 := by
  have ha : ¬ (thrustTick 14500).est.state_est_accel_x < scenarioThresholds.coast_thresh := by
    norm_num [thrustTick, scenarioThresholds]
  have e1 : elapsedMs scenarioHelpers (thrustTick 14500).now boostFSM.launch_time_ = 4500 := by
    decide
  obtain ⟨hp1, ht1⟩ := boost_arm scenarioThresholds scenarioHelpers boostFSM (thrustTick 14500)
    rfl rfl
  rw [if_neg ha, e1] at hp1 ht1
  have hl := congrArg TransitionTimes.burnout_time ht1
  refine ⟨rfl, rfl, ha, ?_, ?_, rfl, ?_⟩
  · rw [e1]; decide
  · rw [hp1]; decide
  · simpa [KalmanFSM.times, scenarioThresholds, thrustTick] using hl

/-- The `STATE_COAST_GNC` arm: phase and time stamps after the tick. -/
theorem coast_gnc_arm (th : Thresholds) (hp : Helpers) (fsm : KalmanFSM) (inp : TickInput)
    (hst : fsm.rocket_state_ = FSM_State.STATE_COAST_GNC) (hab : inp.aborted = false) :
    (tickFSM th hp fsm inp).rocket_state_
      = (if |inp.est.state_est_vel_x| * (2 / 100) < th.apogee_altimeter_threshold then
          FSM_State.STATE_APOGEE_DETECT
        else if elapsedMs hp inp.now fsm.burnout_time_ < th.coast_to_apogee_time_thresh then
          FSM_State.STATE_COAST_GNC
        else FSM_State.STATE_APOGEE) ∧
    (tickFSM th hp fsm inp).times
      = (if |inp.est.state_est_vel_x| * (2 / 100) < th.apogee_altimeter_threshold then
          { fsm.times with apogee_time := inp.now }
        else if elapsedMs hp inp.now fsm.burnout_time_ < th.coast_to_apogee_time_thresh then
          fsm.times
        else { fsm.times with apogee_time := inp.now }) := by
  obtain ⟨st, t1, t2, t3, t4, t5, t6, t7, t8, t9, t10, t11, t12⟩ := fsm
  simp only at hst
  subst hst
  simp only [tickFSM, hab, Bool.false_eq_true, if_false, tickSwitch, elapsedMs,
    KalmanFSM.times]
  split_ifs <;> simp_all

/-- C13 (amended). A tick in `STATE_COAST_GNC` with the abort flag unset: if
`|vel|·0.02` is below `apogee_altimeter_threshold` the phase becomes
`STATE_APOGEE_DETECT` and `apogee_time_` is set to the current time, whatever
the elapsed time is; otherwise the phase becomes `STATE_APOGEE`, with
`apogee_time_` set to the current time, exactly when the time elapsed since
`burnout_time_` is at least `coast_to_apogee_time_thresh`, and stays
`STATE_COAST_GNC` with no time stamp changed otherwise. -/
theorem coast_gnc_tick (th : Thresholds) (hp : Helpers) (fsm : KalmanFSM) (inp : TickInput)
    (hst : fsm.rocket_state_ = FSM_State.STATE_COAST_GNC) (hab : inp.aborted = false) :
    (|inp.est.state_est_vel_x| * (2 / 100) < th.apogee_altimeter_threshold →
      (tickFSM th hp fsm inp).rocket_state_ = FSM_State.STATE_APOGEE_DETECT ∧
      (tickFSM th hp fsm inp).times = { fsm.times with apogee_time := inp.now }) ∧
    (¬ |inp.est.state_est_vel_x| * (2 / 100) < th.apogee_altimeter_threshold →
      ((tickFSM th hp fsm inp).rocket_state_ = FSM_State.STATE_APOGEE ↔
        th.coast_to_apogee_time_thresh ≤ elapsedMs hp inp.now fsm.burnout_time_) ∧
      (th.coast_to_apogee_time_thresh ≤ elapsedMs hp inp.now fsm.burnout_time_ →
        (tickFSM th hp fsm inp).rocket_state_ = FSM_State.STATE_APOGEE ∧
        (tickFSM th hp fsm inp).times = { fsm.times with apogee_time := inp.now }) ∧
      (elapsedMs hp inp.now fsm.burnout_time_ < th.coast_to_apogee_time_thresh →
        (tickFSM th hp fsm inp).rocket_state_ = FSM_State.STATE_COAST_GNC ∧
        (tickFSM th hp fsm inp).times = fsm.times)) := by
  obtain ⟨hph, htm⟩ := coast_gnc_arm th hp fsm inp hst hab
  refine ⟨?_, ?_⟩
  · intro h
    rw [hph, htm, if_pos h, if_pos h]
    exact ⟨rfl, rfl⟩
  · intro h
    rw [hph, htm, if_neg h, if_neg h]
    refine ⟨?_, ?_, ?_⟩
    · split_ifs with h2
      · simp [h2]
      · simp [not_lt.mp h2]
    · intro h2
      rw [if_neg (not_lt.mpr h2), if_neg (not_lt.mpr h2)]
      exact ⟨rfl, rfl⟩
    · intro h2
      rw [if_pos h2, if_pos h2]
      exact ⟨rfl, rfl⟩

/-- C13 (counterexample). The machine in `STATE_COAST_GNC` with burnout at
14500, ticked at 44500 while climbing at 100 m/s (`|vel|·0.02 = 2`, not below
the 1 m threshold): the time elapsed since `burnout_time_` is 30000 ms, equal to
`coast_to_apogee_time_thresh` and so not greater than it, and the phase becomes
`STATE_APOGEE` with `apogee_time_` set to 44500. -/
theorem coast_timeout_at_threshold :
    coastFSM.rocket_state_ = FSM_State.STATE_COAST_GNC ∧
    (coastTick 44500).aborted = false ∧
    ¬ |(coastTick 44500).est.state_est_vel_x| * (2 / 100)
        < scenarioThresholds.apogee_altimeter_threshold ∧
    ¬ elapsedMs scenarioHelpers (coastTick 44500).now coastFSM.burnout_time_
        > scenarioThresholds.coast_to_apogee_time_thresh ∧
    (tickFSM scenarioThresholds scenarioHelpers coastFSM (coastTick 44500)).rocket_state_
        = FSM_State.STATE_APOGEE ∧
    coastFSM.apogee_time_ = 0 ∧
    (tickFSM scenarioThresholds scenarioHelpers coastFSM (coastTick 44500)).apogee_time_
        = 44500 := by
  have ha : ¬ |(coastTick 44500).est.state_est_vel_x| * (2 / 100)
      < scenarioThresholds.apogee_altimeter_threshold := by
    norm_num [coastTick, scenarioThresholds, abs_of_pos]
  have e1 : elapsedMs scenarioHelpers (coastTick 44500).now coastFSM.burnout_time_ = 30000 := by
    decide
  obtain ⟨hp1, ht1⟩ := coast_gnc_arm scenarioThresholds scenarioHelpers coastFSM
    (coastTick 44500) rfl rfl
  rw [if_neg ha, e1] at hp1 ht1
  have hl := congrArg TransitionTimes.apogee_time ht1
  refine ⟨rfl, rfl, ha, ?_, ?_, rfl, ?_⟩
  · rw [e1]; decide
  · rw [hp1]; decide
  · simpa [KalmanFSM.times, scenarioThresholds, coastTick] using hl

/-- The `STATE_DROGUE` arm: phase and time stamps after the tick. -/
theorem drogue_arm (th : Thresholds) (hp : Helpers) (fsm : KalmanFSM) (inp : TickInput)
    (hst : fsm.rocket_state_ = FSM_State.STATE_DROGUE) (hab : inp.aborted = false) :
    (tickFSM th hp fsm inp).rocket_state_
      = (if elapsedMs hp inp.now fsm.drogue_time_ > th.refresh_timer ∧
            accelerationChange hp inp.kalmanFifo > th.main_acceleration_change_threshold_imu
          then FSM_State.STATE_MAIN_DETECT
        else if elapsedMs hp inp.now fsm.drogue_time_
            < th.main_deploy_time_since_drogue_threshold then
          FSM_State.STATE_DROGUE
        else FSM_State.STATE_MAIN) ∧
    (tickFSM th hp fsm inp).times
      = (if elapsedMs hp inp.now fsm.drogue_time_ > th.refresh_timer ∧
            accelerationChange hp inp.kalmanFifo > th.main_acceleration_change_threshold_imu
          then fsm.times
        else if elapsedMs hp inp.now fsm.drogue_time_
            < th.main_deploy_time_since_drogue_threshold then
          fsm.times
        else { fsm.times with main_time := inp.now }) := by
  obtain ⟨st, t1, t2, t3, t4, t5, t6, t7, t8, t9, t10, t11, t12⟩ := fsm
  simp only at hst
  subst hst
  simp only [tickFSM, hab, Bool.false_eq_true, if_false, tickSwitch, elapsedMs,
    accelerationChange, KalmanFSM.times]
  split_ifs <;> simp_all

/-- C17 (amended). A tick in `STATE_DROGUE` with the abort flag unset, `d` being
the time elapsed since `drogue_time_`: the phase becomes `STATE_MAIN_DETECT`
(no time stamp changed) exactly when `d > refresh_timer` and
`|a_win(0) − a_win(3)| > main_acceleration_change_threshold_imu`; if not, the
phase becomes `STATE_MAIN`, with `main_time_` set to the current time, exactly
when `d` is at least `main_deploy_time_since_drogue_threshold`; otherwise the
phase stays `STATE_DROGUE` and no time stamp changes. -/
theorem drogue_tick (th : Thresholds) (hp : Helpers) (fsm : KalmanFSM) (inp : TickInput)
    (hst : fsm.rocket_state_ = FSM_State.STATE_DROGUE) (hab : inp.aborted = false) :
    ((tickFSM th hp fsm inp).rocket_state_ = FSM_State.STATE_MAIN_DETECT ↔
      (elapsedMs hp inp.now fsm.drogue_time_ > th.refresh_timer ∧
        accelerationChange hp inp.kalmanFifo > th.main_acceleration_change_threshold_imu)) ∧
    ((elapsedMs hp inp.now fsm.drogue_time_ > th.refresh_timer ∧
        accelerationChange hp inp.kalmanFifo > th.main_acceleration_change_threshold_imu) →
      (tickFSM th hp fsm inp).times = fsm.times) ∧
    (¬ (elapsedMs hp inp.now fsm.drogue_time_ > th.refresh_timer ∧
        accelerationChange hp inp.kalmanFifo > th.main_acceleration_change_threshold_imu) →
      ((tickFSM th hp fsm inp).rocket_state_ = FSM_State.STATE_MAIN ↔
        th.main_deploy_time_since_drogue_threshold ≤ elapsedMs hp inp.now fsm.drogue_time_) ∧
      (th.main_deploy_time_since_drogue_threshold ≤ elapsedMs hp inp.now fsm.drogue_time_ →
        (tickFSM th hp fsm inp).rocket_state_ = FSM_State.STATE_MAIN ∧
        (tickFSM th hp fsm inp).times = { fsm.times with main_time := inp.now }) ∧
      (elapsedMs hp inp.now fsm.drogue_time_ < th.main_deploy_time_since_drogue_threshold →
        (tickFSM th hp fsm inp).rocket_state_ = FSM_State.STATE_DROGUE ∧
        (tickFSM th hp fsm inp).times = fsm.times)) := by
  obtain ⟨hph, htm⟩ := drogue_arm th hp fsm inp hst hab
  refine ⟨?_, ?_, ?_⟩
  · rw [hph]
    split_ifs with h1 h2 <;> simp [h1]
  · intro h
    rw [htm, if_pos h]
  · intro h
    rw [hph, htm, if_neg h, if_neg h]
    refine ⟨?_, ?_, ?_⟩
    · split_ifs with h2
      · simp [h2]
      · simp [not_lt.mp h2]
    · intro h2
      rw [if_neg (not_lt.mpr h2), if_neg (not_lt.mpr h2)]
      exact ⟨rfl, rfl⟩
    · intro h2
      rw [if_pos h2, if_pos h2]
      exact ⟨rfl, rfl⟩

/-- C17 (counterexample). The machine in `STATE_DROGUE` with drogue at 65000,
ticked at 125000 with equal acceleration windows: the time elapsed since
`drogue_time_` is 60000 ms, equal to `main_deploy_time_since_drogue_threshold`
and so not greater than it, and the phase becomes `STATE_MAIN` with `main_time_`
set to 125000. -/
theorem drogue_timeout_at_threshold :
    drogueFSM.rocket_state_ = FSM_State.STATE_DROGUE ∧
    (steadyTick false 125000).aborted = false ∧
    ¬ (elapsedMs scenarioHelpers (steadyTick false 125000).now drogueFSM.drogue_time_
          > scenarioThresholds.refresh_timer ∧
        accelerationChange scenarioHelpers (steadyTick false 125000).kalmanFifo
          > scenarioThresholds.main_acceleration_change_threshold_imu) ∧
    ¬ elapsedMs scenarioHelpers (steadyTick false 125000).now drogueFSM.drogue_time_
        > scenarioThresholds.main_deploy_time_since_drogue_threshold ∧
    (tickFSM scenarioThresholds scenarioHelpers drogueFSM
        (steadyTick false 125000)).rocket_state_ = FSM_State.STATE_MAIN ∧
    drogueFSM.main_time_ = 0 ∧
    (tickFSM scenarioThresholds scenarioHelpers drogueFSM
        (steadyTick false 125000)).main_time_ = 125000 := by
  have hk : (steadyTick false 125000).kalmanFifo = steadyFifo 8 := rfl
  have ha : ¬ (elapsedMs scenarioHelpers (steadyTick false 125000).now drogueFSM.drogue_time_
        > scenarioThresholds.refresh_timer ∧
      accelerationChange scenarioHelpers (steadyTick false 125000).kalmanFifo
        > scenarioThresholds.main_acceleration_change_threshold_imu) := by
    rw [hk, steadyFifo_changes.2]
    norm_num [scenarioThresholds]
  have e1 : elapsedMs scenarioHelpers (steadyTick false 125000).now drogueFSM.drogue_time_
      = 60000 := by
    decide
  obtain ⟨hp1, ht1⟩ := drogue_arm scenarioThresholds scenarioHelpers drogueFSM
    (steadyTick false 125000) rfl rfl
  rw [if_neg ha, e1] at hp1 ht1
  have hl := congrArg TransitionTimes.main_time ht1
  refine ⟨rfl, rfl, ha, ?_, ?_, rfl, ?_⟩
  · rw [e1]; decide
  · rw [hp1]; decide
  · simpa [KalmanFSM.times, scenarioThresholds, steadyTick] using hl

/-! ### Instances of the arm theorems -/

/-- Witness of `main_tick`: the machine in `STATE_MAIN` ticked at 130000 during
the descent, 30000 ms after `main_time_`, stays in `STATE_MAIN`. -/
theorem main_tick_witness :
    mainFSM.rocket_state_ = FSM_State.STATE_MAIN ∧ (descentTick 130000).aborted = false ∧
    (tickFSM scenarioThresholds scenarioHelpers mainFSM (descentTick 130000)).rocket_state_
      = FSM_State.STATE_MAIN ∧
    (tickFSM scenarioThresholds scenarioHelpers mainFSM (descentTick 130000)).times
      = mainFSM.times :=
  have hw : ¬ altitudeChange scenarioHelpers (descentTick 130000).kalmanFifo
      < scenarioThresholds.landing_altimeter_threshold := by
    have hk : (descentTick 130000).kalmanFifo = descentFifo := rfl
    rw [hk, descentFifo_windows.1]
    norm_num [scenarioThresholds]
  have hlt : elapsedMs scenarioHelpers (descentTick 130000).now mainFSM.main_time_
      < scenarioThresholds.main_deploy_time_since_drogue_threshold := by decide
  ⟨rfl, rfl,
    ((main_tick scenarioThresholds scenarioHelpers mainFSM (descentTick 130000) rfl rfl).2
      hw).2.2 hlt⟩

/-- Witness of `boost_tick`: the machine in `STATE_BOOST` ticked under thrust
2000 ms after launch stays in `STATE_BOOST`. -/
theorem boost_tick_witness :
    boostFSM.rocket_state_ = FSM_State.STATE_BOOST ∧ (thrustTick 12000).aborted = false ∧
    (tickFSM scenarioThresholds scenarioHelpers boostFSM (thrustTick 12000)).rocket_state_
      = FSM_State.STATE_BOOST ∧
    (tickFSM scenarioThresholds scenarioHelpers boostFSM (thrustTick 12000)).times
      = boostFSM.times :=
  have ha : ¬ (thrustTick 12000).est.state_est_accel_x < scenarioThresholds.coast_thresh := by
    norm_num [thrustTick, scenarioThresholds]
  have hlt : elapsedMs scenarioHelpers (thrustTick 12000).now boostFSM.launch_time_
      < scenarioThresholds.burn_time_thresh_ms := by decide
  ⟨rfl, rfl,
    ((boost_tick scenarioThresholds scenarioHelpers boostFSM (thrustTick 12000) rfl rfl).2
      ha).2.2 hlt⟩

/-- Witness of `coast_gnc_tick`: the machine in `STATE_COAST_GNC` ticked 35500
ms after burnout while still climbing goes to `STATE_APOGEE` and records the
apogee time. -/
theorem coast_gnc_tick_witness :
    coastFSM.rocket_state_ = FSM_State.STATE_COAST_GNC ∧ (coastTick 50000).aborted = false ∧
    (tickFSM scenarioThresholds scenarioHelpers coastFSM (coastTick 50000)).rocket_state_
      = FSM_State.STATE_APOGEE ∧
    (tickFSM scenarioThresholds scenarioHelpers coastFSM (coastTick 50000)).times
      = { coastFSM.times with apogee_time := (coastTick 50000).now } :=
  have ha : ¬ |(coastTick 50000).est.state_est_vel_x| * (2 / 100)
      < scenarioThresholds.apogee_altimeter_threshold := by
    norm_num [coastTick, scenarioThresholds, abs_of_pos]
  have hge : scenarioThresholds.coast_to_apogee_time_thresh
      ≤ elapsedMs scenarioHelpers (coastTick 50000).now coastFSM.burnout_time_ := by decide
  ⟨rfl, rfl,
    ((coast_gnc_tick scenarioThresholds scenarioHelpers coastFSM (coastTick 50000) rfl rfl).2
      ha).2.1 hge⟩

/-- Witness of `drogue_tick`: the machine in `STATE_DROGUE` ticked 65000 ms
after `drogue_time_` with equal acceleration windows goes to `STATE_MAIN`. -/
theorem drogue_tick_witness :
    drogueFSM.rocket_state_ = FSM_State.STATE_DROGUE ∧
    (steadyTick false 130000).aborted = false ∧
    (tickFSM scenarioThresholds scenarioHelpers drogueFSM
      (steadyTick false 130000)).rocket_state_ = FSM_State.STATE_MAIN ∧
    (tickFSM scenarioThresholds scenarioHelpers drogueFSM (steadyTick false 130000)).times
      = { drogueFSM.times with main_time := (steadyTick false 130000).now } :=
  have ha : ¬ (elapsedMs scenarioHelpers (steadyTick false 130000).now drogueFSM.drogue_time_
        > scenarioThresholds.refresh_timer ∧
      accelerationChange scenarioHelpers (steadyTick false 130000).kalmanFifo
        > scenarioThresholds.main_acceleration_change_threshold_imu) := by
    have hk : (steadyTick false 130000).kalmanFifo = steadyFifo 8 := rfl
    rw [hk, steadyFifo_changes.2]
    norm_num [scenarioThresholds]
  have hge : scenarioThresholds.main_deploy_time_since_drogue_threshold
      ≤ elapsedMs scenarioHelpers (steadyTick false 130000).now drogueFSM.drogue_time_ := by
    decide
  ⟨rfl, rfl,
    ((drogue_tick scenarioThresholds scenarioHelpers drogueFSM (steadyTick false 130000)
      rfl rfl).2.2 ha).2.1 hge⟩

/-- Witness of `landed_terminal`: the landed machine ticked once more. -/
theorem landed_terminal_witness :
    landedFSM.rocket_state_ = FSM_State.STATE_LANDED ∧
    (steadyTick false 300000).aborted = false ∧
    tickFSM scenarioThresholds scenarioHelpers landedFSM (steadyTick false 300000)
      = landedFSM :=
  ⟨rfl, rfl,
    (landed_terminal scenarioThresholds scenarioHelpers landedFSM (steadyTick false 300000)
      rfl rfl).2.2⟩

/-- Witness of `untimed_detect_tick`: the machine in `STATE_DROGUE_DETECT`
ticked with no change in the second-derivative windows returns to
`STATE_APOGEE`. -/
theorem untimed_detect_tick_witness :
    (steadyTick false 62000).aborted = false ∧
    drogueDetectFSM.rocket_state_ = FSM_State.STATE_DROGUE_DETECT ∧
    (tickFSM scenarioThresholds scenarioHelpers drogueDetectFSM
      (steadyTick false 62000)).rocket_state_ = FSM_State.STATE_APOGEE ∧
    (tickFSM scenarioThresholds scenarioHelpers drogueDetectFSM (steadyTick false 62000)).times
      = drogueDetectFSM.times :=
  have hc : ¬ curvatureChange scenarioHelpers (steadyTick false 62000).kalmanFifo
      > scenarioThresholds.drogue_acceleration_change_threshold_altimeter := by
    norm_num [curvatureChange, getSecondDerivativeAltitudeAverage, scenarioHelpers,
      scenarioThresholds]
  ⟨rfl, rfl,
    ((untimed_detect_tick scenarioThresholds scenarioHelpers drogueDetectFSM
      (steadyTick false 62000) rfl).1 rfl).2.1 hc⟩

/-- Witness of `timed_detect_tick`: the machine in `STATE_APOGEE_DETECT` since
60000 ticked at 61501 with steady altitude windows confirms `STATE_APOGEE`. -/
theorem timed_detect_tick_witness :
    (steadyTick false 61501).aborted = false ∧
    apogeeDetectFSM.rocket_state_ = FSM_State.STATE_APOGEE_DETECT ∧
    (tickFSM scenarioThresholds scenarioHelpers apogeeDetectFSM
      (steadyTick false 61501)).rocket_state_ = FSM_State.STATE_APOGEE :=
  have hc : ¬ altitudeChange scenarioHelpers (steadyTick false 61501).kalmanFifo
      > scenarioThresholds.apogee_altimeter_threshold := by
    have hk : (steadyTick false 61501).kalmanFifo = steadyFifo 8 := rfl
    rw [hk, steadyFifo_changes.1]
    norm_num [scenarioThresholds]
  have hel : elapsedMs scenarioHelpers (steadyTick false 61501).now apogeeDetectFSM.apogee_time_
      > scenarioThresholds.apogee_time_thresh := by decide
  ⟨rfl, rfl,
    ((((timed_detect_tick scenarioThresholds scenarioHelpers apogeeDetectFSM
      (steadyTick false 61501) rfl).2 rfl).2.1 hc).1).mpr hel⟩

/-- Witness of `idle_tick`: the idle machine ticked under thrust detects the
launch; ticked twice at rest it stays idle. -/
theorem idle_tick_witness :
    idleFSM.rocket_state_ = FSM_State.STATE_IDLE ∧ (thrustTick 10000).aborted = false ∧
    (∀ i ∈ [steadyTick false 100, steadyTick false 106], i.aborted = false ∧
      i.est.state_est_accel_x ≤ scenarioThresholds.launch_linear_acceleration_thresh) ∧
    (tickFSM scenarioThresholds scenarioHelpers idleFSM (thrustTick 10000)).rocket_state_
      = FSM_State.STATE_LAUNCH_DETECT ∧
    (runFSM scenarioThresholds scenarioHelpers idleFSM
      ([steadyTick false 100, steadyTick false 106].take 2)).rocket_state_
      = FSM_State.STATE_IDLE :=
  have hq : ∀ i ∈ [steadyTick false 100, steadyTick false 106], i.aborted = false ∧
      i.est.state_est_accel_x ≤ scenarioThresholds.launch_linear_acceleration_thresh := by
    intro i hi
    simp only [List.mem_cons, List.mem_singleton, List.not_mem_nil, or_false] at hi
    rcases hi with h | h <;> subst h <;>
      exact ⟨rfl, by norm_num [steadyTick, scenarioThresholds]⟩
  have hacc : (thrustTick 10000).est.state_est_accel_x
      > scenarioThresholds.launch_linear_acceleration_thresh := by
    norm_num [thrustTick, scenarioThresholds]
  ⟨rfl, rfl, hq,
    ((idle_tick scenarioThresholds scenarioHelpers idleFSM (thrustTick 10000)
      [steadyTick false 100, steadyTick false 106] rfl rfl hq).1 hacc).1,
    ((idle_tick scenarioThresholds scenarioHelpers idleFSM (thrustTick 10000)
      [steadyTick false 100, steadyTick false 106] rfl rfl hq).2.2 2).1⟩

/-- Witness of `launch_detect_tick`: from idle, one thrust estimate followed by
an estimate at rest ends in `STATE_IDLE`; thrust estimates at 10000, 10100 and
10251 (251 ms after the launch time, threshold 250 ms) end in `STATE_BOOST`. -/
theorem launch_detect_tick_witness :
    launchDetectFSM.rocket_state_ = FSM_State.STATE_LAUNCH_DETECT ∧
    (thrustTick 10251).aborted = false ∧
    idleFSM.rocket_state_ = FSM_State.STATE_IDLE ∧
    ((thrustTick 10000).aborted = false ∧ (thrustTick 10000).est.state_est_accel_x
      > scenarioThresholds.launch_linear_acceleration_thresh) ∧
    ([steadyTick false 10006] ≠ [] ∧ ∀ i ∈ [steadyTick false 10006], i.aborted = false ∧
      i.est.state_est_accel_x < scenarioThresholds.launch_linear_acceleration_thresh) ∧
    (∀ i ∈ [thrustTick 10100], i.aborted = false ∧
      i.est.state_est_accel_x > scenarioThresholds.launch_linear_acceleration_thresh ∧
      elapsedMs scenarioHelpers i.now (thrustTick 10000).now
        ≤ scenarioThresholds.launch_time_thresh) ∧
    ((thrustTick 10251).aborted = false ∧ (thrustTick 10251).est.state_est_accel_x
        > scenarioThresholds.launch_linear_acceleration_thresh ∧
      elapsedMs scenarioHelpers (thrustTick 10251).now (thrustTick 10000).now
        > scenarioThresholds.launch_time_thresh) ∧
    (tickFSM scenarioThresholds scenarioHelpers launchDetectFSM (thrustTick 10251)).rocket_state_
      = FSM_State.STATE_BOOST ∧
    (runFSM scenarioThresholds scenarioHelpers idleFSM
      (thrustTick 10000 :: [steadyTick false 10006])).rocket_state_ = FSM_State.STATE_IDLE ∧
    (runFSM scenarioThresholds scenarioHelpers idleFSM
      (thrustTick 10000 :: ([thrustTick 10100] ++ [thrustTick 10251]))).rocket_state_
      = FSM_State.STATE_BOOST :=
  have hacc : ∀ n, (thrustTick n).est.state_est_accel_x
      > scenarioThresholds.launch_linear_acceleration_thresh := by
    intro n
    norm_num [thrustTick, scenarioThresholds]
  have hfirst : (thrustTick 10000).aborted = false ∧ (thrustTick 10000).est.state_est_accel_x
      > scenarioThresholds.launch_linear_acceleration_thresh := ⟨rfl, hacc _⟩
  have hbelow : [steadyTick false 10006] ≠ [] ∧ ∀ i ∈ [steadyTick false 10006],
      i.aborted = false ∧
      i.est.state_est_accel_x < scenarioThresholds.launch_linear_acceleration_thresh := by
    refine ⟨by simp, ?_⟩
    intro i hi
    rw [List.mem_singleton] at hi
    subst hi
    exact ⟨rfl, by norm_num [steadyTick, scenarioThresholds]⟩
  have hmid : ∀ i ∈ [thrustTick 10100], i.aborted = false ∧
      i.est.state_est_accel_x > scenarioThresholds.launch_linear_acceleration_thresh ∧
      elapsedMs scenarioHelpers i.now (thrustTick 10000).now
        ≤ scenarioThresholds.launch_time_thresh := by
    intro i hi
    rw [List.mem_singleton] at hi
    subst hi
    exact ⟨rfl, hacc _, by decide⟩
  have hlast : (thrustTick 10251).aborted = false ∧ (thrustTick 10251).est.state_est_accel_x
        > scenarioThresholds.launch_linear_acceleration_thresh ∧
      elapsedMs scenarioHelpers (thrustTick 10251).now (thrustTick 10000).now
        > scenarioThresholds.launch_time_thresh := ⟨rfl, hacc _, by decide⟩
  have hnb : ¬ (thrustTick 10251).est.state_est_accel_x
      < scenarioThresholds.launch_linear_acceleration_thresh := not_lt.mpr (le_of_lt (hacc _))
  have hel : elapsedMs scenarioHelpers (thrustTick 10251).now launchDetectFSM.launch_time_
      > scenarioThresholds.launch_time_thresh := by decide
  ⟨rfl, rfl, rfl, hfirst, hbelow, hmid, hlast,
    (((launch_detect_tick scenarioThresholds scenarioHelpers launchDetectFSM (thrustTick 10251)
      idleFSM (thrustTick 10000) [steadyTick false 10006] [thrustTick 10100] (thrustTick 10251)
      rfl rfl rfl hfirst hbelow hmid hlast).2.1 hnb).1).mpr hel,
    (launch_detect_tick scenarioThresholds scenarioHelpers launchDetectFSM (thrustTick 10251)
      idleFSM (thrustTick 10000) [steadyTick false 10006] [thrustTick 10100] (thrustTick 10251)
      rfl rfl rfl hfirst hbelow hmid hlast).2.2.1,
    (launch_detect_tick scenarioThresholds scenarioHelpers launchDetectFSM (thrustTick 10251)
      idleFSM (thrustTick 10000) [steadyTick false 10006] [thrustTick 10100] (thrustTick 10251)
      rfl rfl rfl hfirst hbelow hmid hlast).2.2.2⟩

/-- Witness of `landed_detect_tick`: from `STATE_MAIN`, steady altitude windows
at 200000, 202000 and 205001 (5001 ms after the landing time, threshold 5000
ms) lead through `STATE_LANDED_DETECT` to `STATE_LANDED`. -/
theorem landed_detect_tick_witness :
    landedDetectFSM.rocket_state_ = FSM_State.STATE_LANDED_DETECT ∧
    (steadyTick false 205001).aborted = false ∧
    mainFSM.rocket_state_ = FSM_State.STATE_MAIN ∧
    ((steadyTick false 200000).aborted = false ∧
      altitudeChange scenarioHelpers (steadyTick false 200000).kalmanFifo
        < scenarioThresholds.landing_altimeter_threshold) ∧
    (∀ i ∈ [steadyTick false 202000], i.aborted = false ∧
      altitudeChange scenarioHelpers i.kalmanFifo
        ≤ scenarioThresholds.landing_altimeter_threshold ∧
      elapsedMs scenarioHelpers i.now (steadyTick false 200000).now
        ≤ scenarioThresholds.landing_time_thresh) ∧
    ((steadyTick false 205001).aborted = false ∧
      altitudeChange scenarioHelpers (steadyTick false 205001).kalmanFifo
        ≤ scenarioThresholds.landing_altimeter_threshold ∧
      elapsedMs scenarioHelpers (steadyTick false 205001).now (steadyTick false 200000).now
        > scenarioThresholds.landing_time_thresh) ∧
    (tickFSM scenarioThresholds scenarioHelpers landedDetectFSM
      (steadyTick false 205001)).rocket_state_ = FSM_State.STATE_LANDED ∧
    (runFSM scenarioThresholds scenarioHelpers mainFSM
      (steadyTick false 200000 :: [steadyTick false 202000])).rocket_state_
      = FSM_State.STATE_LANDED_DETECT ∧
    (runFSM scenarioThresholds scenarioHelpers mainFSM
      (steadyTick false 200000
        :: ([steadyTick false 202000] ++ [steadyTick false 205001]))).rocket_state_
      = FSM_State.STATE_LANDED :=
  have hch : ∀ n, altitudeChange scenarioHelpers (steadyTick false n).kalmanFifo = 0 := by
    intro n
    exact steadyFifo_changes.1
  have hfirst : (steadyTick false 200000).aborted = false ∧
      altitudeChange scenarioHelpers (steadyTick false 200000).kalmanFifo
        < scenarioThresholds.landing_altimeter_threshold :=
    ⟨rfl, by rw [hch]; norm_num [scenarioThresholds]⟩
  have hmid : ∀ i ∈ [steadyTick false 202000], i.aborted = false ∧
      altitudeChange scenarioHelpers i.kalmanFifo
        ≤ scenarioThresholds.landing_altimeter_threshold ∧
      elapsedMs scenarioHelpers i.now (steadyTick false 200000).now
        ≤ scenarioThresholds.landing_time_thresh := by
    intro i hi
    rw [List.mem_singleton] at hi
    subst hi
    exact ⟨rfl, by rw [hch]; norm_num [scenarioThresholds], by decide⟩
  have hlast : (steadyTick false 205001).aborted = false ∧
      altitudeChange scenarioHelpers (steadyTick false 205001).kalmanFifo
        ≤ scenarioThresholds.landing_altimeter_threshold ∧
      elapsedMs scenarioHelpers (steadyTick false 205001).now (steadyTick false 200000).now
        > scenarioThresholds.landing_time_thresh :=
    ⟨rfl, by rw [hch]; norm_num [scenarioThresholds], by decide⟩
  have hnc : ¬ altitudeChange scenarioHelpers (steadyTick false 205001).kalmanFifo
      > scenarioThresholds.landing_altimeter_threshold := by
    rw [hch]; norm_num [scenarioThresholds]
  have hel : elapsedMs scenarioHelpers (steadyTick false 205001).now
      landedDetectFSM.landing_time_ > scenarioThresholds.landing_time_thresh := by decide
  ⟨rfl, rfl, rfl, hfirst, hmid, hlast,
    (((landed_detect_tick scenarioThresholds scenarioHelpers landedDetectFSM
      (steadyTick false 205001) mainFSM (steadyTick false 200000) [steadyTick false 202000]
      (steadyTick false 205001) rfl rfl rfl hfirst hmid hlast).2.1 hnc).1).mpr hel,
    (landed_detect_tick scenarioThresholds scenarioHelpers landedDetectFSM
      (steadyTick false 205001) mainFSM (steadyTick false 200000) [steadyTick false 202000]
      (steadyTick false 205001) rfl rfl rfl hfirst hmid hlast).2.2.1,
    (landed_detect_tick scenarioThresholds scenarioHelpers landedDetectFSM
      (steadyTick false 205001) mainFSM (steadyTick false 200000) [steadyTick false 202000]
      (steadyTick false 205001) rfl rfl rfl hfirst hmid hlast).2.2.2⟩

/-! ## Skipping a detection phase -/

/-- The machine after each prefix of `ascentTicks`. -/
theorem ascent_prefixes :
    runFSM scenarioThresholds scenarioHelpers bootFSM (ascentTicks.take 1)
      = { bootFSM with rocket_state_ := .STATE_IDLE } ∧
    runFSM scenarioThresholds scenarioHelpers bootFSM (ascentTicks.take 2)
      = { bootFSM with rocket_state_ := .STATE_LAUNCH_DETECT, launch_time_ := 10000 } ∧
    runFSM scenarioThresholds scenarioHelpers bootFSM (ascentTicks.take 3)
      = { bootFSM with
          rocket_state_ := .STATE_BOOST, launch_time_ := 10000, burn_timer_ := 251 } ∧
    runFSM scenarioThresholds scenarioHelpers bootFSM ascentTicks
      = { bootFSM with
          rocket_state_ := .STATE_COAST_PREGNC, launch_time_ := 10000, burn_timer_ := 4500,
          burnout_time_ := 14500 } := by
  refine ⟨?_, ?_, ?_, ?_⟩ <;>
    norm_num [ascentTicks, runFSM, tickFSM, tickSwitch, bootFSM, steadyTick, thrustTick,
      scenarioThresholds, scenarioHelpers, systimeSub]

/-- C21 (amended). With the abort flag unset, a tick moves the phase forward
past a `*_DETECT` variant only through the timeout branch of the source phase.
When it goes from `STATE_BOOST` to `STATE_COAST_PREGNC`, from `STATE_COAST_GNC`
to `STATE_APOGEE`, from `STATE_DROGUE` to `STATE_MAIN` or from `STATE_MAIN` to
`STATE_LANDED`, the magnitude predicate that enters the skipped variant did not
hold at that tick and the time elapsed since `launch_time_`, `burnout_time_`,
`drogue_time_`, `main_time_` had reached the timeout threshold; when it goes
from `STATE_APOGEE` to `STATE_DROGUE` the magnitude predicate did not hold
either. No other tick moves the phase forward by more than one step. -/
theorem skip_is_timeout (th : Thresholds) (hp : Helpers) (fsm : KalmanFSM) (inp : TickInput)
    (hab : inp.aborted = false) :
    (fsm.rocket_state_ = FSM_State.STATE_BOOST →
      (tickFSM th hp fsm inp).rocket_state_ = FSM_State.STATE_COAST_PREGNC →
      ¬ inp.est.state_est_accel_x < th.coast_thresh ∧
      th.burn_time_thresh_ms ≤ elapsedMs hp inp.now fsm.launch_time_) ∧
    (fsm.rocket_state_ = FSM_State.STATE_COAST_GNC →
      (tickFSM th hp fsm inp).rocket_state_ = FSM_State.STATE_APOGEE →
      ¬ |inp.est.state_est_vel_x| * (2 / 100) < th.apogee_altimeter_threshold ∧
      th.coast_to_apogee_time_thresh ≤ elapsedMs hp inp.now fsm.burnout_time_) ∧
    (fsm.rocket_state_ = FSM_State.STATE_APOGEE →
      (tickFSM th hp fsm inp).rocket_state_ = FSM_State.STATE_DROGUE →
      ¬ accelerationChange hp inp.kalmanFifo > th.drogue_acceleration_change_threshold_imu) ∧
    (fsm.rocket_state_ = FSM_State.STATE_DROGUE →
      (tickFSM th hp fsm inp).rocket_state_ = FSM_State.STATE_MAIN →
      ¬ (elapsedMs hp inp.now fsm.drogue_time_ > th.refresh_timer ∧
        accelerationChange hp inp.kalmanFifo > th.main_acceleration_change_threshold_imu) ∧
      th.main_deploy_time_since_drogue_threshold ≤ elapsedMs hp inp.now fsm.drogue_time_) ∧
    (fsm.rocket_state_ = FSM_State.STATE_MAIN →
      (tickFSM th hp fsm inp).rocket_state_ = FSM_State.STATE_LANDED →
      ¬ altitudeChange hp inp.kalmanFifo < th.landing_altimeter_threshold ∧
      th.main_deploy_time_since_drogue_threshold ≤ elapsedMs hp inp.now fsm.main_time_) ∧
    (fsm.rocket_state_.toNat + 1 < (tickFSM th hp fsm inp).rocket_state_.toNat →
      (fsm.rocket_state_ = FSM_State.STATE_BOOST ∧
        (tickFSM th hp fsm inp).rocket_state_ = FSM_State.STATE_COAST_PREGNC) ∨
      (fsm.rocket_state_ = FSM_State.STATE_COAST_GNC ∧
        (tickFSM th hp fsm inp).rocket_state_ = FSM_State.STATE_APOGEE) ∨
      (fsm.rocket_state_ = FSM_State.STATE_APOGEE ∧
        (tickFSM th hp fsm inp).rocket_state_ = FSM_State.STATE_DROGUE) ∨
      (fsm.rocket_state_ = FSM_State.STATE_DROGUE ∧
        (tickFSM th hp fsm inp).rocket_state_ = FSM_State.STATE_MAIN) ∨
      (fsm.rocket_state_ = FSM_State.STATE_MAIN ∧
        (tickFSM th hp fsm inp).rocket_state_ = FSM_State.STATE_LANDED)) := by
  refine ⟨?_, ?_, ?_, ?_, ?_, ?_⟩
  · intro hst hnew
    obtain ⟨hph, -⟩ := boost_arm th hp fsm inp hst hab
    rw [hph] at hnew
    split_ifs at hnew with h1 h2
    exact ⟨h1, not_lt.mp h2⟩
  · intro hst hnew
    obtain ⟨hph, -⟩ := coast_gnc_arm th hp fsm inp hst hab
    rw [hph] at hnew
    split_ifs at hnew with h1 h2
    exact ⟨h1, not_lt.mp h2⟩
  · intro hst hnew hwin
    obtain ⟨st, t1, t2, t3, t4, t5, t6, t7, t8, t9, t10, t11, t12⟩ := fsm
    simp only at hst
    subst hst
    simp only [tickFSM, hab, Bool.false_eq_true, if_false, tickSwitch] at hnew
    simp only [accelerationChange] at hwin
    rw [if_pos hwin] at hnew
    exact absurd hnew (by simp)
  · intro hst hnew
    obtain ⟨hph, -⟩ := drogue_arm th hp fsm inp hst hab
    rw [hph] at hnew
    split_ifs at hnew with h1 h2
    exact ⟨h1, not_lt.mp h2⟩
  · intro hst hnew
    obtain ⟨hph, -⟩ := main_arm th hp fsm inp hst hab
    rw [hph] at hnew
    split_ifs at hnew with h1 h2
    exact ⟨h1, not_lt.mp h2⟩
  · obtain ⟨st, t1, t2, t3, t4, t5, t6, t7, t8, t9, t10, t11, t12⟩ := fsm
    simp only [tickFSM, hab]
    cases st <;> simp only [tickSwitch, Bool.false_eq_true, if_false] <;> (try split_ifs) <;>
      simp [FSM_State.toNat]

/-- Witness for C21: the boosting machine at 14500, 4500 ms after launch, still
thrusting. -/
theorem skip_is_timeout_witness :
    (thrustTick 14500).aborted = false ∧
    boostFSM.rocket_state_ = FSM_State.STATE_BOOST ∧
    (tickFSM scenarioThresholds scenarioHelpers boostFSM (thrustTick 14500)).rocket_state_
      = FSM_State.STATE_COAST_PREGNC ∧
    ¬ (thrustTick 14500).est.state_est_accel_x < scenarioThresholds.coast_thresh ∧
    scenarioThresholds.burn_time_thresh_ms
      ≤ elapsedMs scenarioHelpers (thrustTick 14500).now boostFSM.launch_time_ :=
  have hnew : (tickFSM scenarioThresholds scenarioHelpers boostFSM
      (thrustTick 14500)).rocket_state_ = FSM_State.STATE_COAST_PREGNC := by
    norm_num [tickFSM, tickSwitch, boostFSM, bootFSM, thrustTick, scenarioThresholds,
      scenarioHelpers, systimeSub]
  ⟨rfl, rfl, hnew,
    (skip_is_timeout scenarioThresholds scenarioHelpers boostFSM (thrustTick 14500) rfl).1
      rfl hnew⟩

/-- C21 (counterexample). On the powered ascent `ascentTicks` the abort flag is
never set and the machine is never in `STATE_BURNOUT_DETECT`; the last tick
takes it from `STATE_BOOST` to `STATE_COAST_PREGNC` although the estimated
acceleration is not below `coast_thresh`, the magnitude predicate of burnout
detection. -/
theorem skip_without_magnitude :
    (∀ inp ∈ ascentTicks, inp.aborted = false) ∧
    (∀ n : Nat, (runFSM scenarioThresholds scenarioHelpers bootFSM
      (ascentTicks.take n)).rocket_state_ ≠ FSM_State.STATE_BURNOUT_DETECT) ∧
    (runFSM scenarioThresholds scenarioHelpers bootFSM (ascentTicks.take 3)).rocket_state_
      = FSM_State.STATE_BOOST ∧
    (runFSM scenarioThresholds scenarioHelpers bootFSM ascentTicks).rocket_state_
      = FSM_State.STATE_COAST_PREGNC ∧
    ¬ (thrustTick 14500).est.state_est_accel_x < scenarioThresholds.coast_thresh := by
  obtain ⟨h1, h2, h3, h4⟩ := ascent_prefixes
  refine ⟨?_, ?_, ?_, ?_, ?_⟩
  · intro inp hin
    simp only [ascentTicks, List.mem_cons, List.mem_singleton, List.not_mem_nil, or_false] at hin
    rcases hin with h | h | h | h <;> subst h <;> rfl
  · intro n
    rcases n with _ | _ | _ | _ | n
    · simp [runFSM, bootFSM]
    · rw [h1]; simp
    · rw [h2]; simp
    · rw [h3]; simp
    · have e : ascentTicks.take (n + 1 + 1 + 1 + 1) = ascentTicks := by simp [ascentTicks]
      rw [e, h4]; simp
  · rw [h3]
  · rw [h4]
  · norm_num [thrustTick, scenarioThresholds]

/-! ## The state `Initialize` seeds -/

/-- The averaging loop of `Initialize` adds up the readings in order. -/
theorem baro_sum (baro : Nat → ℚ) (n : Nat) :
    (List.range n).foldl (fun sum i => sum + baro i) 0 = ∑ i in Finset.range n, baro i := by
  induction n with
  | zero => rfl
  | succ n ih => rw [List.range_succ, List.foldl_append, ih, Finset.sum_range_succ]; rfl

/-- C22 (amended). For every filter content before the call and every sequence of
30 barometer readings, after `Initialize` the state vector is
`((b1 + ... + b30)/30, 0, 0)`, `P` is the 3x3 zero matrix, and `R` has
`R[0,0] = 2.0`, `R[1,1] = 0.1` with its two off-diagonal entries as they were
before the call. -/
theorem Initialize_seed (kf : KalmanFilter) (baro : Nat → ℚ) :
    (Initialize kf baro).x_k = !![(∑ i in Finset.range 30, baro i) / 30; 0; 0] ∧
    (Initialize kf baro).P_k = 0 ∧
    (Initialize kf baro).R = !![2, kf.R 0 1; kf.R 1 0, 1 / 10] := by
  refine ⟨?_, ?_, ?_⟩
  · rw [← baro_sum]
    ext i j
    fin_cases i <;> fin_cases j <;> simp [Initialize, Matrix.vecHead, Matrix.vecTail]
  · ext i j
    fin_cases i <;> fin_cases j <;> simp [Initialize]
  · ext i j
    fin_cases i <;> fin_cases j <;> simp [Initialize]

/-- C22 (counterexample). A filter that held `R[0,1] = 1` before `Initialize`
still holds it afterwards, so `R` is not `diag(2.0, 0.1)`. -/
theorem Initialize_keeps_stale_noise :
    (Initialize staleNoiseFilter (fun _ => 200)).R 0 1 = 1 ∧
    (Matrix.diagonal ![2, 1 / 10] : Mat 2 2) 0 1 = 0 ∧
    (Initialize staleNoiseFilter (fun _ => 200)).R ≠ Matrix.diagonal ![2, 1 / 10] := by
  have h1 : (Initialize staleNoiseFilter (fun _ => 200)).R 0 1 = 1 := by
    simp [Initialize, staleNoiseFilter, constructedFilter]
  have h2 : (Matrix.diagonal ![2, 1 / 10] : Mat 2 2) 0 1 = 0 := by simp
  refine ⟨h1, h2, ?_⟩
  intro h
  rw [h, h2] at h1
  exact absurd h1 (by norm_num)

/-! ## The abort latch of the telemetry channel -/

/-- A command never clears the abort flag of the telemetry object. -/
theorem handleCommand_keeps_abort (t : Telemetry) (cmd : telemetry_command)
    (h : t.abort = true) : (handleCommand t cmd).abort = true := by
  unfold handleCommand
  split_ifs <;> simp_all

/-- C23. `handleCommand` on a command with the verification code `AYBERK`, a
`cmd_id` different from `last_command_id` and `command = ABORT` leaves
`abort = true`; and for every command, and every sequence of commands, an
`abort` that was true before is true afterwards. -/
theorem abort_latch (t : Telemetry) (cmd : telemetry_command) :
    (cmd.verify = ['A', 'Y', 'B', 'E', 'R', 'K'] → t.last_command_id ≠ cmd.cmd_id →
      cmd.command = CommandType.ABORT → (handleCommand t cmd).abort = true) ∧
    (t.abort = true → (handleCommand t cmd).abort = true) ∧
    (t.abort = true → ∀ cmds : List telemetry_command,
      (cmds.foldl handleCommand t).abort = true) := by
  refine ⟨?_, handleCommand_keeps_abort t cmd, ?_⟩
  · intro hv hid hc
    unfold handleCommand
    rw [if_neg (not_not.mpr hv), if_neg hid]
    cases hab : t.abort <;> simp [hc, hab]
  · intro h cmds
    induction cmds generalizing t with
    | nil => exact h
    | cons c rest ih => exact ih (handleCommand t c) (handleCommand_keeps_abort t c h)

/-- Witness for C23: a fresh telemetry object receives a verified `ABORT` with
id 7, then a verified `SET_FREQ` with id 8. -/
theorem abort_latch_witness :
    (verifiedCommand CommandType.ABORT 7).verify = ['A', 'Y', 'B', 'E', 'R', 'K'] ∧
    freshTelemetry.last_command_id ≠ (verifiedCommand CommandType.ABORT 7).cmd_id ∧
    (verifiedCommand CommandType.ABORT 7).command = CommandType.ABORT ∧
    freshTelemetry.abort = false ∧
    (handleCommand freshTelemetry (verifiedCommand CommandType.ABORT 7)).abort = true ∧
    (handleCommand (handleCommand freshTelemetry (verifiedCommand CommandType.ABORT 7))
      (verifiedCommand CommandType.SET_FREQ 8)).abort = true :=
  have h1 : (handleCommand freshTelemetry (verifiedCommand CommandType.ABORT 7)).abort = true :=
    (abort_latch freshTelemetry (verifiedCommand CommandType.ABORT 7)).1 rfl (by decide) rfl
  ⟨rfl, by decide, rfl, rfl, h1,
    (abort_latch (handleCommand freshTelemetry (verifiedCommand CommandType.ABORT 7))
      (verifiedCommand CommandType.SET_FREQ 8)).2.1 h1⟩
/-! ## A failed GPS read -/

/-- C24. When `getPVT` returns false, `GPSSensor::update` leaves the cache
(latitude, longitude, altitude, fix_type, pos_lock, SIV_count, timestamp) and
the GPS fifo as they were, so every getter returns what it returned before. -/
theorem gps_failed_read_keeps_cache (cap : Nat) (enable_gps : Bool) (w : GpsWorld)
    (r : GNSSRead) (hfail : r.getPVT = false) :
    GPSSensor.update cap enable_gps w r = w ∧
    (GPSSensor.update cap enable_gps w r).gps.timeStamp = w.gps.timeStamp ∧
    (GPSSensor.update cap enable_gps w r).gpsFifo = w.gpsFifo ∧
    (GPSSensor.update cap enable_gps w r).gps.getLatitude = w.gps.getLatitude ∧
    (GPSSensor.update cap enable_gps w r).gps.getLongitude = w.gps.getLongitude ∧
    (GPSSensor.update cap enable_gps w r).gps.getAltitude = w.gps.getAltitude ∧
    (GPSSensor.update cap enable_gps w r).gps.getFixType = w.gps.getFixType ∧
    (GPSSensor.update cap enable_gps w r).gps.getPosLock = w.gps.getPosLock ∧
    (GPSSensor.update cap enable_gps w r).gps.getSIVCount = w.gps.getSIVCount := by
  have h : GPSSensor.update cap enable_gps w r = w := by
    unfold GPSSensor.update
    cases enable_gps <;> simp [hfail]
  rw [h]
  exact ⟨rfl, rfl, rfl, rfl, rfl, rfl, rfl, rfl, rfl⟩

/-- Witness for C24: a failed read on a cache that holds a fix. -/
theorem gps_failed_read_keeps_cache_witness :
    failedRead.getPVT = false ∧
    GPSSensor.update 16 true fixedGpsWorld failedRead = fixedGpsWorld :=
  ⟨rfl, (gps_failed_read_keeps_cache 16 true fixedGpsWorld failedRead rfl).1⟩
/-! ## Servo activation -/

/-- `round_off_angle` leaves 0 where it is. -/
theorem round_off_angle_zero : round_off_angle 0 = 0 := by
  decide

/-- C25 (amended). One pass of the servo loop activates flap control exactly
when the state is `STATE_INIT`, `STATE_IDLE`, `STATE_LAUNCH_DETECT` or
`STATE_COAST`, and then commands both servos to the sensor reading `gz`,
truncated to an integer and clamped to `[0, 180]`; in every other state both
servos are commanded to the inactive angle 0, independent of the reading. -/
theorem servo_activation (state : ServoState) (gz : ℚ) :
    ((servo_THD state gz).active_control = true ↔
      state = ServoState.STATE_INIT ∨ state = ServoState.STATE_IDLE ∨
      state = ServoState.STATE_LAUNCH_DETECT ∨ state = ServoState.STATE_COAST) ∧
    ((servo_THD state gz).active_control = true →
      (servo_THD state gz).cw_angle = round_off_angle (truncToInt gz) ∧
      (servo_THD state gz).ccw_angle = round_off_angle (truncToInt gz)) ∧
    ((servo_THD state gz).active_control = false →
      (servo_THD state gz).cw_angle = 0 ∧ (servo_THD state gz).ccw_angle = 0) := by
  cases state <;> simp [servo_THD, round_off_angle_zero]

/-- Witness for C25: coasting with a reading of 45.5, and boosting with the
same reading. -/
theorem servo_activation_witness :
    (servo_THD ServoState.STATE_COAST (91 / 2)).active_control = true ∧
    (servo_THD ServoState.STATE_COAST (91 / 2)).cw_angle = round_off_angle (truncToInt (91 / 2)) ∧
    (servo_THD ServoState.STATE_BOOST (91 / 2)).active_control = false ∧
    (servo_THD ServoState.STATE_BOOST (91 / 2)).cw_angle = 0 :=
  ⟨rfl,
    ((servo_activation ServoState.STATE_COAST (91 / 2)).2.1 rfl).1, rfl,
    ((servo_activation ServoState.STATE_BOOST (91 / 2)).2.2 rfl).1⟩

/-- C25 (counterexample). In `STATE_IDLE`, which is not the coast state, flap
control is active and the servos follow the sensor reading: 45 for a reading
of 45, 120 for a reading of 120. -/
theorem servo_active_on_pad :
    (servo_THD ServoState.STATE_IDLE 45).active_control = true ∧
    (servo_THD ServoState.STATE_IDLE 45).cw_angle = 45 ∧
    (servo_THD ServoState.STATE_IDLE 45).ccw_angle = 45 ∧
    (servo_THD ServoState.STATE_IDLE 120).cw_angle = 120 ∧
    (servo_THD ServoState.STATE_IDLE 120).ccw_angle = 120 := by
  have h45 : truncToInt 45 = 45 := by
    simp [truncToInt]
  have h120 : truncToInt 120 = 120 := by
    simp [truncToInt]
  simp [servo_THD, h45, h120, round_off_angle]

/-! ## The windowed mean -/

/-- The sum over the window `[i, i + k)` of a fifo, sample by sample. -/
theorem window_sum (f : KalmanData → ℚ) (d : KalmanData) (l : List KalmanData) (i k : Nat)
    (h : i + k ≤ l.length) :
    (((l.drop i).take k).map f).sum = ∑ j in Finset.range k, f (l.getD (i + j) d) := by
  induction k with
  | zero => simp
  | succ k ih =>
    have hlt : i + k < l.length := by omega
    rw [List.take_succ, List.map_append, List.sum_append, ih (by omega), Finset.sum_range_succ]
    congr 1
    simp [List.getElem?_drop, List.getElem?_eq_getElem hlt]

/-- C26. With the windowed mean of the FSM base class, `getAltitudeAverage` and
`getAccelerationAverage` over the estimate fifo (newest sample first) are the
arithmetic mean of the position, resp. acceleration, of the `k` samples at
offsets `i, ..., i + k - 1` whenever `k > 0` and the window fits in the fifo,
and are 0 when `k = 0`, when `i` is out of range, or when the window
`[i, i + k)` exceeds the number of samples held. -/
theorem windowed_mean (hp : Helpers) (hget : hp.getAverage = getAverage)
    (fifo : List KalmanData) (i k : Nat) (d : KalmanData) :
    (0 < k → i + k ≤ fifo.length →
      getAltitudeAverage hp fifo i k
        = (∑ j in Finset.range k, (fifo.getD (i + j) d).kalman_pos_x) / k ∧
      getAccelerationAverage hp fifo i k
        = (∑ j in Finset.range k, (fifo.getD (i + j) d).kalman_acc_x) / k) ∧
    (k = 0 ∨ fifo.length ≤ i ∨ fifo.length < i + k →
      getAltitudeAverage hp fifo i k = 0 ∧ getAccelerationAverage hp fifo i k = 0) := by
  constructor
  · intro hk hfit
    have hc : ¬ (k = 0 ∨ fifo.length < i + k) := by omega
    simp only [getAltitudeAverage, getAccelerationAverage, hget, getAverage, if_neg hc]
    rw [window_sum (fun s => s.kalman_pos_x) d fifo i k hfit,
      window_sum (fun s => s.kalman_acc_x) d fifo i k hfit]
    exact ⟨rfl, rfl⟩
  · intro hout
    by_cases hk : k = 0
    · simp [getAltitudeAverage, getAccelerationAverage, hget, getAverage, hk]
    · have hc : k = 0 ∨ fifo.length < i + k := by omega
      simp [getAltitudeAverage, getAccelerationAverage, hget, getAverage, if_pos hc]

/-- Witness for C26: the window of 3 samples at offset 3 of the steady fifo,
and a window of 3 samples at offset 6 that runs past its 8 samples. -/
theorem windowed_mean_witness :
    scenarioHelpers.getAverage = getAverage ∧ 0 < 3 ∧ 3 + 3 ≤ (steadyFifo 8).length ∧
    getAltitudeAverage scenarioHelpers (steadyFifo 8) 3 3
      = (∑ j in Finset.range 3,
          ((steadyFifo 8).getD (3 + j) ⟨0, 0, 0, 0, 0⟩).kalman_pos_x) / (3 : Nat) ∧
    (steadyFifo 8).length < 6 + 3 ∧
    getAltitudeAverage scenarioHelpers (steadyFifo 8) 6 3 = 0 :=
  ⟨rfl, by decide, by decide,
    ((windowed_mean scenarioHelpers rfl (steadyFifo 8) 3 3 ⟨0, 0, 0, 0, 0⟩).1
      (by decide) (by decide)).1,
    by decide,
    ((windowed_mean scenarioHelpers rfl (steadyFifo 8) 6 3 ⟨0, 0, 0, 0, 0⟩).2
      (Or.inr (Or.inr (by decide)))).1⟩

/-! ## Range conversion clamps -/

/-- Dropping the fractional part of an integer returns it. -/
theorem truncToInt_intCast (n : Int) : truncToInt (n : ℚ) = n := by
  unfold truncToInt
  split_ifs <;> simp

/-- Dropping the fractional part is monotone. -/
theorem truncToInt_mono {a b : ℚ} (h : a ≤ b) : truncToInt a ≤ truncToInt b := by
  unfold truncToInt
  split_ifs with ha hb hb
  · exact Int.floor_mono h
  · exact absurd (le_trans ha h) hb
  · have h1 : ⌈a⌉ ≤ 0 := Int.ceil_le.mpr (by simpa using le_of_lt (not_le.mp ha))
    have h2 : (0 : Int) ≤ ⌊b⌋ := Int.floor_nonneg.mpr hb
    exact le_trans h1 h2
  · exact Int.ceil_mono h

/-- `std::min` is the minimum. -/
theorem stdMin_eq (a b : ℚ) : stdMin a b = min a b := by
  unfold stdMin
  split_ifs with h
  · exact (min_eq_right (le_of_lt h)).symm
  · exact (min_eq_left (not_lt.mp h)).symm

/-- `std::max` is the maximum. -/
theorem stdMax_eq (a b : ℚ) : stdMax a b = max a b := by
  unfold stdMax
  split_ifs with h
  · exact (max_eq_right (le_of_lt h)).symm
  · exact (max_eq_left (not_lt.mp h)).symm

/-- The numeric range of `T` is `2^w`, and its minimum is below its maximum. -/
theorem numeric_range_eq (T : IntegerType) :
    numeric_limits_max T - numeric_limits_min T + 1 = 2 ^ bit_width T ∧
    numeric_limits_min T ≤ numeric_limits_max T := by
  cases T <;> decide

/-- C27. For `T` one of `int16_t`, `uint16_t`, `uint8_t` of bit width `w`, every
`range > 0` and every `val`, with `c = val·2^w/range`:
`inv_convert_range<T>(val, range)` is `max(T)` when `c ≥ max(T)`, `min(T)` when
`c ≤ min(T)`, and `c` with its fractional part dropped otherwise; it lies in
`[min(T), max(T)]` and is non-decreasing in `val`. -/
theorem inv_convert_range_clamps (T : IntegerType) (val range : ℚ) (hr : 0 < range) :
    ((numeric_limits_max T : ℚ) ≤ val * 2 ^ bit_width T / range →
      inv_convert_range T val range = numeric_limits_max T) ∧
    (val * 2 ^ bit_width T / range ≤ (numeric_limits_min T : ℚ) →
      inv_convert_range T val range = numeric_limits_min T) ∧
    ((numeric_limits_min T : ℚ) < val * 2 ^ bit_width T / range →
      val * 2 ^ bit_width T / range < (numeric_limits_max T : ℚ) →
      inv_convert_range T val range = truncToInt (val * 2 ^ bit_width T / range)) ∧
    numeric_limits_min T ≤ inv_convert_range T val range ∧
    inv_convert_range T val range ≤ numeric_limits_max T ∧
    (∀ val' : ℚ, val ≤ val' →
      inv_convert_range T val range ≤ inv_convert_range T val' range) := by
  obtain ⟨hnr, hmM⟩ := numeric_range_eq T
  have hmMq : (numeric_limits_min T : ℚ) ≤ (numeric_limits_max T : ℚ) := by exact_mod_cast hmM
  have hnrq : ((numeric_limits_max T - numeric_limits_min T + 1 : Int) : ℚ)
      = 2 ^ bit_width T := by
    rw [hnr]; push_cast; rfl
  have hform : ∀ v : ℚ, inv_convert_range T v range
      = truncToInt (max (min (numeric_limits_max T : ℚ) (v * 2 ^ bit_width T / range))
          (numeric_limits_min T : ℚ)) := by
    intro v
    simp only [inv_convert_range, stdMin_eq, stdMax_eq, hnrq]
  refine ⟨?_, ?_, ?_, ?_, ?_, ?_⟩
  · intro h
    rw [hform, min_eq_left h, max_eq_left hmMq, truncToInt_intCast]
  · intro h
    rw [hform, min_eq_right (le_trans h hmMq), max_eq_right h, truncToInt_intCast]
  · intro h1 h2
    rw [hform, min_eq_right (le_of_lt h2), max_eq_left (le_of_lt h1)]
  · rw [hform]
    have := truncToInt_mono (le_max_right
      (min (numeric_limits_max T : ℚ) (val * 2 ^ bit_width T / range))
      (numeric_limits_min T : ℚ))
    rwa [truncToInt_intCast] at this
  · rw [hform]
    have := truncToInt_mono (max_le (min_le_left (numeric_limits_max T : ℚ)
      (val * 2 ^ bit_width T / range)) hmMq)
    rwa [truncToInt_intCast] at this
  · intro val' hv
    rw [hform, hform]
    apply truncToInt_mono
    apply max_le_max_right
    apply min_le_min_left
    apply div_le_div_of_nonneg_right _ (le_of_lt hr)
    exact mul_le_mul_of_nonneg_right hv (by positivity)

/-- Witness for C27: a magnetometer field, `int16_t` over a range of
8: one unit converts to 8192, five units saturate at 32767. -/
theorem inv_convert_range_clamps_witness :
    (0 : ℚ) < 8 ∧
    inv_convert_range IntegerType.int16_t 5 8 = 32767 ∧
    numeric_limits_min IntegerType.int16_t ≤ inv_convert_range IntegerType.int16_t 1 8 ∧
    inv_convert_range IntegerType.int16_t 1 8 ≤ inv_convert_range IntegerType.int16_t 5 8 :=
  have hr : (0 : ℚ) < 8 := by norm_num
  ⟨hr,
    (inv_convert_range_clamps IntegerType.int16_t 5 8 hr).1
      (by norm_num [numeric_limits_max, bit_width]),
    (inv_convert_range_clamps IntegerType.int16_t 1 8 hr).2.2.2.1,
    (inv_convert_range_clamps IntegerType.int16_t 1 8 hr).2.2.2.2.2 5 (by norm_num)⟩

/-! ## Indices of the drag-coefficient spline -/

/-- The sizes of the two tables of the spline. -/
theorem spline_table_sizes : rk4.c.length = 120 ∧ rk4.x_interpolate.length = 30 := by
  constructor <;> rfl

/-- The last interpolation point is 3.0. -/
theorem spline_last_knot :
    rk4.x_interpolate.getD (rk4.x_interpolate.length - 1) 0 = 3 := by
  norm_num [rk4.x_interpolate]

/-- C28 (the code at the failing input). At the last knot `x = 3.0`, inside the
range `0.01 ≤ x ≤ 3.0`, the index selected is 29; the coefficient indices
`4·29, ..., 4·29 + 3` are in bounds but the knot index `29 + 1 = 30` is not an
index of the 30-entry knot vector, so the evaluation makes an out-of-bounds
access. The same happens at `x = 2.95`, through the `floor` branch. -/
theorem spline_reads_past_last_knot :
    rk4.x_interpolate.length = 30 ∧ (1 / 100 : ℚ) ≤ 3 ∧ (3 : ℚ) ≤ 3 ∧
    rk4.interval_index 3 = 29 ∧
    (rk4.coeff rk4.c (4 * 29 + 3)).isSome = true ∧
    rk4.coeff rk4.x_interpolate (29 + 1) = none ∧
    rk4.approximate_cubic_spline_ 3 = none ∧
    rk4.interval_index (59 / 20) = 29 ∧
    rk4.approximate_cubic_spline_ (59 / 20) = none := by
  have hi : rk4.interval_index 3 = 29 := by
    unfold rk4.interval_index
    rw [spline_last_knot, if_pos rfl]
    rfl
  have hj : rk4.interval_index (59 / 20) = 29 := by
    unfold rk4.interval_index
    rw [spline_last_knot, if_neg (by norm_num)]
    rw [Int.floor_eq_iff]
    constructor <;> norm_num
  have hk : rk4.coeff rk4.x_interpolate 30 = none := by
    rfl
  have hc : (rk4.coeff rk4.c (4 * 29 + 3)).isSome = true := by
    simp [rk4.coeff, rk4.c]
  have hev : ∀ x : ℚ, rk4.interval_index x = 29 → rk4.approximate_cubic_spline_ x = none := by
    intro x hx
    unfold rk4.approximate_cubic_spline_
    rw [hx]
    simp [hk]
  exact ⟨rfl, by norm_num, le_refl _, hi, hc, hk, hev 3 hi, hj, hev _ hj⟩

/-! ## The interval the spline index selects -/

/-- C29 (the code at the failing input). For `x = 0.105`, inside the range
`0.01 ≤ x < 3.0`, the index selected is `floor(1.05) = 1`, whose lower knot
`x_interpolate[1] = 0.11310345` lies above `x`; the interval that contains `x`
is the one of index 0. -/
theorem spline_index_misses_interval :
    (1 / 100 : ℚ) ≤ 21 / 200 ∧ (21 / 200 : ℚ) < 3 ∧
    rk4.interval_index (21 / 200) = 1 ∧
    rk4.coeff rk4.x_interpolate 1 = some 0.11310345 ∧
    ¬ ((0.11310345 : ℚ) ≤ 21 / 200) ∧
    rk4.coeff rk4.x_interpolate 0 = some 0.01 ∧
    (0.01 : ℚ) ≤ 21 / 200 ∧ (21 / 200 : ℚ) ≤ 0.11310345 := by
  have hj : rk4.interval_index (21 / 200) = 1 := by
    unfold rk4.interval_index
    rw [spline_last_knot, if_neg (by norm_num)]
    rw [Int.floor_eq_iff]
    constructor <;> norm_num
  refine ⟨by norm_num, by norm_num, hj, rfl, by norm_num, rfl, by norm_num, by norm_num⟩

/-! ## Rejected telemetry commands -/

/-- C30. A command whose `verify` field is not `AYBERK`, or whose `cmd_id`
equals `last_command_id`, changes nothing: `abort`, `last_command_id`, the
pending frequency change (`should_change`, `new_freq`) and the callsign are
after the call what they were before, whatever the command type. -/
theorem rejected_command_ignored (t : Telemetry) (cmd : telemetry_command)
    (hrej : cmd.verify ≠ ['A', 'Y', 'B', 'E', 'R', 'K'] ∨ cmd.cmd_id = t.last_command_id) :
    handleCommand t cmd = t ∧
    (handleCommand t cmd).abort = t.abort ∧
    (handleCommand t cmd).last_command_id = t.last_command_id ∧
    (handleCommand t cmd).freq_status.should_change = t.freq_status.should_change ∧
    (handleCommand t cmd).freq_status.new_freq = t.freq_status.new_freq ∧
    (handleCommand t cmd).callsign = t.callsign := by
  have h : handleCommand t cmd = t := by
    unfold handleCommand
    rcases hrej with hv | hid
    · rw [if_pos hv]
    · by_cases hv : cmd.verify ≠ ['A', 'Y', 'B', 'E', 'R', 'K']
      · rw [if_pos hv]
      · rw [if_neg hv, if_pos hid.symm]
  rw [h]
  exact ⟨rfl, rfl, rfl, rfl, rfl, rfl⟩

/-- Witness for C30: a verified `ABORT` whose id repeats the last one seen. -/
theorem rejected_command_ignored_witness :
    (verifiedCommand CommandType.ABORT (-1)).cmd_id = freshTelemetry.last_command_id ∧
    handleCommand freshTelemetry (verifiedCommand CommandType.ABORT (-1)) = freshTelemetry :=
  ⟨rfl, (rejected_command_ignored freshTelemetry (verifiedCommand CommandType.ABORT (-1))
    (Or.inr rfl)).1⟩

end TARS
